import Mathlib

namespace MMALSrc

/-!
# gst-mmal-src: the `mmalsrc` GStreamer element

A shallow embedding of `src/gstplugins/gstmmalsrc.c` and `gstmmalsrc.h`.

The element talks to the MMAL / VCOS libraries of the Raspberry Pi firmware.
Those libraries are not part of this repository, so every call into them is
represented twice: its outcome is read from an environment record (one field
per library entry point), and the call itself is appended to a trace kept in
the state, so that what the element asks of the hardware can be observed.

Pointers are modelled as `Option Handle` (`none` is `NULL`), C strings as
`String`, unsigned machine integers as `Nat` (the element only copies and
compares them, it does no arithmetic on them).
-/

/-! ## Constants of `gstmmalsrc.h` -/

/-- Exposure "off" keyword, `MMALSRC_EXPOSURE_OFF`. -/
def MMALSRC_EXPOSURE_OFF : String := "off"

/-- Exposure "on" keyword, `MMALSRC_EXPOSURE_ON`. -/
def MMALSRC_EXPOSURE_ON : String := "on"

/-- Default of the shutter-activation property. -/
def MMALSRC_DEFAULT_SHUTTER_ACTIVATION : String := "on"

/-- Default of the shutter-period property. -/
def MMALSRC_DEFAULT_SHUTTER_PERIOD : Nat := 10000

/-- Default of the ISO property. -/
def MMALSRC_DEFAULT_ISO : Nat := 400

/-- Number of requested buffers, "need at least 2 buffers". -/
def MMALSRC_FRMBUF_COUNT : Nat := 6

/-- Pixel aspect ratio numerator. -/
def MMALSRC_PAR_NUM : Int := 1

/-- Pixel aspect ratio denominator. -/
def MMALSRC_PAR_DEN : Int := 1

/-- Index of the preview port of the camera component. -/
def MMAL_CAMERA_PREVIEW_PORT : Nat := 0

/-- Index of the video port of the camera component. -/
def MMAL_CAMERA_VIDEO_PORT : Nat := 1

/-- Index of the capture port of the camera component. -/
def MMAL_CAMERA_CAPTURE_PORT : Nat := 2

/-! ## Types of the MMAL / VCOS interface used by the element -/

/-- Identity of an object living on the C heap (its address). -/
abbrev Handle := Nat

/-- Status codes of MMAL calls (`MMAL_STATUS_T`). -/
inductive MMAL_STATUS_T
  | MMAL_SUCCESS | MMAL_ENOMEM | MMAL_ENOSPC | MMAL_EINVAL | MMAL_ENOSYS
  | MMAL_ENOENT | MMAL_ENXIO | MMAL_EIO | MMAL_ESPIPE | MMAL_ECORRUPT
  | MMAL_ENOTREADY | MMAL_ECONFIG | MMAL_EISCONN | MMAL_ENOTCONN
  | MMAL_EAGAIN | MMAL_EFAULT
  deriving DecidableEq, Repr

/-- Status codes of VCOS calls (`VCOS_STATUS_T`). -/
inductive VCOS_STATUS_T
  | VCOS_SUCCESS | VCOS_EAGAIN | VCOS_ENOENT | VCOS_ENOSPC | VCOS_EINVAL
  | VCOS_EACCESS | VCOS_ENOMEM | VCOS_ENOSYS | VCOS_EEXIST | VCOS_ENXIO
  | VCOS_EINTR
  deriving DecidableEq, Repr

/-- Exposure modes the element selects (`MMAL_PARAM_EXPOSUREMODE_T`). -/
inductive MMAL_PARAM_EXPOSUREMODE_T
  | MMAL_PARAM_EXPOSUREMODE_OFF
  | MMAL_PARAM_EXPOSUREMODE_AUTO
  deriving DecidableEq, Repr

/-- The parameters `gst_mmalsrc_start` hands to `mmal_port_parameter_set`,
each constructor standing for one parameter id with its value. -/
inductive MMAL_PARAMETER
  | MMAL_PARAMETER_CAPTURE (enable : Nat)
  | MMAL_PARAMETER_CAMERA_NUM (value : Int)
  | MMAL_PARAMETER_EXPOSURE_MODE (value : MMAL_PARAM_EXPOSUREMODE_T)
  | MMAL_PARAMETER_ISO (value : Nat)
  | MMAL_PARAMETER_SHUTTER_SPEED (value : Nat)
  deriving DecidableEq, Repr

/-- Rational number of MMAL. -/
structure MMAL_RATIONAL_T where
  num : Int
  den : Int
  deriving DecidableEq, Repr

/-- Elementary stream type of a port format. -/
inductive MMAL_ES_TYPE_T
  | MMAL_ES_TYPE_UNKNOWN | MMAL_ES_TYPE_CONTROL | MMAL_ES_TYPE_AUDIO
  | MMAL_ES_TYPE_VIDEO | MMAL_ES_TYPE_SUBPICTURE
  deriving DecidableEq, Repr

/-- Crop rectangle of a video format. -/
structure MMAL_RECT_T where
  x : Int
  y : Int
  width : Int
  height : Int
  deriving DecidableEq, Repr

/-- The part of `MMAL_ES_FORMAT_T` (with its `es->video`) the element writes. -/
structure MMAL_ES_FORMAT_T where
  type : MMAL_ES_TYPE_T
  encoding : Nat
  width : Nat
  height : Nat
  crop : MMAL_RECT_T
  frame_rate : MMAL_RATIONAL_T
  par : MMAL_RATIONAL_T
  deriving DecidableEq, Repr

/-- Payload of a parameter-changed event (`MMAL_EVENT_PARAMETER_CHANGED_T`
viewed through its header, and as `MMAL_PARAMETER_UINT32_T` for the value). -/
structure MMAL_EVENT_PARAMETER_CHANGED_T where
  hdr_id : Nat
  hdr_size : Nat
  value : Nat
  deriving DecidableEq, Repr

/-- A buffer header. `id` is its identity inside its pool, `pool` the
back-reference to the owning pool, `data` the address of the payload memory
and `event` the payload seen as a parameter-changed event. -/
structure MMAL_BUFFER_HEADER_T where
  id : Nat
  pool : Handle
  cmd : Nat
  data : Handle
  alloc_size : Nat
  length : Nat
  event : MMAL_EVENT_PARAMETER_CHANGED_T
  deriving DecidableEq, Repr

/-- The fields of `MMAL_PORT_T` the element reads or writes. -/
structure MMAL_PORT_T where
  format : MMAL_ES_FORMAT_T
  buffer_num_min : Nat
  buffer_size_min : Nat
  buffer_num_recommended : Nat
  buffer_size_recommended : Nat
  buffer_num : Nat
  buffer_size : Nat
  userdata : Option Handle
  is_enabled : Bool
  deriving DecidableEq, Repr

/-- A camera component: its control port and its array of output ports
(`output_num` is the length of that array). -/
structure MMAL_COMPONENT_T where
  handle : Handle
  control : Handle
  output : List Handle
  deriving DecidableEq, Repr

/-- Number of output ports of a component. -/
def MMAL_COMPONENT_T.output_num (c : MMAL_COMPONENT_T) : Nat := c.output.length

/-- The two buffer-header callbacks the element installs on ports. -/
inductive MMAL_PORT_BH_CB_T
  | control_bh_cb
  | generic_output_port_cb
  deriving DecidableEq, Repr

/-- Calls into the platform libraries, as recorded in the trace. -/
inductive MMAL_CALL
  | bcm_host_init
  | vcos_event_flags_create
  | vcos_event_flags_delete
  | vcos_event_flags_get
  | mmal_component_create
  | mmal_component_destroy (component : Option Handle)
  | mmal_component_enable (component : Handle)
  | mmal_port_parameter_set (port : Handle) (param : MMAL_PARAMETER)
  | mmal_port_enable (port : Handle) (cb : MMAL_PORT_BH_CB_T)
  | mmal_port_format_commit (port : Handle)
  | mmal_port_pool_create (port : Handle) (headers : Nat) (payload_size : Nat)
  | mmal_queue_create
  | mmal_port_send_buffer (port : Handle) (buffer : MMAL_BUFFER_HEADER_T)
  | mmal_queue_wait (queue : Handle)
  | mmal_queue_destroy (queue : Option Handle)
  | mmal_pool_destroy (pool : Option Handle)
  deriving DecidableEq, Repr

/-! ## The element -/

/-- Instance structure of the element (`struct _GstMMALSrc`). -/
structure GstMMALSrc where
  shutter_activation : String
  shutter_period : Nat
  iso : Nat
  exposure : String
  first_port_config : Nat
  width : Nat
  height : Nat
  framerate : MMAL_RATIONAL_T
  par : MMAL_RATIONAL_T
  encoding : Nat
  camera_component : Option Handle
  cam_pool : Option Handle
  cam_port : Option Handle
  queue_video_frames : Option Handle
  unlock : Bool
  deriving DecidableEq, Repr

/-- Everything the element's functions act on: the instance, the object its
`cam_port` points to, the file-scope `events` flags, the free-lists of the
buffer pools and the contents of the queues (both by handle), the buffers
currently owned by the hardware output port, and the trace of library calls. -/
structure World where
  mmalsrc : GstMMALSrc
  cam_port : MMAL_PORT_T
  events : Nat
  pools : Handle → List MMAL_BUFFER_HEADER_T
  queues : Handle → List MMAL_BUFFER_HEADER_T
  hw : List MMAL_BUFFER_HEADER_T
  calls : List MMAL_CALL

/-- Record a library call in the trace. -/
def World.call (w : World) (c : MMAL_CALL) : World :=
  { w with calls := w.calls ++ [c] }

/-- Event bits of `MMAL_CAM_EVENT_T`: a buffer is ready. -/
def MMAL_CAM_BUFFER_READY : Nat := 1 <<< 0

/-- Event bits of `MMAL_CAM_EVENT_T`: autofocus complete. -/
def MMAL_CAM_AUTOFOCUS_COMPLETE : Nat := 1 <<< 1

/-- Event bits of `MMAL_CAM_EVENT_T`: any event. -/
def MMAL_CAM_ANY_EVENT : Nat := 0x7FFFFFFF

/-- Command tag of a parameter-changed event, the fourcc `EPCH`. -/
def MMAL_EVENT_PARAMETER_CHANGED : Nat := 0x48435045

/-- Parameter id of the camera number (`MMAL_PARAMETER_GROUP_CAMERA + 16`). -/
def MMAL_PARAMETER_CAMERA_NUM_ID : Nat := 0x10010

/-- Size in bytes of `MMAL_EVENT_PARAMETER_CHANGED_T` (a parameter header). -/
def sizeof_MMAL_EVENT_PARAMETER_CHANGED_T : Nat := 8

/-- Size in bytes of `MMAL_PARAMETER_UINT32_T` (header and one value). -/
def sizeof_MMAL_PARAMETER_UINT32_T : Nat := 12

/-- The C library `strcmp`, on strings without embedded terminator: zero
exactly when the two strings are equal, otherwise the sign of their order. -/
def strcmp (a b : String) : Int :=
  if a = b then 0 else if a < b then -1 else 1

/-! ## Library primitives on pools and queues -/

/-- Replace the contents stored under one handle. -/
def setAt (m : Handle → List MMAL_BUFFER_HEADER_T) (h : Handle)
    (l : List MMAL_BUFFER_HEADER_T) : Handle → List MMAL_BUFFER_HEADER_T :=
  fun k => if k = h then l else m k

/-- Release of a buffer header (`mmal_buffer_header_release`): the header goes
back to the free-list of the pool it belongs to. -/
def mmal_buffer_header_release (w : World) (buffer : MMAL_BUFFER_HEADER_T) : World :=
  { w with pools := setAt w.pools buffer.pool (w.pools buffer.pool ++ [buffer]) }

/-- Append of a buffer header at the tail of a queue (`mmal_queue_put`); a
`NULL` queue is ignored. -/
def mmal_queue_put (w : World) (queue : Option Handle) (buffer : MMAL_BUFFER_HEADER_T) :
    World :=
  match queue with
  | none => w
  | some q => { w with queues := setAt w.queues q (w.queues q ++ [buffer]) }

/-- Setting of event flags with `VCOS_OR` (`vcos_event_flags_set`). -/
def vcos_event_flags_set (w : World) (bits : Nat) : World :=
  { w with events := w.events ||| bits }

/-- The VCOS assertion `vcos_assert`: it compiles to nothing when assertions
are disabled, and stops the process (`none`) on a false condition when they
are enabled. -/
def vcos_assert (enabled : Bool) (cond : Bool) : Option Unit :=
  if enabled && !cond then none else some ()

/-! ## Callbacks -/

/-- Control port callback `control_bh_cb`. `asserts` tells whether
`vcos_assert` is compiled in; the result is `none` when the process is
stopped by a failed assertion. The log statements have no effect on the
state. -/
def control_bh_cb (asserts : Bool) (w : World) (buffer : MMAL_BUFFER_HEADER_T) :
    Option World :=
  if buffer.cmd == MMAL_EVENT_PARAMETER_CHANGED then
    let param := buffer.event
    (vcos_assert asserts
        (decide (buffer.length ≥ sizeof_MMAL_EVENT_PARAMETER_CHANGED_T))).bind fun _ =>
    (vcos_assert asserts (buffer.length == param.hdr_size)).bind fun _ =>
    (if param.hdr_id == MMAL_PARAMETER_CAMERA_NUM_ID then
        -- case MMAL_PARAMETER_CAMERA_NUM: the camera number is logged
        vcos_assert asserts (param.hdr_size == sizeof_MMAL_PARAMETER_UINT32_T)
      else
        -- default: "Unexpected changed event for parameter" is logged
        some ()).bind fun _ =>
    some (mmal_buffer_header_release w buffer)
  else
    -- "Unexpected event" is logged
    some (mmal_buffer_header_release w buffer)

/-- Output port callback `generic_output_port_cb`, called on the port the
element enabled (`w.cam_port`), whose `userdata` is the queue of frames. -/
def generic_output_port_cb (w : World) (buffer : MMAL_BUFFER_HEADER_T) : World :=
  let w :=
    if buffer.cmd != 0 then
      mmal_buffer_header_release w buffer
    else
      let queue := w.cam_port.userdata
      mmal_queue_put w queue buffer
  vcos_event_flags_set w MMAL_CAM_BUFFER_READY

/-! ## Lifecycle: start and stop -/

/-- Outcomes of the library calls made by `gst_mmalsrc_start`. `camera` is
the component `mmal_component_create` yields when it succeeds. -/
structure StartEnv where
  vcos_event_flags_create : VCOS_STATUS_T
  mmal_component_create : MMAL_STATUS_T
  camera : MMAL_COMPONENT_T
  mmal_port_parameter_set : Handle → MMAL_PARAMETER → MMAL_STATUS_T
  mmal_port_enable : Handle → MMAL_STATUS_T
  mmal_component_enable : Handle → MMAL_STATUS_T

/-- Destruction of the camera component, `destroy_camera_component` (the
instance pointer it tests is never `NULL`). -/
def destroy_camera_component (w : World) : World :=
  let w := w.call (.mmal_component_destroy w.mmalsrc.camera_component)
  { w with mmalsrc := { w.mmalsrc with camera_component := none } }

/-- The `error:` label of `gst_mmalsrc_start`: the local `camera`, when set,
is destroyed, and `FALSE` is returned. -/
def gst_mmalsrc_start_error (camera : Option MMAL_COMPONENT_T) (w : World) :
    Bool × World :=
  match camera with
  | some c => (false, w.call (.mmal_component_destroy (some c.handle)))
  | none => (false, w)

/-- The last part of `gst_mmalsrc_start`, from "ENABLE CONTROL PORT" to the
final `return`. -/
def gst_mmalsrc_start_enable (env : StartEnv) (camera : MMAL_COMPONENT_T) (w : World) :
    Bool × World :=
  -- Enable control port
  let w := w.call (.mmal_port_enable camera.control .control_bh_cb)
  if env.mmal_port_enable camera.control != .MMAL_SUCCESS then
    gst_mmalsrc_start_error (some camera) w
  else
  -- Enable camera component
  let w := w.call (.mmal_component_enable camera.handle)
  if env.mmal_component_enable camera.handle != .MMAL_SUCCESS then
    gst_mmalsrc_start_error (some camera) w
  else
  let w := { w with mmalsrc := { w.mmalsrc with camera_component := some camera.handle } }
  (true, w)

/-- The "PARAMETERS" part of `gst_mmalsrc_start` and what follows it, for the
created component `camera` whose video port is `video_port`. -/
def gst_mmalsrc_start_parameters (env : StartEnv) (camera : MMAL_COMPONENT_T)
    (video_port : Handle) (w : World) : Bool × World :=
  let camera_capture := MMAL_PARAMETER.MMAL_PARAMETER_CAPTURE 1
  let camera_num := MMAL_PARAMETER.MMAL_PARAMETER_CAMERA_NUM 0
  let camera_iso := MMAL_PARAMETER.MMAL_PARAMETER_ISO w.mmalsrc.iso
  -- Exposure => on : MMAL_PARAM_EXPOSUREMODE_AUTO; off = MMAL_PARAM_EXPOSUREMODE_OFF
  let camera_exposure :=
    if strcmp w.mmalsrc.exposure MMALSRC_EXPOSURE_ON == 0 then
      MMAL_PARAMETER.MMAL_PARAMETER_EXPOSURE_MODE .MMAL_PARAM_EXPOSUREMODE_AUTO
    else
      MMAL_PARAMETER.MMAL_PARAMETER_EXPOSURE_MODE .MMAL_PARAM_EXPOSUREMODE_OFF
  -- Camera capture
  let w := w.call (.mmal_port_parameter_set video_port camera_capture)
  let status := env.mmal_port_parameter_set video_port camera_capture
  if status != .MMAL_SUCCESS && status != .MMAL_ENOSYS then
    gst_mmalsrc_start_error (some camera) w
  else
  -- Camera num
  let w := w.call (.mmal_port_parameter_set camera.control camera_num)
  let status := env.mmal_port_parameter_set camera.control camera_num
  if status != .MMAL_SUCCESS && status != .MMAL_ENOSYS then
    gst_mmalsrc_start_error (some camera) w
  else
  -- Camera exposure
  let w := w.call (.mmal_port_parameter_set camera.control camera_exposure)
  let status := env.mmal_port_parameter_set camera.control camera_exposure
  if status != .MMAL_SUCCESS && status != .MMAL_ENOSYS then
    gst_mmalsrc_start_error (some camera) w
  else
  -- Camera ISO
  let w := w.call (.mmal_port_parameter_set camera.control camera_iso)
  let status := env.mmal_port_parameter_set camera.control camera_iso
  if status != .MMAL_SUCCESS && status != .MMAL_ENOSYS then
    gst_mmalsrc_start_error (some camera) w
  else
  -- If shutter activation is on, the shutter period is set
  if strcmp w.mmalsrc.shutter_activation "on" == 0 then
    let camera_shutter :=
      MMAL_PARAMETER.MMAL_PARAMETER_SHUTTER_SPEED w.mmalsrc.shutter_period
    -- Camera shutter
    let w := w.call (.mmal_port_parameter_set camera.control camera_shutter)
    let status := env.mmal_port_parameter_set camera.control camera_shutter
    if status != .MMAL_SUCCESS && status != .MMAL_ENOSYS then
      gst_mmalsrc_start_error (some camera) w
    else
      gst_mmalsrc_start_enable env camera w
  else
    gst_mmalsrc_start_enable env camera w

/-- Start of the element, `gst_mmalsrc_start`. The result is `none` when the
function reads `camera->output` past its end (undefined behaviour), and
otherwise the returned boolean with the new state. The parameter structures
the source declares first are built where they are used, in
`gst_mmalsrc_start_parameters`; they depend on the properties only. -/
def gst_mmalsrc_start (env : StartEnv) (w : World) : Option (Bool × World) :=
  let w := { w with mmalsrc := { w.mmalsrc with first_port_config := 0 } }
  let w := w.call .bcm_host_init
  let w := w.call .vcos_event_flags_create
  if env.vcos_event_flags_create != .VCOS_SUCCESS then
    some (gst_mmalsrc_start_error none w)
  else
  let w := { w with events := 0 }
  -- Create camera component
  let w := w.call .mmal_component_create
  if env.mmal_component_create != .MMAL_SUCCESS then
    some (gst_mmalsrc_start_error none w)
  else
  let camera := env.camera
  if camera.output_num == 0 then
    some (gst_mmalsrc_start_error (some camera) w)
  else
  -- Camera port is of type "video port"
  match camera.output.get? MMAL_CAMERA_VIDEO_PORT with
  | none => none
  | some video_port =>
  let w := { w with mmalsrc := { w.mmalsrc with cam_port := some video_port } }
  some (gst_mmalsrc_start_parameters env camera video_port w)

/-- Stop of the element, `gst_mmalsrc_stop`. -/
def gst_mmalsrc_stop (w : World) : Bool × World :=
  let w := w.call .vcos_event_flags_delete
  let w := destroy_camera_component w
  let w := w.call (.mmal_queue_destroy w.mmalsrc.queue_video_frames)
  let w := w.call (.mmal_pool_destroy w.mmalsrc.cam_pool)
  (true, w)

/-! ## Frames handed downstream -/

/-- Flow results of GStreamer used by the element. -/
inductive GstFlowReturn
  | GST_FLOW_OK
  | GST_FLOW_ERROR
  deriving DecidableEq, Repr

/-- A wrapper made by `gst_buffer_new_wrapped_full`: the wrapped memory with
its `maxsize`, `offset` and `size`, the `user_data` given to the destroy
notification, which is always `gst_release_buffer_cb`. -/
structure GstBuffer where
  readonly : Bool
  data : Handle
  maxsize : Nat
  offset : Nat
  size : Nat
  user_data : MMAL_BUFFER_HEADER_T
  deriving DecidableEq, Repr

/-- Creation of a wrapper, `gst_buffer_new_wrapped_full` with
`gst_release_buffer_cb` as destroy notification. -/
def gst_buffer_new_wrapped_full (readonly : Bool) (data : Handle) (maxsize offset size : Nat)
    (user_data : MMAL_BUFFER_HEADER_T) : GstBuffer :=
  { readonly := readonly, data := data, maxsize := maxsize, offset := offset, size := size,
    user_data := user_data }

/-- Destroy notification of a wrapper, `gst_release_buffer_cb`. -/
def gst_release_buffer_cb (w : World) (data : MMAL_BUFFER_HEADER_T) : World :=
  let d := data
  mmal_buffer_header_release w d

/-! ## Pull: `gst_mmalsrc_create` -/

/-- Outcomes of the library calls made by `gst_mmalsrc_create`, and what the
hardware thread does meanwhile. `mmal_port_format_commit` gives the status
and the port as the hardware leaves it (with its buffer requirements);
`mmal_port_pool_create` and `mmal_queue_create` give `NULL` or the handle of
the new object; `arrivals` are the buffers the hardware passes to the output
port callback between the refill and the end of the blocking wait. -/
structure CreateEnv where
  mmal_port_format_commit : MMAL_PORT_T → MMAL_STATUS_T × MMAL_PORT_T
  mmal_port_pool_create : Option Handle
  mmal_queue_create : Option Handle
  mmal_port_enable : MMAL_STATUS_T
  mmal_port_send_buffer : MMAL_BUFFER_HEADER_T → MMAL_STATUS_T
  arrivals : List MMAL_BUFFER_HEADER_T

/-- The headers of a new pool: `headers` buffers owned by `pool`, each with a
payload of `payload_size` bytes. -/
def new_pool_headers (pool : Handle) (headers payload_size : Nat) :
    List MMAL_BUFFER_HEADER_T :=
  (List.range headers).map fun i =>
    { id := i, pool := pool, cmd := 0, data := i, alloc_size := payload_size, length := 0,
      event := { hdr_id := 0, hdr_size := 0, value := 0 } }

/-- First part of the first-call block of `gst_mmalsrc_create`: "Set up the
port format", the negotiated format is written to `cam_port->format`. -/
def gst_mmalsrc_create_set_format (w : World) : World :=
  let format : MMAL_ES_FORMAT_T :=
    { type := .MMAL_ES_TYPE_VIDEO
      encoding := w.mmalsrc.encoding
      width := w.mmalsrc.width
      height := w.mmalsrc.height
      crop := { x := 0, y := 0, width := w.mmalsrc.width, height := w.mmalsrc.height }
      frame_rate := { num := w.mmalsrc.framerate.num, den := w.mmalsrc.framerate.den }
      par := { num := MMALSRC_PAR_NUM, den := MMALSRC_PAR_DEN } }
  { w with cam_port := { w.cam_port with format := format } }

/-- Second part of the first-call block of `gst_mmalsrc_create`: "set port
size", the four statements on `buffer_size` and `buffer_num`. -/
def gst_mmalsrc_create_port_size (port : MMAL_PORT_T) : MMAL_PORT_T :=
  let port := { port with buffer_size := port.buffer_size_recommended }
  let port := { port with buffer_num := MMALSRC_FRMBUF_COUNT }
  let port :=
    if port.buffer_size < port.buffer_size_min then
      { port with buffer_size := port.buffer_size_min }
    else port
  let port :=
    if port.buffer_num < port.buffer_num_min then
      { port with buffer_num := port.buffer_num_min }
    else port
  port

/-- Last part of the first-call block of `gst_mmalsrc_create`, from the
creation of the queue to `first_port_config = 1`. -/
def gst_mmalsrc_create_queue_enable (env : CreateEnv) (port : Handle) (w : World) :
    Bool × World :=
  -- Create a queue to store the video frames
  let w := w.call .mmal_queue_create
  let w := { w with mmalsrc := { w.mmalsrc with queue_video_frames := env.mmal_queue_create } }
  match env.mmal_queue_create with
  | none => (false, w)
  | some queue =>
  let w := { w with queues := setAt w.queues queue [] }
  let w := { w with cam_port := { w.cam_port with userdata := some queue } }
  -- Enable port with callback
  let w := w.call (.mmal_port_enable port .generic_output_port_cb)
  if env.mmal_port_enable != .MMAL_SUCCESS then (false, w) else
  let w := { w with cam_port := { w.cam_port with is_enabled := true } }
  let w := { w with mmalsrc := { w.mmalsrc with first_port_config := 1 } }
  (true, w)

/-- The block of `gst_mmalsrc_create` run while `first_port_config` is zero.
The boolean is `false` when the block leaves the function with `return ret`
(an error), `true` when it runs to its end. `port` is `mmalsrc->cam_port`. -/
def gst_mmalsrc_create_port_config (env : CreateEnv) (port : Handle) (w : World) :
    Bool × World :=
  -- Set up the port format
  let w := gst_mmalsrc_create_set_format w
  let w := w.call (.mmal_port_format_commit port)
  let status := (env.mmal_port_format_commit w.cam_port).1
  let w := { w with cam_port := (env.mmal_port_format_commit w.cam_port).2 }
  if status != .MMAL_SUCCESS then (false, w) else
  -- set port size
  let w := { w with cam_port := gst_mmalsrc_create_port_size w.cam_port }
  -- Create pool of buffer headers for the output port to consume
  let w := w.call
    (.mmal_port_pool_create port w.cam_port.buffer_num w.cam_port.buffer_size)
  let w := { w with mmalsrc := { w.mmalsrc with cam_pool := env.mmal_port_pool_create } }
  match env.mmal_port_pool_create with
  | none => (false, w)
  | some pool =>
  let headers := new_pool_headers pool w.cam_port.buffer_num w.cam_port.buffer_size
  let w := { w with pools := setAt w.pools pool headers }
  gst_mmalsrc_create_queue_enable env port w

/-- Bounded wait on the event flags with `VCOS_OR_CONSUME`
(`vcos_event_flags_get`): the bits of the mask that are set are returned and
cleared; when none is set the call times out. -/
def vcos_event_flags_get (w : World) (mask : Nat) : VCOS_STATUS_T × Nat × World :=
  let set := w.events &&& mask
  let w := w.call .vcos_event_flags_get
  if set != 0 then (.VCOS_SUCCESS, set, { w with events := w.events ^^^ set })
  else (.VCOS_EAGAIN, 0, w)

/-- Submission of a buffer to a port, `mmal_port_send_buffer`: when the port
accepts it, the buffer is owned by the hardware. -/
def mmal_port_send_buffer (env : CreateEnv) (port : Handle) (w : World)
    (buffer : MMAL_BUFFER_HEADER_T) : MMAL_STATUS_T × World :=
  let w := w.call (.mmal_port_send_buffer port buffer)
  let status := env.mmal_port_send_buffer buffer
  if status = .MMAL_SUCCESS then (status, { w with hw := w.hw ++ [buffer] }) else (status, w)

/-- The refill loop of `gst_mmalsrc_create`,
`while ((buffer_h = mmal_queue_get(cam_pool->queue)) != NULL)`. The first
argument is the free-list of the pool as the loop finds it: each round takes
its head off the list and sends it to the port; a failed submission is only
logged. -/
def gst_mmalsrc_create_send_loop (env : CreateEnv) (port pool : Handle) :
    List MMAL_BUFFER_HEADER_T → World → World
  | [], w => w
  | buffer_h :: rest, w =>
    let w := { w with pools := setAt w.pools pool rest }
    let w := (mmal_port_send_buffer env port w buffer_h).2
    gst_mmalsrc_create_send_loop env port pool rest w

/-- The refill step of `gst_mmalsrc_create` on the pool `mmalsrc->cam_pool`. -/
def gst_mmalsrc_create_refill (env : CreateEnv) (port pool : Handle) (w : World) : World :=
  gst_mmalsrc_create_send_loop env port pool (w.pools pool) w

/-- Two buffer headers are the same header (same pool, same index). -/
def same_header (a b : MMAL_BUFFER_HEADER_T) : Bool :=
  a.pool == b.pool && a.id == b.id

/-- The hardware thread hands a buffer back: the buffer leaves the set owned
by the hardware and is passed to `generic_output_port_cb`. -/
def hw_deliver (w : World) (buffer : MMAL_BUFFER_HEADER_T) : World :=
  generic_output_port_cb { w with hw := w.hw.eraseP (same_header buffer) } buffer

/-- Blocking dequeue, `mmal_queue_wait`: `NULL` for a `NULL` queue, the head
of the queue when there is one; the outer `none` stands for a wait that never
ends because the queue stays empty. -/
def mmal_queue_wait (w : World) (queue : Option Handle) :
    Option (Option MMAL_BUFFER_HEADER_T × World) :=
  match queue with
  | none => some (none, w)
  | some q =>
    match w.queues q with
    | [] => none
    | b :: rest =>
      let w := w.call (.mmal_queue_wait q)
      some (some b, { w with queues := setAt w.queues q rest })

/-- Wrapping of a dequeued buffer in `gst_mmalsrc_create`. -/
def gst_mmalsrc_create_wrap (w : World) (buffer_h : MMAL_BUFFER_HEADER_T) : GstBuffer :=
  gst_buffer_new_wrapped_full true buffer_h.data w.cam_port.buffer_size 0
    w.cam_port.buffer_size buffer_h

/-- What a call of `gst_mmalsrc_create` does: it returns a flow result (with
the frame written to `*buf`, if any), or never returns because the blocking
dequeue never ends, or dereferences a `NULL` pointer. -/
inductive CreateOutcome
  | returns (ret : GstFlowReturn) (buf : Option GstBuffer) (w : World)
  | blocks (w : World)
  | undefined

/-- The part of `gst_mmalsrc_create` that follows the first-call block: the
bounded wait on the event flags, the refill, the blocking dequeue and the
wrapping. `port` is `mmalsrc->cam_port`. The out-parameter `buf` is the
address GStreamer passes, which is not `NULL`, so the test `!buf` is false. -/
def gst_mmalsrc_create_stream (env : CreateEnv) (port : Handle) (w : World) :
    CreateOutcome :=
  -- Set VideoCore event communication
  let w := (vcos_event_flags_get w MMAL_CAM_ANY_EVENT).2.2
  -- Send empty buffers to the output port
  match w.mmalsrc.cam_pool with
  | none => .undefined
  | some pool =>
  let w := gst_mmalsrc_create_refill env port pool w
  -- Waiting for a ready buffer
  let w := env.arrivals.foldl hw_deliver w
  match mmal_queue_wait w w.mmalsrc.queue_video_frames with
  | none => .blocks w
  | some (none, w) => .returns .GST_FLOW_ERROR none w
  | some (some buffer_h, w) =>
    -- Wrap the buffer in the output GstBuffer
    .returns .GST_FLOW_OK (some (gst_mmalsrc_create_wrap w buffer_h)) w

/-- Pull of one frame, `gst_mmalsrc_create`. -/
def gst_mmalsrc_create (env : CreateEnv) (w : World) : CreateOutcome :=
  -- Barrier
  if w.mmalsrc.camera_component.isNone then .returns .GST_FLOW_ERROR none w else
  match w.mmalsrc.cam_port with
  | none => .undefined
  | some port =>
  let cfg :=
    if w.mmalsrc.first_port_config == 0 then gst_mmalsrc_create_port_config env port w
    else (true, w)
  if !cfg.1 then .returns .GST_FLOW_ERROR none cfg.2 else
  gst_mmalsrc_create_stream env port cfg.2

/-- Cancel request, `gst_mmalsrc_unlock`. -/
def gst_mmalsrc_unlock (w : World) : Bool × World :=
  (true, { w with mmalsrc := { w.mmalsrc with unlock := true } })

/-- End of a cancel request, `gst_mmalsrc_unlock_stop`. -/
def gst_mmalsrc_unlock_stop (w : World) : Bool × World :=
  (true, { w with mmalsrc := { w.mmalsrc with unlock := false } })

/-! ## The buffer-exchange protocol -/

/-- The element together with the wrappers that are alive downstream. -/
structure Pipeline where
  w : World
  frames : List GstBuffer

/-- The operations that move buffers around: the refill loop of
`gst_mmalsrc_create` (with the environment giving the status of each
submission), the hardware handing a buffer it owns to
`generic_output_port_cb`, the blocking dequeue and wrap of
`gst_mmalsrc_create`, and the last unref of a wrapper, which calls
`gst_release_buffer_cb`. -/
inductive PipelineOp
  | refill (env : CreateEnv)
  | callback (buffer : MMAL_BUFFER_HEADER_T)
  | dequeue_wrap
  | release (frame : GstBuffer)

/-- One operation of the protocol; `none` when the operation cannot happen in
this state (the hardware does not own the buffer, the queue is empty so the
dequeue is still waiting, the wrapper does not exist, or the element has no
port or pool). -/
def Pipeline.step (s : Pipeline) : PipelineOp → Option Pipeline
  | .refill env =>
    match s.w.mmalsrc.cam_port, s.w.mmalsrc.cam_pool with
    | some port, some pool =>
      some { s with w := gst_mmalsrc_create_refill env port pool s.w }
    | _, _ => none
  | .callback buffer =>
    if s.w.hw.any (same_header buffer) then some { s with w := hw_deliver s.w buffer }
    else none
  | .dequeue_wrap =>
    match mmal_queue_wait s.w s.w.mmalsrc.queue_video_frames with
    | some (some buffer_h, w) =>
      some { w := w, frames := s.frames ++ [gst_mmalsrc_create_wrap w buffer_h] }
    | _ => none
  | .release frame =>
    if frame ∈ s.frames then
      some { w := gst_release_buffer_cb s.w frame.user_data, frames := s.frames.erase frame }
    else none

/-- A sequence of operations of the protocol. -/
def Pipeline.run (s : Pipeline) : List PipelineOp → Option Pipeline
  | [] => some s
  | op :: ops => (s.step op).bind fun s => s.run ops

/-- Buffers of the pool owned by the hardware. -/
def Pipeline.in_flight (s : Pipeline) : Nat := s.w.hw.length

/-- Buffers waiting in the queue of frames. -/
def Pipeline.queued (s : Pipeline) : Nat :=
  match s.w.mmalsrc.queue_video_frames with
  | some q => (s.w.queues q).length
  | none => 0

/-- Buffers on the free-list of the pool. -/
def Pipeline.free (s : Pipeline) : Nat :=
  match s.w.mmalsrc.cam_pool with
  | some p => (s.w.pools p).length
  | none => 0

/-- Buffers held downstream through a wrapper. -/
def Pipeline.wrapped (s : Pipeline) : Nat := s.frames.length

/-- Number of buffers of the pool, as asked at its creation. -/
def Pipeline.buffer_count (s : Pipeline) : Nat := s.w.cam_port.buffer_num

/-- The bookkeeping that holds in every state of the protocol: the element
points to its port, pool and queue, the port carries the queue as `userdata`
and `n` as buffer count, every buffer around belongs to the pool, and the
buffers owned by the hardware, queued, free and wrapped add up to `n`. -/
structure Pipeline.Inv (port pool queue : Handle) (n : Nat) (s : Pipeline) : Prop where
  port_eq : s.w.mmalsrc.cam_port = some port
  pool_eq : s.w.mmalsrc.cam_pool = some pool
  queue_eq : s.w.mmalsrc.queue_video_frames = some queue
  userdata_eq : s.w.cam_port.userdata = some queue
  num_eq : s.w.cam_port.buffer_num = n
  hw_owned : ∀ b ∈ s.w.hw, b.pool = pool
  queue_owned : ∀ b ∈ s.w.queues queue, b.pool = pool
  free_owned : ∀ b ∈ s.w.pools pool, b.pool = pool
  frames_owned : ∀ f ∈ s.frames, f.user_data.pool = pool
  total : s.w.hw.length + (s.w.queues queue).length + (s.w.pools pool).length
            + s.frames.length = n

/-- An operation none of whose submissions to the port is refused. -/
def PipelineOp.sends_accepted : PipelineOp → Prop
  | .refill env => ∀ b, env.mmal_port_send_buffer b = .MMAL_SUCCESS
  | _ => True

/-- A sequence of successful pulls: each call of `gst_mmalsrc_create` returns
`GST_FLOW_OK` with a frame, and the next call starts from the state the
previous one left. The result is the frames in order and the final state;
`none` when some pull is not successful. -/
def pulls (w : World) : List CreateEnv → Option (List GstBuffer × World)
  | [] => some ([], w)
  | env :: envs =>
    match gst_mmalsrc_create env w with
    | .returns .GST_FLOW_OK (some f) w1 => (pulls w1 envs).map fun r => (f :: r.1, r.2)
    | _ => none

/-- Instance initialisation, `gst_mmalsrc_init`, on the zero-filled instance
GObject allocates. -/
def gst_mmalsrc_init : GstMMALSrc :=
  { shutter_activation := MMALSRC_DEFAULT_SHUTTER_ACTIVATION
    shutter_period := MMALSRC_DEFAULT_SHUTTER_PERIOD
    iso := MMALSRC_DEFAULT_ISO
    exposure := MMALSRC_EXPOSURE_OFF
    first_port_config := 0
    width := 0
    height := 0
    framerate := { num := 0, den := 0 }
    par := { num := 0, den := 0 }
    encoding := 0
    camera_component := none
    cam_pool := none
    cam_port := none
    queue_video_frames := none
    unlock := false }

/-- A port on which nothing has been negotiated yet. -/
def blank_port : MMAL_PORT_T :=
  { format :=
      { type := .MMAL_ES_TYPE_UNKNOWN, encoding := 0, width := 0, height := 0,
        crop := { x := 0, y := 0, width := 0, height := 0 },
        frame_rate := { num := 0, den := 0 }, par := { num := 0, den := 0 } }
    buffer_num_min := 0
    buffer_size_min := 0
    buffer_num_recommended := 0
    buffer_size_recommended := 0
    buffer_num := 0
    buffer_size := 0
    userdata := none
    is_enabled := false }

/-- The state of a freshly created element: no pool, no queue, nothing sent to
the hardware, no call made. -/
def initial_world : World :=
  { mmalsrc := gst_mmalsrc_init
    cam_port := blank_port
    events := 0
    pools := fun _ => []
    queues := fun _ => []
    hw := []
    calls := [] }

/-- The state a call of `gst_mmalsrc_create` leaves behind, when it has one. -/
def CreateOutcome.world? : CreateOutcome → Option World
  | .returns _ _ w => some w
  | .blocks w => some w
  | .undefined => none

/-- The frame a call of `gst_mmalsrc_create` delivers with `GST_FLOW_OK`. -/
def CreateOutcome.frame? : CreateOutcome → Option GstBuffer
  | .returns .GST_FLOW_OK buf _ => buf
  | _ => none

/-- Recogniser of the trace entries that create a pool. -/
def MMAL_CALL.isPoolCreate : MMAL_CALL → Bool
  | .mmal_port_pool_create _ _ _ => true
  | _ => false

/-- Recogniser of the trace entries made by the streaming part of a pull:
the wait on the event flags, the submissions and the dequeue. -/
def MMAL_CALL.isStreaming : MMAL_CALL → Bool
  | .vcos_event_flags_get => true
  | .mmal_port_send_buffer _ _ => true
  | .mmal_queue_wait _ => true
  | _ => false

/-- Recogniser of the trace entries made by the first-call block of a pull:
format commit, pool creation, queue creation and port enabling. -/
def MMAL_CALL.isPortConfig : MMAL_CALL → Bool
  | .mmal_port_format_commit _ => true
  | .mmal_port_pool_create _ _ _ => true
  | .mmal_queue_create => true
  | .mmal_port_enable _ _ => true
  | _ => false

/-- The port as the hardware leaves it after the format commit of a first
pull: the source of the reported buffer requirements. -/
def committed_port (env : CreateEnv) (w : World) : MMAL_PORT_T :=
  (env.mmal_port_format_commit (gst_mmalsrc_create_set_format w).cam_port).2

/-- Status of the format commit of a first pull. -/
def commit_status (env : CreateEnv) (w : World) : MMAL_STATUS_T :=
  (env.mmal_port_format_commit (gst_mmalsrc_create_set_format w).cam_port).1

/-! ## Concrete scenarios -/

/-- A camera with the three usual output ports, on which every call succeeds. -/
def demo_start_env : StartEnv :=
  { vcos_event_flags_create := .VCOS_SUCCESS
    mmal_component_create := .MMAL_SUCCESS
    camera := { handle := 1, control := 2, output := [3, 4, 5] }
    mmal_port_parameter_set := fun _ _ => .MMAL_SUCCESS
    mmal_port_enable := fun _ => .MMAL_SUCCESS
    mmal_component_enable := fun _ => .MMAL_SUCCESS }

/-- A hardware that asks for at least 2 buffers of at least 2000 bytes,
recommends 1000 bytes, accepts every call and hands back the buffers listed
in `arrivals` while the pull waits. -/
def demo_create_env (arrivals : List MMAL_BUFFER_HEADER_T) : CreateEnv :=
  { mmal_port_format_commit := fun p =>
      (.MMAL_SUCCESS,
        { p with buffer_num_min := 2, buffer_size_min := 2000, buffer_num_recommended := 3,
                 buffer_size_recommended := 1000 })
    mmal_port_pool_create := some 10
    mmal_queue_create := some 20
    mmal_port_enable := .MMAL_SUCCESS
    mmal_port_send_buffer := fun _ => .MMAL_SUCCESS
    arrivals := arrivals }

/-- The header number `i` of the demo pool as the hardware returns it, with a
command tag and a payload length. -/
def demo_buffer (i cmd length : Nat) : MMAL_BUFFER_HEADER_T :=
  { id := i, pool := 10, cmd := cmd, data := i, alloc_size := 2000, length := length,
    event := { hdr_id := 0, hdr_size := 0, value := 0 } }

/-- A run on the demo pool: a refill, the return of buffer 0 as a frame and
of buffer 1 as an event, the wrap of buffer 0 and the drop of its wrapper. -/
def demo_ops : List PipelineOp :=
  [ .refill (demo_create_env []), .callback (demo_buffer 0 0 2000),
    .callback (demo_buffer 1 7 0), .dequeue_wrap,
    .release (gst_buffer_new_wrapped_full true 0 2000 0 2000 (demo_buffer 0 0 2000)) ]

/-- The state of the demo element after a successful start and a successful
first pull (the hardware has handed back buffer 0 of the new pool). -/
def after_first_pull : Option World :=
  match gst_mmalsrc_start demo_start_env initial_world with
  | some (true, w) =>
    match gst_mmalsrc_create (demo_create_env [demo_buffer 0 0 2000]) w with
    | .returns .GST_FLOW_OK _ w1 => some w1
    | _ => none
  | _ => none

/-- Recogniser of the trace entries that tear a resource down. -/
def MMAL_CALL.isTeardown : MMAL_CALL → Bool
  | .vcos_event_flags_delete => true
  | .mmal_component_destroy _ => true
  | .mmal_queue_destroy _ => true
  | .mmal_pool_destroy _ => true
  | _ => false

/-- A parameter-changed event for the camera number, as the control port
delivers it: 12 bytes, owned by the event pool 30. -/
def camera_num_event : MMAL_BUFFER_HEADER_T :=
  { id := 0, pool := 30, cmd := MMAL_EVENT_PARAMETER_CHANGED, data := 0, alloc_size := 64,
    length := 12,
    event := { hdr_id := MMAL_PARAMETER_CAMERA_NUM_ID, hdr_size := 12, value := 0 } }

/-- A buffer of the event pool 30 that carries another command. -/
def unexpected_event : MMAL_BUFFER_HEADER_T :=
  { id := 2, pool := 30, cmd := 99, data := 0, alloc_size := 64, length := 0,
    event := { hdr_id := 0, hdr_size := 0, value := 0 } }

/-- A started element: the state `gst_mmalsrc_start` leaves on success. -/
def started_world : World :=
  { initial_world with
    mmalsrc := { gst_mmalsrc_init with camera_component := some 1, cam_port := some 4 } }

/-! ## Vocabulary of the statements about `gst_mmalsrc_start` -/

/-- A status that makes a parameter set fatal: neither success nor "not
supported". -/
def refused (s : MMAL_STATUS_T) : Bool :=
  s != .MMAL_SUCCESS && s != .MMAL_ENOSYS

/-- Status the environment gives to a traced call (success for the calls that
are not parameter sets). -/
def StartEnv.status (env : StartEnv) : MMAL_CALL → MMAL_STATUS_T
  | .mmal_port_parameter_set port param => env.mmal_port_parameter_set port param
  | _ => .MMAL_SUCCESS

/-- Exposure mode selected by the exposure property: auto for "on", off for
any other string. -/
def exposure_mode_of (exposure : String) : MMAL_PARAM_EXPOSUREMODE_T :=
  if exposure = "on" then .MMAL_PARAM_EXPOSUREMODE_AUTO else .MMAL_PARAM_EXPOSUREMODE_OFF

/-- The parameter sets of a start in program order: capture-enable on the
video port, then camera index, exposure mode and ISO on the control port, then
shutter speed when shutter-activation is "on". -/
def parameter_plan (m : GstMMALSrc) (camera : MMAL_COMPONENT_T) (video_port : Handle) :
    List MMAL_CALL :=
  [ .mmal_port_parameter_set video_port (.MMAL_PARAMETER_CAPTURE 1),
    .mmal_port_parameter_set camera.control (.MMAL_PARAMETER_CAMERA_NUM 0),
    .mmal_port_parameter_set camera.control
      (.MMAL_PARAMETER_EXPOSURE_MODE (exposure_mode_of m.exposure)),
    .mmal_port_parameter_set camera.control (.MMAL_PARAMETER_ISO m.iso) ] ++
  (if m.shutter_activation = "on" then
    [ .mmal_port_parameter_set camera.control (.MMAL_PARAMETER_SHUTTER_SPEED m.shutter_period) ]
   else [])

/-- The calls of a list up to and including the first refused one. -/
def through_first_refusal (env : StartEnv) : List MMAL_CALL → List MMAL_CALL
  | [] => []
  | c :: rest => if refused (env.status c) then [c] else c :: through_first_refusal env rest

/-- Recogniser of the trace entries that set a parameter. -/
def MMAL_CALL.isParameterSet : MMAL_CALL → Bool
  | .mmal_port_parameter_set _ _ => true
  | _ => false

/-- Recogniser of the trace entries that destroy a component. -/
def MMAL_CALL.isComponentDestroy : MMAL_CALL → Bool
  | .mmal_component_destroy _ => true
  | _ => false

/-- The state in which `gst_mmalsrc_start` reaches its parameter sets. -/
def start_prelude_world (w : World) (video_port : Handle) : World :=
  { w with
    mmalsrc := { w.mmalsrc with first_port_config := 0, cam_port := some video_port }
    events := 0
    calls := w.calls ++
      [.bcm_host_init, .vcos_event_flags_create, .mmal_component_create] }

/-- A camera that reports the exposure mode as not supported and refuses the
ISO value; every other call succeeds. -/
def iso_refusing_env : StartEnv :=
  { demo_start_env with
    mmal_port_parameter_set := fun _ p =>
      match p with
      | .MMAL_PARAMETER_EXPOSURE_MODE _ => .MMAL_ENOSYS
      | .MMAL_PARAMETER_ISO _ => .MMAL_EINVAL
      | _ => .MMAL_SUCCESS }

/-- A platform on which the camera component cannot be created. -/
def no_camera_env : StartEnv :=
  { demo_start_env with mmal_component_create := .MMAL_ENOMEM }

/-! ## Vocabulary of the statements about `control_bh_cb` -/

/-- The conditions `control_bh_cb` asserts on a parameter-changed event. -/
def event_assertions_hold (buffer : MMAL_BUFFER_HEADER_T) : Prop :=
  buffer.cmd = MMAL_EVENT_PARAMETER_CHANGED →
    buffer.length ≥ sizeof_MMAL_EVENT_PARAMETER_CHANGED_T ∧
    buffer.length = buffer.event.hdr_size ∧
    (buffer.event.hdr_id = MMAL_PARAMETER_CAMERA_NUM_ID →
      buffer.event.hdr_size = sizeof_MMAL_PARAMETER_UINT32_T)

/-! ## Vocabulary of the statements about the result of a pull -/

/-- What the caller of `gst_mmalsrc_create` sees: the flow result with the
frame written to `*buf`, or a call that never returns, or undefined
behaviour. -/
inductive PullResult
  | returned (ret : GstFlowReturn) (frame : Option GstBuffer)
  | blocked
  | undefined
  deriving DecidableEq, Repr

/-- The result of a call of `gst_mmalsrc_create`, without the state. -/
def CreateOutcome.result : CreateOutcome → PullResult
  | .returns ret buf _ => .returned ret buf
  | .blocks _ => .blocked
  | .undefined => .undefined

/-- The first-call configuration "when it runs": the first-call block when
`first_port_config` is zero, nothing (and success) otherwise. -/
def first_call_config (env : CreateEnv) (port : Handle) (w : World) : Bool × World :=
  if w.mmalsrc.first_port_config == 0 then gst_mmalsrc_create_port_config env port w
  else (true, w)

/-- The four steps of the first-call configuration all succeed: format
commit, pool creation, queue creation, output-port enable. -/
def first_call_steps_succeed (env : CreateEnv) (w : World) : Prop :=
  commit_status env w = .MMAL_SUCCESS ∧ env.mmal_port_pool_create.isSome = true ∧
  env.mmal_queue_create.isSome = true ∧ env.mmal_port_enable = .MMAL_SUCCESS

/-- Contents of the queues once the hardware has handed the given buffers to
the output port callback: each buffer with a zero `cmd` joins the tail of the
queue the port carries as `userdata`. -/
def queue_after_arrivals (userdata : Option Handle)
    (queues : Handle → List MMAL_BUFFER_HEADER_T) :
    List MMAL_BUFFER_HEADER_T → Handle → List MMAL_BUFFER_HEADER_T
  | [] => queues
  | b :: rest =>
    queue_after_arrivals userdata
      (if b.cmd != 0 then queues
       else match userdata with
         | none => queues
         | some q => setAt queues q (queues q ++ [b])) rest

/-- What the blocking dequeue of a pull finds, from the state `w` the
first-call configuration leaves: `none` for a `NULL` queue, otherwise the
contents of the queue of frames after the arrivals of this pull. -/
def dequeue_at_wait (env : CreateEnv) (w : World) : Option (List MMAL_BUFFER_HEADER_T) :=
  match w.mmalsrc.queue_video_frames with
  | none => none
  | some q => some (queue_after_arrivals w.cam_port.userdata w.queues env.arrivals q)

/-- The result of a pull as the specification words it: the fatal error when
the first-call configuration fails or the dequeue has no queue to wait on,
success with the wrapped head of the queue when the dequeue yields a buffer,
and no return at all while the queue stays empty. -/
def pull_result_spec (env : CreateEnv) (port : Handle) (w : World) : PullResult :=
  let cfg := first_call_config env port w
  if cfg.1 = false then .returned .GST_FLOW_ERROR none
  else
    match dequeue_at_wait env cfg.2 with
    | none => .returned .GST_FLOW_ERROR none
    | some [] => .blocked
    | some (b :: _) => .returned .GST_FLOW_OK (some (gst_mmalsrc_create_wrap cfg.2 b))

/-! ## Scenarios for the output ports of the component -/

/-- A platform whose camera component has a single output port. -/
def one_port_env : StartEnv :=
  { demo_start_env with camera := { handle := 1, control := 2, output := [3] } }

/-- A platform whose camera component has no output port. -/
def no_port_env : StartEnv :=
  { demo_start_env with camera := { handle := 1, control := 2, output := [] } }

/-! ## Negotiated format: `gst_mmalsrc_set_caps` -/

/-- What `gst_video_info_from_caps` extracts from the caps: the name of the
pixel format (`finfo->name`), the dimensions, the frame rate and the pixel
aspect ratio. -/
structure GstVideoInfo where
  finfo_name : String
  width : Nat
  height : Nat
  fps_n : Int
  fps_d : Int
  par_n : Int
  par_d : Int
  deriving DecidableEq, Repr

/-- The caps handed to `gst_mmalsrc_set_caps`: the video info they parse to
(`none` when `gst_video_info_from_caps` fails) and the name of their first
structure. -/
structure GstCaps where
  video_info : Option GstVideoInfo
  structure_name : String
  deriving DecidableEq, Repr

/-- The byte `name[i]` of a C string: the code of its character number `i`,
the terminator `0` right after the last character, and nothing (a read past
the end of the string) beyond. -/
def c_char_at (name : String) (i : Nat) : Option Nat :=
  match name.data[i]? with
  | some c => some c.toNat
  | none => if i = name.data.length then some 0 else none

/-- Modelled from the spec: the macro `MMAL_FOURCC` of the MMAL headers, which
is not in the repository. It packs four characters into a 4-byte code, the
first character in the lowest byte, `a | b << 8 | c << 16 | d << 24`, kept in
the 32 bits of a `MMAL_FOURCC_T`. -/
def MMAL_FOURCC (a b c d : Nat) : Nat :=
  (a ||| (b <<< 8) ||| (c <<< 16) ||| (d <<< 24)) % 2 ^ 32

/-- Notification of new caps, `gst_mmalsrc_set_caps`. The result is `none`
when `finfo->name[3]` lies past the end of the name (a name of fewer than 3
characters). -/
def gst_mmalsrc_set_caps (caps : GstCaps) (w : World) : Option (Bool × World) :=
  match caps.video_info with
  | none => some (false, w)
  | some info =>
    if caps.structure_name = "video/x-raw" then
      let mmalsrc :=
        { w.mmalsrc with
          width := info.width
          height := info.height
          framerate := { num := info.fps_n, den := info.fps_d }
          par := { num := info.par_n, den := info.par_d } }
      match c_char_at info.finfo_name 3, c_char_at info.finfo_name 0,
        c_char_at info.finfo_name 1, c_char_at info.finfo_name 2 with
      | some name3, some name0, some name1, some name2 =>
        -- If encoding has 3 letters
        if name3 == 0 then
          some (true, { w with mmalsrc :=
            { mmalsrc with encoding := MMAL_FOURCC name0 name1 name2 0x20 } })
        else -- 4 letters
          some (true, { w with mmalsrc :=
            { mmalsrc with encoding := MMAL_FOURCC name0 name1 name2 name3 } })
      | _, _, _, _ => none
    else
      some (true, w)

/-- The pixel formats of the pad template `MMAL_VIDEO_CAPS`. -/
def MMAL_VIDEO_CAPS_formats : List String :=
  ["I420", "RGBA", "BGRA", "YV12", "YVYU", "UYVY"]

/-- Raw video caps that parse to the given format name, 1280x720 at 30/1
frames per second, pixel aspect ratio 1/1. -/
def raw_caps (name : String) : GstCaps :=
  { video_info := some { finfo_name := name, width := 1280, height := 720,
                         fps_n := 30, fps_d := 1, par_n := 1, par_d := 1 }
    structure_name := "video/x-raw" }

/-- The encoding `gst_mmalsrc_set_caps` stores for raw video caps of the
given format name, on a fresh element. -/
def stored_encoding (name : String) : Option Nat :=
  (gst_mmalsrc_set_caps (raw_caps name) initial_world).map fun r => r.2.mmalsrc.encoding

/-! ## Vocabulary of the statements about the cancel flag -/

/-- The state with the `unlock` field of the element set to `b` and
everything else as it is. -/
def World.with_unlock (w : World) (b : Bool) : World :=
  { w with mmalsrc := { w.mmalsrc with unlock := b } }

/-- The outcome of a pull with the `unlock` field of the state it leaves set
to `b`: same flow result, same frame, same trace, same pools and queues. -/
def CreateOutcome.with_unlock (o : CreateOutcome) (b : Bool) : CreateOutcome :=
  match o with
  | .returns ret buf w => .returns ret buf (w.with_unlock b)
  | .blocks w => .blocks (w.with_unlock b)
  | .undefined => .undefined

/-! ## The refill loop, round by round -/

/-- Non-blocking dequeue on the free-list of a pool, `mmal_queue_get` on
`pool->queue`: `NULL` when the list is empty, otherwise its head, which
leaves the list. -/
def mmal_queue_get (w : World) (pool : Handle) : Option MMAL_BUFFER_HEADER_T × World :=
  match w.pools pool with
  | [] => (none, w)
  | b :: rest => (some b, { w with pools := setAt w.pools pool rest })

/-- The refill loop of `gst_mmalsrc_create` as the source writes it,
`while ((buffer_h = mmal_queue_get(cam_pool->queue)) != NULL)` with the
submission as body, run for at most the given number of evaluations of its
condition: `none` when the loop is still running after that many. -/
def gst_mmalsrc_create_refill_rounds (env : CreateEnv) (port pool : Handle) :
    Nat → World → Option World
  | 0, _ => none
  | n + 1, w =>
    match mmal_queue_get w pool with
    | (none, w) => some w
    | (some buffer_h, w) =>
      let w := (mmal_port_send_buffer env port w buffer_h).2
      gst_mmalsrc_create_refill_rounds env port pool n w

/-- A hardware that refuses the submission of buffer 1 of the demo pool and
accepts the others. -/
def refusing_one_env : CreateEnv :=
  { demo_create_env [] with
    mmal_port_send_buffer := fun b => if b.id = 1 then .MMAL_EINVAL else .MMAL_SUCCESS }

/-- The demo element with buffers 0, 1 and 2 of pool 10 on the free-list. -/
def three_free_world : World :=
  { started_world with
    mmalsrc := { started_world.mmalsrc with
                 first_port_config := 1, cam_pool := some 10, queue_video_frames := some 20 }
    pools := fun p =>
      if p = 10 then [demo_buffer 0 0 0, demo_buffer 1 0 0, demo_buffer 2 0 0] else [] }

/-! # Theorems -/

/-! ## Frame lemmas: what each step leaves untouched -/

section FrameLemmas

variable (env : CreateEnv) (port pool : Handle)

theorem send_loop_facts (l : List MMAL_BUFFER_HEADER_T) (w : World) :
    (gst_mmalsrc_create_send_loop env port pool l w).cam_port = w.cam_port ∧
    (gst_mmalsrc_create_send_loop env port pool l w).mmalsrc = w.mmalsrc ∧
    (gst_mmalsrc_create_send_loop env port pool l w).events = w.events ∧
    (gst_mmalsrc_create_send_loop env port pool l w).queues = w.queues ∧
    (gst_mmalsrc_create_send_loop env port pool l w).calls =
      w.calls ++ l.map (MMAL_CALL.mmal_port_send_buffer port) := by
  induction l generalizing w with
  | nil => simp [gst_mmalsrc_create_send_loop]
  | cons b rest ih =>
    simp only [gst_mmalsrc_create_send_loop]
    obtain ⟨h1, h2, h3, h4, h5⟩ := ih
      (mmal_port_send_buffer env port { w with pools := setAt w.pools pool rest } b).2
    refine ⟨h1.trans ?_, h2.trans ?_, h3.trans ?_, h4.trans ?_, h5.trans ?_⟩ <;>
      (simp only [mmal_port_send_buffer, World.call]; split <;> simp)

theorem generic_output_port_cb_facts (w : World) (b : MMAL_BUFFER_HEADER_T) :
    (generic_output_port_cb w b).cam_port = w.cam_port ∧
    (generic_output_port_cb w b).mmalsrc = w.mmalsrc ∧
    (generic_output_port_cb w b).calls = w.calls ∧
    (generic_output_port_cb w b).hw = w.hw := by
  simp only [generic_output_port_cb, vcos_event_flags_set, mmal_buffer_header_release,
    mmal_queue_put]
  split
  · simp
  · cases w.cam_port.userdata <;> simp

theorem hw_deliver_facts (w : World) (b : MMAL_BUFFER_HEADER_T) :
    (hw_deliver w b).cam_port = w.cam_port ∧
    (hw_deliver w b).mmalsrc = w.mmalsrc ∧
    (hw_deliver w b).calls = w.calls := by
  obtain ⟨h1, h2, h3, _⟩ :=
    generic_output_port_cb_facts { w with hw := w.hw.eraseP (same_header b) } b
  exact ⟨h1, h2, h3⟩

theorem arrivals_facts (l : List MMAL_BUFFER_HEADER_T) (w : World) :
    (l.foldl hw_deliver w).cam_port = w.cam_port ∧
    (l.foldl hw_deliver w).mmalsrc = w.mmalsrc ∧
    (l.foldl hw_deliver w).calls = w.calls := by
  induction l generalizing w with
  | nil => simp
  | cons b rest ih =>
    obtain ⟨h1, h2, h3⟩ := ih (hw_deliver w b)
    obtain ⟨g1, g2, g3⟩ := hw_deliver_facts w b
    exact ⟨h1.trans g1, h2.trans g2, h3.trans g3⟩

theorem vcos_event_flags_get_facts (w : World) (mask : Nat) :
    (vcos_event_flags_get w mask).2.2.cam_port = w.cam_port ∧
    (vcos_event_flags_get w mask).2.2.mmalsrc = w.mmalsrc ∧
    (vcos_event_flags_get w mask).2.2.pools = w.pools ∧
    (vcos_event_flags_get w mask).2.2.queues = w.queues ∧
    (vcos_event_flags_get w mask).2.2.hw = w.hw ∧
    (vcos_event_flags_get w mask).2.2.calls = w.calls ++ [.vcos_event_flags_get] := by
  simp only [vcos_event_flags_get, World.call]
  split <;> simp

theorem mmal_queue_wait_facts (w w1 : World) (q : Option Handle)
    (r : Option MMAL_BUFFER_HEADER_T) (h : mmal_queue_wait w q = some (r, w1)) :
    w1.cam_port = w.cam_port ∧ w1.mmalsrc = w.mmalsrc ∧ w1.pools = w.pools ∧
    w1.hw = w.hw ∧ w1.events = w.events ∧
    ∃ tail, w1.calls = w.calls ++ tail ∧ ∀ c ∈ tail, c.isStreaming = true := by
  unfold mmal_queue_wait at h
  cases q with
  | none =>
    simp at h
    obtain ⟨_, rfl⟩ := h
    exact ⟨rfl, rfl, rfl, rfl, rfl, [], by simp, by simp⟩
  | some q =>
    simp only at h
    split at h
    · simp at h
    · simp only [Option.some.injEq, Prod.mk.injEq] at h
      obtain ⟨_, rfl⟩ := h
      exact ⟨rfl, rfl, rfl, rfl, rfl, [.mmal_queue_wait q], by simp [World.call],
        by simp [MMAL_CALL.isStreaming]⟩

/-- The streaming part of a pull leaves the element and its port untouched and
only makes streaming calls; the frame it delivers has the size of the port. -/
theorem stream_facts (w : World) :
    (∀ w2, (gst_mmalsrc_create_stream env port w).world? = some w2 →
      w2.cam_port = w.cam_port ∧ w2.mmalsrc = w.mmalsrc ∧
      ∃ tail, w2.calls = w.calls ++ tail ∧ ∀ c ∈ tail, c.isStreaming = true) ∧
    (∀ f, (gst_mmalsrc_create_stream env port w).frame? = some f →
      f.size = w.cam_port.buffer_size ∧ f.maxsize = w.cam_port.buffer_size ∧
      f.offset = 0 ∧ f.readonly = true) ∧
    (w.mmalsrc.cam_pool.isSome = true →
      ((gst_mmalsrc_create_stream env port w).world?).isSome = true) := by
  obtain ⟨e1, e2, e3, e4, e5, e6⟩ := vcos_event_flags_get_facts w MMAL_CAM_ANY_EVENT
  unfold gst_mmalsrc_create_stream
  simp only [e2]
  cases hpool : w.mmalsrc.cam_pool with
  | none => simp [CreateOutcome.world?, CreateOutcome.frame?]
  | some pool =>
    simp only
    obtain ⟨s1, s2, s3, s4, s5⟩ := send_loop_facts env port pool
      ((vcos_event_flags_get w MMAL_CAM_ANY_EVENT).2.2.pools pool)
      (vcos_event_flags_get w MMAL_CAM_ANY_EVENT).2.2
    obtain ⟨a1, a2, a3⟩ := arrivals_facts env.arrivals
      (gst_mmalsrc_create_refill env port pool
        (vcos_event_flags_get w MMAL_CAM_ANY_EVENT).2.2)
    unfold gst_mmalsrc_create_refill at a1 a2 a3 ⊢
    have hport := a1.trans (s1.trans e1)
    have hsrc := a2.trans (s2.trans e2)
    have hcalls : ∃ tail, (List.foldl hw_deliver
        (gst_mmalsrc_create_send_loop env port pool
          ((vcos_event_flags_get w MMAL_CAM_ANY_EVENT).2.2.pools pool)
          (vcos_event_flags_get w MMAL_CAM_ANY_EVENT).2.2) env.arrivals).calls
        = w.calls ++ tail ∧ ∀ c ∈ tail, c.isStreaming = true := by
      refine ⟨.vcos_event_flags_get ::
        ((vcos_event_flags_get w MMAL_CAM_ANY_EVENT).2.2.pools pool).map
          (MMAL_CALL.mmal_port_send_buffer port), ?_, ?_⟩
      · rw [a3, s5, e6]; simp
      · intro c hc
        simp only [List.mem_cons, List.mem_map] at hc
        rcases hc with rfl | ⟨b, _, rfl⟩ <;> rfl
    obtain ⟨tail, ht1, ht2⟩ := hcalls
    split
    · rename_i hq
      refine ⟨?_, ?_, fun _ => rfl⟩
      · intro w2 hw2
        simp only [CreateOutcome.world?, Option.some.injEq] at hw2
        subst hw2
        exact ⟨hport, hsrc, tail, ht1, ht2⟩
      · intro f hf
        simp [CreateOutcome.frame?] at hf
    · rename_i w1 hq
      obtain ⟨q1, q2, q3, q4, q5, qt, q6, q7⟩ := mmal_queue_wait_facts _ _ _ _ hq
      refine ⟨?_, ?_, fun _ => rfl⟩
      · intro w2 hw2
        simp only [CreateOutcome.world?, Option.some.injEq] at hw2
        subst hw2
        refine ⟨q1.trans hport, q2.trans hsrc, tail ++ qt, ?_, ?_⟩
        · rw [q6, ht1]; simp
        · intro c hc
          rcases List.mem_append.mp hc with h | h
          · exact ht2 c h
          · exact q7 c h
      · intro f hf
        simp [CreateOutcome.frame?] at hf
    · rename_i b w1 hq
      obtain ⟨q1, q2, q3, q4, q5, qt, q6, q7⟩ := mmal_queue_wait_facts _ _ _ _ hq
      refine ⟨?_, ?_, fun _ => rfl⟩
      · intro w2 hw2
        simp only [CreateOutcome.world?, Option.some.injEq] at hw2
        subst hw2
        refine ⟨q1.trans hport, q2.trans hsrc, tail ++ qt, ?_, ?_⟩
        · rw [q6, ht1]; simp
        · intro c hc
          rcases List.mem_append.mp hc with h | h
          · exact ht2 c h
          · exact q7 c h
      · intro f hf
        simp only [CreateOutcome.frame?, Option.some.injEq] at hf
        subst hf
        simp [gst_mmalsrc_create_wrap, gst_buffer_new_wrapped_full, q1.trans hport]

/-- Appending streaming calls does not change what a recogniser that rejects
them selects. -/
theorem filter_append_streaming (p : MMAL_CALL → Bool) (l tail : List MMAL_CALL)
    (hp : ∀ c, c.isStreaming = true → p c = false)
    (ht : ∀ c ∈ tail, c.isStreaming = true) :
    (l ++ tail).filter p = l.filter p := by
  rw [List.filter_append]
  have : tail.filter p = [] := by
    rw [List.filter_eq_nil_iff]
    intro c hc
    simp [hp c (ht c hc)]
  simp [this]

end FrameLemmas

/-- The port geometry computed by the "set port size" statements. -/
theorem port_size_eq (p : MMAL_PORT_T) :
    (gst_mmalsrc_create_port_size p).buffer_size
        = max p.buffer_size_recommended p.buffer_size_min ∧
    (gst_mmalsrc_create_port_size p).buffer_num
        = max MMALSRC_FRMBUF_COUNT p.buffer_num_min := by
  unfold gst_mmalsrc_create_port_size
  constructor
  · by_cases h : p.buffer_size_recommended < p.buffer_size_min
    · simp [h, max_eq_right (le_of_lt h)]
      split <;> simp
    · simp [h, max_eq_left (not_lt.mp h)]
      split <;> simp
  · by_cases h : MMALSRC_FRMBUF_COUNT < p.buffer_num_min
    · simp [h, max_eq_right (le_of_lt h)]
      split <;> simp [h]
    · simp [h, max_eq_left (not_lt.mp h)]
      split <;> simp [h]

theorem set_format_calls (w : World) : (gst_mmalsrc_create_set_format w).calls = w.calls :=
  rfl

theorem queue_enable_facts (env : CreateEnv) (port : Handle) (w : World) :
    (gst_mmalsrc_create_queue_enable env port w).2.cam_port.buffer_size
        = w.cam_port.buffer_size ∧
    (gst_mmalsrc_create_queue_enable env port w).2.cam_port.buffer_num
        = w.cam_port.buffer_num ∧
    (gst_mmalsrc_create_queue_enable env port w).2.pools = w.pools ∧
    (gst_mmalsrc_create_queue_enable env port w).2.hw = w.hw ∧
    (gst_mmalsrc_create_queue_enable env port w).2.mmalsrc.cam_pool = w.mmalsrc.cam_pool ∧
    (gst_mmalsrc_create_queue_enable env port w).2.mmalsrc.cam_port = w.mmalsrc.cam_port ∧
    (gst_mmalsrc_create_queue_enable env port w).2.calls.filter MMAL_CALL.isPoolCreate
        = w.calls.filter MMAL_CALL.isPoolCreate := by
  unfold gst_mmalsrc_create_queue_enable
  cases env.mmal_queue_create with
  | none => simp [World.call, MMAL_CALL.isPoolCreate]
  | some q =>
    simp only
    split <;> simp [World.call, MMAL_CALL.isPoolCreate]

/-- What a first-call block that runs to its end has done. -/
theorem port_config_success (env : CreateEnv) (port : Handle) (w : World)
    (h : (gst_mmalsrc_create_port_config env port w).1 = true) :
    commit_status env w = .MMAL_SUCCESS ∧
    env.mmal_port_enable = .MMAL_SUCCESS ∧
    (gst_mmalsrc_create_port_config env port w).2.mmalsrc
      = { w.mmalsrc with cam_pool := env.mmal_port_pool_create,
                         queue_video_frames := env.mmal_queue_create,
                         first_port_config := 1 } ∧
    (gst_mmalsrc_create_port_config env port w).2.mmalsrc.cam_pool.isSome = true ∧
    (gst_mmalsrc_create_port_config env port w).2.mmalsrc.queue_video_frames.isSome = true ∧
    (gst_mmalsrc_create_port_config env port w).2.cam_port.userdata
      = env.mmal_queue_create ∧
    (gst_mmalsrc_create_port_config env port w).2.hw = w.hw ∧
    (∀ q, env.mmal_queue_create = some q →
      (gst_mmalsrc_create_port_config env port w).2.queues q = []) := by
  unfold commit_status
  unfold gst_mmalsrc_create_port_config at h ⊢
  by_cases hcommit : (env.mmal_port_format_commit
      (gst_mmalsrc_create_set_format w).cam_port).1 = .MMAL_SUCCESS
  · simp only [World.call, hcommit, bne_self_eq_false, Bool.false_eq_true, if_false] at h ⊢
    cases hp : env.mmal_port_pool_create with
    | none => simp [hp] at h
    | some pool =>
      simp only [hp] at h ⊢
      unfold gst_mmalsrc_create_queue_enable at h ⊢
      cases hq : env.mmal_queue_create with
      | none => simp [hq] at h
      | some queue =>
        simp only [hq, World.call] at h ⊢
        by_cases hen : env.mmal_port_enable = .MMAL_SUCCESS
        · simp [hen, gst_mmalsrc_create_set_format, setAt]
        · simp [hen] at h
  · have : ((env.mmal_port_format_commit (gst_mmalsrc_create_set_format w).cam_port).1
        != .MMAL_SUCCESS) = true := by simpa using hcommit
    simp [World.call, this] at h

theorem port_config_geometry (env : CreateEnv) (port : Handle) (w : World)
    (hcommit : commit_status env w = .MMAL_SUCCESS) :
    (gst_mmalsrc_create_port_config env port w).2.cam_port.buffer_size
        = max (committed_port env w).buffer_size_recommended
            (committed_port env w).buffer_size_min ∧
    (gst_mmalsrc_create_port_config env port w).2.cam_port.buffer_num
        = max MMALSRC_FRMBUF_COUNT (committed_port env w).buffer_num_min ∧
    (gst_mmalsrc_create_port_config env port w).2.calls.filter MMAL_CALL.isPoolCreate
        = w.calls.filter MMAL_CALL.isPoolCreate ++
          [.mmal_port_pool_create port
            (max MMALSRC_FRMBUF_COUNT (committed_port env w).buffer_num_min)
            (max (committed_port env w).buffer_size_recommended
              (committed_port env w).buffer_size_min)] ∧
    (∀ h, env.mmal_port_pool_create = some h →
      (gst_mmalsrc_create_port_config env port w).2.pools h
        = new_pool_headers h
            (max MMALSRC_FRMBUF_COUNT (committed_port env w).buffer_num_min)
            (max (committed_port env w).buffer_size_recommended
              (committed_port env w).buffer_size_min)) := by
  have hs := port_size_eq (committed_port env w)
  unfold commit_status at hcommit
  unfold committed_port at hs ⊢
  unfold gst_mmalsrc_create_port_config
  simp only [World.call, hcommit, bne_self_eq_false, Bool.false_eq_true, if_false]
  cases hp : env.mmal_port_pool_create with
  | none =>
    simp [hs.1, hs.2, MMAL_CALL.isPoolCreate, set_format_calls]
  | some h =>
    simp only
    refine ⟨?_, ?_, ?_, ?_⟩
    · rw [(queue_enable_facts env port _).1]; exact hs.1
    · rw [(queue_enable_facts env port _).2.1]; exact hs.2
    · rw [(queue_enable_facts env port _).2.2.2.2.2.2]
      simp [hs.1, hs.2, MMAL_CALL.isPoolCreate, set_format_calls]
    · intro h' hh'
      rw [(queue_enable_facts env port _).2.2.1]
      simp only [Option.some.injEq] at hh'
      subst hh'
      simp [setAt, hs.1, hs.2]

/-- A first-call block whose format commit fails stops right after the
commit. -/
theorem port_config_commit_failed (env : CreateEnv) (port : Handle) (w : World)
    (hcommit : commit_status env w ≠ .MMAL_SUCCESS) :
    (gst_mmalsrc_create_port_config env port w).1 = false ∧
    (gst_mmalsrc_create_port_config env port w).2.calls
      = w.calls ++ [.mmal_port_format_commit port] := by
  unfold commit_status at hcommit
  have : ((env.mmal_port_format_commit (gst_mmalsrc_create_set_format w).cam_port).1
      != .MMAL_SUCCESS) = true := by simpa using hcommit
  unfold gst_mmalsrc_create_port_config
  simp [World.call, this, set_format_calls]

/-! ## C1: buffer geometry of the first pull -/

/-- C1. On every first pull of a started element (`first_port_config` is
zero): when the format commit succeeds, then whatever buffer requirements the
hardware reports, the port ends with
`buffer_size = max(buffer_size_recommended, buffer_size_min)` and
`buffer_num = max(MMALSRC_FRMBUF_COUNT, buffer_num_min)`, where
`MMALSRC_FRMBUF_COUNT = 6 ≥ 2`, the pull creates exactly one pool, with exactly
these two values, and the pool then holds that many headers of that payload
size; when the format commit fails, the pull creates no pool at all. -/
theorem C1_first_pull_buffer_geometry (env : CreateEnv) (w : World) (port : Handle)
    (hcomp : w.mmalsrc.camera_component.isSome = true)
    (hport : w.mmalsrc.cam_port = some port)
    (hfirst : w.mmalsrc.first_port_config = 0) :
    MMALSRC_FRMBUF_COUNT = 6 ∧ 2 ≤ MMALSRC_FRMBUF_COUNT ∧
    ∃ w', (gst_mmalsrc_create env w).world? = some w' ∧
      (commit_status env w = .MMAL_SUCCESS →
        w'.cam_port.buffer_size
          = max (committed_port env w).buffer_size_recommended
              (committed_port env w).buffer_size_min ∧
        w'.cam_port.buffer_num
          = max MMALSRC_FRMBUF_COUNT (committed_port env w).buffer_num_min ∧
        w'.calls.filter MMAL_CALL.isPoolCreate
          = w.calls.filter MMAL_CALL.isPoolCreate ++
            [.mmal_port_pool_create port
              (max MMALSRC_FRMBUF_COUNT (committed_port env w).buffer_num_min)
              (max (committed_port env w).buffer_size_recommended
                (committed_port env w).buffer_size_min)] ∧
        (∀ h, env.mmal_port_pool_create = some h →
          (gst_mmalsrc_create_port_config env port w).2.pools h
            = new_pool_headers h
                (max MMALSRC_FRMBUF_COUNT (committed_port env w).buffer_num_min)
                (max (committed_port env w).buffer_size_recommended
                  (committed_port env w).buffer_size_min))) ∧
      (commit_status env w ≠ .MMAL_SUCCESS →
        w'.calls.filter MMAL_CALL.isPoolCreate = w.calls.filter MMAL_CALL.isPoolCreate) := by
  refine ⟨rfl, by decide, ?_⟩
  have hc : w.mmalsrc.camera_component.isNone = false := by
    cases h : w.mmalsrc.camera_component <;> simp [h] at hcomp ⊢
  unfold gst_mmalsrc_create
  simp only [hc, Bool.false_eq_true, if_false, hport, hfirst, beq_self_eq_true, if_true]
  by_cases hcfg : (gst_mmalsrc_create_port_config env port w).1 = true
  · simp only [hcfg, Bool.not_true, Bool.false_eq_true, if_false]
    obtain ⟨f1, _, f3⟩ := stream_facts env port (gst_mmalsrc_create_port_config env port w).2
    have hsucc := port_config_success env port w hcfg
    have hpool : (gst_mmalsrc_create_port_config env port w).2.mmalsrc.cam_pool.isSome
        = true := hsucc.2.2.2.1
    cases hout : (gst_mmalsrc_create_stream env port
        (gst_mmalsrc_create_port_config env port w).2).world? with
    | none => simp [hout] at f3; exact absurd hpool (by simp [f3])
    | some w2 =>
      obtain ⟨p1, p2, tail, p3, p4⟩ := f1 w2 hout
      refine ⟨w2, rfl, ?_, fun hne => absurd hsucc.1 hne⟩
      intro hcommit
      obtain ⟨g1, g2, g3, g4⟩ := port_config_geometry env port w hcommit
      refine ⟨?_, ?_, ?_, g4⟩
      · rw [p1]; exact g1
      · rw [p1]; exact g2
      · rw [p3, filter_append_streaming _ _ _ (by intro c hc; cases c <;> simp_all
          [MMAL_CALL.isStreaming, MMAL_CALL.isPoolCreate]) p4]
        exact g3
  · simp only [hcfg, Bool.not_false, if_true]
    refine ⟨_, rfl, ?_, ?_⟩
    · intro hcommit
      obtain ⟨g1, g2, g3, g4⟩ := port_config_geometry env port w hcommit
      exact ⟨g1, g2, g3, g4⟩
    · intro hne
      rw [(port_config_commit_failed env port w hne).2]
      simp [MMAL_CALL.isPoolCreate]

/-- C1, on the demo hardware (recommended 1000 bytes, minimum 2000 bytes,
minimum 2 buffers): the first pull leaves a port of 6 buffers of 2000 bytes
and has created one pool, of 6 headers of 2000 bytes. -/
theorem C1_first_pull_buffer_geometry_witness :
    started_world.mmalsrc.first_port_config = 0 ∧
    ∃ w', (gst_mmalsrc_create (demo_create_env []) started_world).world? = some w' ∧
      w'.cam_port.buffer_size = 2000 ∧ w'.cam_port.buffer_num = 6 ∧
      w'.calls.filter MMAL_CALL.isPoolCreate = [.mmal_port_pool_create 4 6 2000] := by
  refine ⟨rfl, ?_⟩
  obtain ⟨_, _, w', h1, h2, _⟩ :=
    C1_first_pull_buffer_geometry (demo_create_env []) started_world 4 rfl rfl rfl
  obtain ⟨g1, g2, g3, _⟩ := h2 rfl
  exact ⟨w', h1, g1.trans (by decide), g2.trans (by decide), g3.trans (by decide)⟩

/-! ## C2, C3, C4: parameters set by `gst_mmalsrc_start` -/

theorem strcmp_eq_zero (a b : String) : (strcmp a b == 0) = decide (a = b) := by
  unfold strcmp
  by_cases h : a = b
  · simp [h]
  · by_cases h2 : a < b <;> simp [h, h2]

theorem start_enable_facts (env : StartEnv) (camera : MMAL_COMPONENT_T) (w : World) :
    ∃ tail, (gst_mmalsrc_start_enable env camera w).2.calls
        = w.calls ++ .mmal_port_enable camera.control .control_bh_cb :: tail ∧
      tail.filter MMAL_CALL.isParameterSet = [] ∧
      ((gst_mmalsrc_start_enable env camera w).1 = false →
        tail.filter MMAL_CALL.isComponentDestroy
          = [.mmal_component_destroy (some camera.handle)] ∧
        (gst_mmalsrc_start_enable env camera w).2.mmalsrc = w.mmalsrc) := by
  unfold gst_mmalsrc_start_enable
  by_cases h1 : env.mmal_port_enable camera.control = .MMAL_SUCCESS
  · by_cases h2 : env.mmal_component_enable camera.handle = .MMAL_SUCCESS
    · exact ⟨[.mmal_component_enable camera.handle], by
        simp [h1, h2, World.call, MMAL_CALL.isParameterSet]⟩
    · exact ⟨[.mmal_component_enable camera.handle,
          .mmal_component_destroy (some camera.handle)], by
        simp [h1, h2, World.call, MMAL_CALL.isParameterSet, gst_mmalsrc_start_error,
          MMAL_CALL.isComponentDestroy]⟩
  · exact ⟨[.mmal_component_destroy (some camera.handle)], by
      simp [h1, World.call, MMAL_CALL.isParameterSet, gst_mmalsrc_start_error,
        MMAL_CALL.isComponentDestroy]⟩

theorem refused_cases (s : MMAL_STATUS_T) :
    (refused s = true ∧ (s != .MMAL_SUCCESS && s != .MMAL_ENOSYS) = true) ∨
    (refused s = false ∧ (s != .MMAL_SUCCESS && s != .MMAL_ENOSYS) = false) := by
  cases h : refused s
  · exact Or.inr ⟨rfl, h⟩
  · exact Or.inl ⟨rfl, h⟩

theorem exposure_param_eq (exposure : String) :
    (if exposure = "on" then
      MMAL_PARAMETER.MMAL_PARAMETER_EXPOSURE_MODE .MMAL_PARAM_EXPOSUREMODE_AUTO
     else MMAL_PARAMETER.MMAL_PARAMETER_EXPOSURE_MODE .MMAL_PARAM_EXPOSUREMODE_OFF)
      = .MMAL_PARAMETER_EXPOSURE_MODE (exposure_mode_of exposure) := by
  unfold exposure_mode_of
  split <;> rfl

theorem call_calls (w : World) (c : MMAL_CALL) : (w.call c).calls = w.calls ++ [c] := rfl

theorem call_mmalsrc (w : World) (c : MMAL_CALL) : (w.call c).mmalsrc = w.mmalsrc := rfl

theorem start_error_some (c : MMAL_COMPONENT_T) (w : World) :
    gst_mmalsrc_start_error (some c) w
      = (false, w.call (.mmal_component_destroy (some c.handle))) := rfl

theorem start_parameters_facts (env : StartEnv) (camera : MMAL_COMPONENT_T)
    (video_port : Handle) (w : World) :
    ∃ issued, (gst_mmalsrc_start_parameters env camera video_port w).2.calls
        = w.calls ++ issued ∧
      issued.filter MMAL_CALL.isParameterSet
        = through_first_refusal env (parameter_plan w.mmalsrc camera video_port) ∧
      ((∃ c ∈ parameter_plan w.mmalsrc camera video_port, refused (env.status c) = true) →
        (gst_mmalsrc_start_parameters env camera video_port w).1 = false ∧
        issued.filter MMAL_CALL.isComponentDestroy
          = [.mmal_component_destroy (some camera.handle)] ∧
        (gst_mmalsrc_start_parameters env camera video_port w).2.mmalsrc = w.mmalsrc) ∧
      ((∀ c ∈ parameter_plan w.mmalsrc camera video_port, refused (env.status c) = false) →
        .mmal_port_enable camera.control .control_bh_cb ∈ issued) := by
  unfold gst_mmalsrc_start_parameters
  simp only [strcmp_eq_zero, MMALSRC_EXPOSURE_ON, decide_eq_true_eq, exposure_param_eq,
    call_mmalsrc, start_error_some]
  rcases refused_cases (env.mmal_port_parameter_set video_port (.MMAL_PARAMETER_CAPTURE 1))
    with ⟨h1, h1'⟩ | ⟨h1, h1'⟩
  · simp only [h1', if_true]
    refine ⟨[.mmal_port_parameter_set video_port (.MMAL_PARAMETER_CAPTURE 1),
      .mmal_component_destroy (some camera.handle)], ?_, ?_, ?_, ?_⟩ <;>
      simp [call_calls, call_mmalsrc, parameter_plan, through_first_refusal,
        StartEnv.status, MMAL_CALL.isParameterSet, MMAL_CALL.isComponentDestroy, h1]
  simp only [h1', Bool.false_eq_true, if_false]
  rcases refused_cases (env.mmal_port_parameter_set camera.control
    (.MMAL_PARAMETER_CAMERA_NUM 0)) with ⟨h2, h2'⟩ | ⟨h2, h2'⟩
  · simp only [h2', if_true]
    refine ⟨[.mmal_port_parameter_set video_port (.MMAL_PARAMETER_CAPTURE 1),
      .mmal_port_parameter_set camera.control (.MMAL_PARAMETER_CAMERA_NUM 0),
      .mmal_component_destroy (some camera.handle)], ?_, ?_, ?_, ?_⟩ <;>
      simp [call_calls, call_mmalsrc, parameter_plan, through_first_refusal,
        StartEnv.status, MMAL_CALL.isParameterSet, MMAL_CALL.isComponentDestroy, h1, h2]
  simp only [h2', Bool.false_eq_true, if_false]
  rcases refused_cases (env.mmal_port_parameter_set camera.control
    (.MMAL_PARAMETER_EXPOSURE_MODE (exposure_mode_of w.mmalsrc.exposure)))
    with ⟨h3, h3'⟩ | ⟨h3, h3'⟩
  · simp only [h3', if_true]
    refine ⟨[.mmal_port_parameter_set video_port (.MMAL_PARAMETER_CAPTURE 1),
      .mmal_port_parameter_set camera.control (.MMAL_PARAMETER_CAMERA_NUM 0),
      .mmal_port_parameter_set camera.control
        (.MMAL_PARAMETER_EXPOSURE_MODE (exposure_mode_of w.mmalsrc.exposure)),
      .mmal_component_destroy (some camera.handle)], ?_, ?_, ?_, ?_⟩ <;>
      simp [call_calls, call_mmalsrc, parameter_plan, through_first_refusal,
        StartEnv.status, MMAL_CALL.isParameterSet, MMAL_CALL.isComponentDestroy, h1, h2, h3]
  simp only [h3', Bool.false_eq_true, if_false]
  rcases refused_cases (env.mmal_port_parameter_set camera.control
    (.MMAL_PARAMETER_ISO w.mmalsrc.iso)) with ⟨h4, h4'⟩ | ⟨h4, h4'⟩
  · simp only [h4', if_true]
    refine ⟨[.mmal_port_parameter_set video_port (.MMAL_PARAMETER_CAPTURE 1),
      .mmal_port_parameter_set camera.control (.MMAL_PARAMETER_CAMERA_NUM 0),
      .mmal_port_parameter_set camera.control
        (.MMAL_PARAMETER_EXPOSURE_MODE (exposure_mode_of w.mmalsrc.exposure)),
      .mmal_port_parameter_set camera.control (.MMAL_PARAMETER_ISO w.mmalsrc.iso),
      .mmal_component_destroy (some camera.handle)], ?_, ?_, ?_, ?_⟩ <;>
      simp [call_calls, call_mmalsrc, parameter_plan, through_first_refusal,
        StartEnv.status, MMAL_CALL.isParameterSet, MMAL_CALL.isComponentDestroy,
        h1, h2, h3, h4]
  simp only [h4', Bool.false_eq_true, if_false]
  by_cases hon : w.mmalsrc.shutter_activation = "on"
  · simp only [hon, if_true]
    rcases refused_cases (env.mmal_port_parameter_set camera.control
      (.MMAL_PARAMETER_SHUTTER_SPEED w.mmalsrc.shutter_period)) with ⟨h5, h5'⟩ | ⟨h5, h5'⟩
    · simp only [h5', if_true]
      refine ⟨[.mmal_port_parameter_set video_port (.MMAL_PARAMETER_CAPTURE 1),
        .mmal_port_parameter_set camera.control (.MMAL_PARAMETER_CAMERA_NUM 0),
        .mmal_port_parameter_set camera.control
          (.MMAL_PARAMETER_EXPOSURE_MODE (exposure_mode_of w.mmalsrc.exposure)),
        .mmal_port_parameter_set camera.control (.MMAL_PARAMETER_ISO w.mmalsrc.iso),
        .mmal_port_parameter_set camera.control
          (.MMAL_PARAMETER_SHUTTER_SPEED w.mmalsrc.shutter_period),
        .mmal_component_destroy (some camera.handle)], ?_, ?_, ?_, ?_⟩ <;>
        simp [call_calls, call_mmalsrc, parameter_plan, through_first_refusal,
          StartEnv.status, MMAL_CALL.isParameterSet, MMAL_CALL.isComponentDestroy,
          h1, h2, h3, h4, h5, hon]
    · simp only [h5', Bool.false_eq_true, if_false]
      obtain ⟨tail, t1, t2, _⟩ := start_enable_facts env camera
        (((((w.call (.mmal_port_parameter_set video_port (.MMAL_PARAMETER_CAPTURE 1))).call
          (.mmal_port_parameter_set camera.control (.MMAL_PARAMETER_CAMERA_NUM 0))).call
          (.mmal_port_parameter_set camera.control
            (.MMAL_PARAMETER_EXPOSURE_MODE (exposure_mode_of w.mmalsrc.exposure)))).call
          (.mmal_port_parameter_set camera.control (.MMAL_PARAMETER_ISO w.mmalsrc.iso))).call
          (.mmal_port_parameter_set camera.control
            (.MMAL_PARAMETER_SHUTTER_SPEED w.mmalsrc.shutter_period)))
      refine ⟨[.mmal_port_parameter_set video_port (.MMAL_PARAMETER_CAPTURE 1),
        .mmal_port_parameter_set camera.control (.MMAL_PARAMETER_CAMERA_NUM 0),
        .mmal_port_parameter_set camera.control
          (.MMAL_PARAMETER_EXPOSURE_MODE (exposure_mode_of w.mmalsrc.exposure)),
        .mmal_port_parameter_set camera.control (.MMAL_PARAMETER_ISO w.mmalsrc.iso),
        .mmal_port_parameter_set camera.control
          (.MMAL_PARAMETER_SHUTTER_SPEED w.mmalsrc.shutter_period),
        .mmal_port_enable camera.control .control_bh_cb] ++ tail, ?_, ?_, ?_, ?_⟩
      · rw [t1]; simp [call_calls]
      · simp [t2, List.filter_append, parameter_plan, through_first_refusal,
          StartEnv.status, MMAL_CALL.isParameterSet, h1, h2, h3, h4, h5, hon]
      · simp [parameter_plan, StartEnv.status, h1, h2, h3, h4, h5, hon]
      · simp
  · simp only [hon, if_false]
    obtain ⟨tail, t1, t2, _⟩ := start_enable_facts env camera
      ((((w.call (.mmal_port_parameter_set video_port (.MMAL_PARAMETER_CAPTURE 1))).call
        (.mmal_port_parameter_set camera.control (.MMAL_PARAMETER_CAMERA_NUM 0))).call
        (.mmal_port_parameter_set camera.control
          (.MMAL_PARAMETER_EXPOSURE_MODE (exposure_mode_of w.mmalsrc.exposure)))).call
        (.mmal_port_parameter_set camera.control (.MMAL_PARAMETER_ISO w.mmalsrc.iso)))
    refine ⟨[.mmal_port_parameter_set video_port (.MMAL_PARAMETER_CAPTURE 1),
      .mmal_port_parameter_set camera.control (.MMAL_PARAMETER_CAMERA_NUM 0),
      .mmal_port_parameter_set camera.control
        (.MMAL_PARAMETER_EXPOSURE_MODE (exposure_mode_of w.mmalsrc.exposure)),
      .mmal_port_parameter_set camera.control (.MMAL_PARAMETER_ISO w.mmalsrc.iso),
      .mmal_port_enable camera.control .control_bh_cb] ++ tail, ?_, ?_, ?_, ?_⟩
    · rw [t1]; simp [call_calls]
    · simp [t2, List.filter_append, parameter_plan, through_first_refusal,
        StartEnv.status, MMAL_CALL.isParameterSet, h1, h2, h3, h4, hon]
    · simp [parameter_plan, StartEnv.status, h1, h2, h3, h4, hon]
    · simp

theorem start_eq_parameters (env : StartEnv) (w : World) (video_port : Handle)
    (hev : env.vcos_event_flags_create = .VCOS_SUCCESS)
    (hcomp : env.mmal_component_create = .MMAL_SUCCESS)
    (hvp : env.camera.output.get? MMAL_CAMERA_VIDEO_PORT = some video_port) :
    gst_mmalsrc_start env w
      = some (gst_mmalsrc_start_parameters env env.camera video_port
          (start_prelude_world w video_port)) := by
  have hnum : (env.camera.output_num == 0) = false := by
    unfold MMAL_COMPONENT_T.output_num
    cases ho : env.camera.output with
    | nil => simp [ho] at hvp
    | cons a l => simp
  unfold gst_mmalsrc_start
  simp only [hev, hcomp, hnum, hvp, bne_self_eq_false, Bool.false_eq_true, if_false]
  simp [start_prelude_world, World.call]

theorem start_reached (env : StartEnv) (w : World) (video_port : Handle)
    (hev : env.vcos_event_flags_create = .VCOS_SUCCESS)
    (hcomp : env.mmal_component_create = .MMAL_SUCCESS)
    (hvp : env.camera.output.get? MMAL_CAMERA_VIDEO_PORT = some video_port) :
    ∃ ret w' issued, gst_mmalsrc_start env w = some (ret, w') ∧
      w'.calls = w.calls ++ issued ∧
      issued.filter MMAL_CALL.isParameterSet
        = through_first_refusal env (parameter_plan w.mmalsrc env.camera video_port) ∧
      ((∃ c ∈ parameter_plan w.mmalsrc env.camera video_port, refused (env.status c) = true) →
        ret = false ∧
        issued.filter MMAL_CALL.isComponentDestroy
          = [.mmal_component_destroy (some env.camera.handle)] ∧
        w'.mmalsrc.camera_component = w.mmalsrc.camera_component) ∧
      ((∀ c ∈ parameter_plan w.mmalsrc env.camera video_port, refused (env.status c) = false) →
        .mmal_port_enable env.camera.control .control_bh_cb ∈ issued) := by
  obtain ⟨issued, i1, i2, i3, i4⟩ :=
    start_parameters_facts env env.camera video_port (start_prelude_world w video_port)
  have hplan : parameter_plan (start_prelude_world w video_port).mmalsrc env.camera video_port
      = parameter_plan w.mmalsrc env.camera video_port := rfl
  rw [hplan] at i2 i3 i4
  refine ⟨(gst_mmalsrc_start_parameters env env.camera video_port
      (start_prelude_world w video_port)).1,
    (gst_mmalsrc_start_parameters env env.camera video_port
      (start_prelude_world w video_port)).2,
    [.bcm_host_init, .vcos_event_flags_create, .mmal_component_create] ++ issued,
    start_eq_parameters env w video_port hev hcomp hvp, ?_, ?_, ?_, ?_⟩
  · rw [i1]; simp [start_prelude_world]
  · rw [List.filter_append, i2]; simp [MMAL_CALL.isParameterSet]
  · intro h
    obtain ⟨r1, r2, r3⟩ := i3 h
    refine ⟨r1, ?_, ?_⟩
    · rw [List.filter_append, r2]; simp [MMAL_CALL.isComponentDestroy]
    · rw [r3]; rfl
  · intro h
    exact List.mem_append_right _ (i4 h)

theorem through_first_refusal_initial (env : StartEnv) (l : List MMAL_CALL) :
    through_first_refusal env l <+: l := by
  induction l with
  | nil => simp [through_first_refusal]
  | cons c rest ih =>
    unfold through_first_refusal
    split
    · exact ⟨rest, rfl⟩
    · obtain ⟨t, ht⟩ := ih
      exact ⟨t, by simp [ht]⟩

/-- Whatever the platform answers, the parameter sets a start issues are an
initial segment of its plan. -/
theorem start_issued_general (env : StartEnv) (w : World) (r : Bool × World)
    (h : gst_mmalsrc_start env w = some r) :
    ∃ issued, r.2.calls = w.calls ++ issued ∧
      issued.filter MMAL_CALL.isParameterSet
        <+: parameter_plan w.mmalsrc env.camera
              ((env.camera.output.get? MMAL_CAMERA_VIDEO_PORT).getD 0) := by
  by_cases hev : env.vcos_event_flags_create = .VCOS_SUCCESS
  · by_cases hcomp : env.mmal_component_create = .MMAL_SUCCESS
    · cases hvp : env.camera.output.get? MMAL_CAMERA_VIDEO_PORT with
      | none =>
        unfold gst_mmalsrc_start at h
        simp only [hev, hcomp, hvp, bne_self_eq_false, Bool.false_eq_true, if_false] at h
        split at h
        · simp only [Option.some.injEq] at h
          subst h
          exact ⟨[.bcm_host_init, .vcos_event_flags_create, .mmal_component_create,
            .mmal_component_destroy (some env.camera.handle)],
            by simp [gst_mmalsrc_start_error, World.call],
            by simp [MMAL_CALL.isParameterSet]⟩
        · simp at h
      | some vp =>
        obtain ⟨ret, w', issued, e, i1, i2, _⟩ := start_reached env w vp hev hcomp hvp
        rw [e] at h
        simp only [Option.some.injEq] at h
        subst h
        refine ⟨issued, i1, ?_⟩
        rw [i2]
        exact through_first_refusal_initial env _
    · unfold gst_mmalsrc_start at h
      have hc : (env.mmal_component_create != .MMAL_SUCCESS) = true := by simpa using hcomp
      simp only [hev, hc, bne_self_eq_false, Bool.false_eq_true, if_false, if_true,
        Option.some.injEq] at h
      subst h
      exact ⟨[.bcm_host_init, .vcos_event_flags_create, .mmal_component_create],
        by simp [gst_mmalsrc_start_error, World.call], by simp [MMAL_CALL.isParameterSet]⟩
  · unfold gst_mmalsrc_start at h
    have hc : (env.vcos_event_flags_create != .VCOS_SUCCESS) = true := by simpa using hev
    simp only [hc, if_true, Option.some.injEq] at h
    subst h
    exact ⟨[.bcm_host_init, .vcos_event_flags_create],
      by simp [gst_mmalsrc_start_error, World.call], by simp [MMAL_CALL.isParameterSet]⟩

/-- A parameter set found among the calls a start issued belongs to its plan. -/
theorem issued_parameter_mem_plan (issued plan : List MMAL_CALL)
    (hpre : issued.filter MMAL_CALL.isParameterSet <+: plan)
    (port : Handle) (param : MMAL_PARAMETER)
    (hmem : MMAL_CALL.mmal_port_parameter_set port param ∈ issued) :
    MMAL_CALL.mmal_port_parameter_set port param ∈ plan := by
  have : MMAL_CALL.mmal_port_parameter_set port param
      ∈ issued.filter MMAL_CALL.isParameterSet :=
    List.mem_filter.mpr ⟨hmem, rfl⟩
  exact hpre.subset this

/-! ### C2: statuses of the parameter sets -/

/-- C2. When `gst_mmalsrc_start` reaches its parameter sets (event flags and
component created, video port present), the parameter sets it issues are the
planned ones (capture-enable, camera index, exposure mode, ISO, and shutter
speed when activated) in order, up to and including the first whose status is
neither success nor "not supported": an accepted status lets start go on to
the next step (after the last one, the enabling of the control port), and a
refused one makes start return `FALSE`, destroy the created component exactly
once, and leave `camera_component` as it was. -/
theorem C2_start_parameter_set_statuses (env : StartEnv) (w : World) (video_port : Handle)
    (hev : env.vcos_event_flags_create = .VCOS_SUCCESS)
    (hcomp : env.mmal_component_create = .MMAL_SUCCESS)
    (hvp : env.camera.output.get? MMAL_CAMERA_VIDEO_PORT = some video_port) :
    ∃ ret w' issued, gst_mmalsrc_start env w = some (ret, w') ∧
      w'.calls = w.calls ++ issued ∧
      issued.filter MMAL_CALL.isParameterSet
        = through_first_refusal env (parameter_plan w.mmalsrc env.camera video_port) ∧
      ((∃ c ∈ parameter_plan w.mmalsrc env.camera video_port, refused (env.status c) = true) →
        ret = false ∧
        issued.filter MMAL_CALL.isComponentDestroy
          = [.mmal_component_destroy (some env.camera.handle)] ∧
        w'.mmalsrc.camera_component = w.mmalsrc.camera_component) ∧
      ((∀ c ∈ parameter_plan w.mmalsrc env.camera video_port, refused (env.status c) = false) →
        .mmal_port_enable env.camera.control .control_bh_cb ∈ issued) :=
  start_reached env w video_port hev hcomp hvp

/-- C2 on a camera that answers "not supported" to the exposure mode and
refuses the ISO value: capture-enable, camera index, exposure mode and ISO are
set, nothing after the refused ISO, start returns `FALSE`, the component is
destroyed once and `camera_component` stays `NULL`. -/
theorem C2_start_parameter_set_statuses_witness :
    iso_refusing_env.vcos_event_flags_create = .VCOS_SUCCESS ∧
    iso_refusing_env.mmal_component_create = .MMAL_SUCCESS ∧
    iso_refusing_env.camera.output.get? MMAL_CAMERA_VIDEO_PORT = some 4 ∧
    ∃ ret w' issued, gst_mmalsrc_start iso_refusing_env initial_world = some (ret, w') ∧
      w'.calls = initial_world.calls ++ issued ∧
      issued.filter MMAL_CALL.isParameterSet
        = [ .mmal_port_parameter_set 4 (.MMAL_PARAMETER_CAPTURE 1),
            .mmal_port_parameter_set 2 (.MMAL_PARAMETER_CAMERA_NUM 0),
            .mmal_port_parameter_set 2
              (.MMAL_PARAMETER_EXPOSURE_MODE .MMAL_PARAM_EXPOSUREMODE_OFF),
            .mmal_port_parameter_set 2 (.MMAL_PARAMETER_ISO 400) ] ∧
      ret = false ∧
      issued.filter MMAL_CALL.isComponentDestroy = [.mmal_component_destroy (some 1)] ∧
      w'.mmalsrc.camera_component = none := by
  refine ⟨rfl, rfl, rfl, ?_⟩
  obtain ⟨ret, w', issued, h1, h2, h3, h4, _⟩ :=
    C2_start_parameter_set_statuses iso_refusing_env initial_world 4 rfl rfl rfl
  obtain ⟨r1, r2, r3⟩ := h4
    ⟨.mmal_port_parameter_set 2 (.MMAL_PARAMETER_ISO 400), by decide, by decide⟩
  exact ⟨ret, w', issued, h1, h2, h3.trans (by decide), r1, r2, r3⟩

/-! ### C3: the shutter speed -/

/-- C3 as stated fails. With the default shutter-activation "on", a start
whose component creation fails makes three calls and returns `FALSE`: no
shutter-speed parameter is set although shutter-activation is "on". -/
theorem C3_counterexample_on_without_shutter_set :
    initial_world.mmalsrc.shutter_activation = "on" ∧
    ∃ w', gst_mmalsrc_start no_camera_env initial_world = some (false, w') ∧
      w'.calls = [.bcm_host_init, .vcos_event_flags_create, .mmal_component_create] ∧
      ∀ port v, MMAL_CALL.mmal_port_parameter_set port (.MMAL_PARAMETER_SHUTTER_SPEED v)
        ∉ w'.calls := by
  refine ⟨rfl, _, rfl, rfl, ?_⟩
  intro port v h
  simp [gst_mmalsrc_start_error, World.call, initial_world] at h

/-- C3, amended. A start sets a shutter-speed parameter only if
shutter-activation is "on", and then on the control port with the value
shutter-period: with any other shutter-activation none is set, whatever
shutter-period is. When the start reaches that step (event flags and component
created, video port present, the four earlier parameter sets accepted), it
sets the shutter speed if and only if shutter-activation is "on". -/
theorem C3_shutter_speed_set_amended (env : StartEnv) (w : World) :
    (∀ r, gst_mmalsrc_start env w = some r →
      ∃ issued, r.2.calls = w.calls ++ issued ∧
        ∀ port v, MMAL_CALL.mmal_port_parameter_set port (.MMAL_PARAMETER_SHUTTER_SPEED v)
            ∈ issued →
          w.mmalsrc.shutter_activation = "on" ∧ v = w.mmalsrc.shutter_period ∧
          port = env.camera.control) ∧
    (∀ video_port,
      env.vcos_event_flags_create = .VCOS_SUCCESS →
      env.mmal_component_create = .MMAL_SUCCESS →
      env.camera.output.get? MMAL_CAMERA_VIDEO_PORT = some video_port →
      refused (env.mmal_port_parameter_set video_port (.MMAL_PARAMETER_CAPTURE 1)) = false →
      refused (env.mmal_port_parameter_set env.camera.control
        (.MMAL_PARAMETER_CAMERA_NUM 0)) = false →
      refused (env.mmal_port_parameter_set env.camera.control
        (.MMAL_PARAMETER_EXPOSURE_MODE (exposure_mode_of w.mmalsrc.exposure))) = false →
      refused (env.mmal_port_parameter_set env.camera.control
        (.MMAL_PARAMETER_ISO w.mmalsrc.iso)) = false →
      ∃ ret w' issued, gst_mmalsrc_start env w = some (ret, w') ∧
        w'.calls = w.calls ++ issued ∧
        (MMAL_CALL.mmal_port_parameter_set env.camera.control
            (.MMAL_PARAMETER_SHUTTER_SPEED w.mmalsrc.shutter_period) ∈ issued
          ↔ w.mmalsrc.shutter_activation = "on")) := by
  constructor
  · intro r h
    obtain ⟨issued, i1, i2⟩ := start_issued_general env w r h
    refine ⟨issued, i1, ?_⟩
    intro port v hmem
    have := issued_parameter_mem_plan issued _ i2 port _ hmem
    unfold parameter_plan at this
    by_cases hon : w.mmalsrc.shutter_activation = "on"
    · simp [hon] at this
      exact ⟨hon, this.2, this.1⟩
    · simp [hon] at this
  · intro video_port hev hcomp hvp h1 h2 h3 h4
    obtain ⟨ret, w', issued, e, i1, i2, _⟩ := start_reached env w video_port hev hcomp hvp
    refine ⟨ret, w', issued, e, i1, ?_⟩
    constructor
    · intro hmem
      have := issued_parameter_mem_plan issued _
        (i2 ▸ through_first_refusal_initial env _) _ _ hmem
      unfold parameter_plan at this
      by_cases hon : w.mmalsrc.shutter_activation = "on"
      · exact hon
      · simp [hon] at this
    · intro hon
      have : MMAL_CALL.mmal_port_parameter_set env.camera.control
          (.MMAL_PARAMETER_SHUTTER_SPEED w.mmalsrc.shutter_period)
          ∈ issued.filter MMAL_CALL.isParameterSet := by
        rw [i2]
        simp only [parameter_plan, hon, if_true, List.cons_append, List.nil_append,
          through_first_refusal, StartEnv.status, h1, h2, h3, h4, Bool.false_eq_true,
          if_false]
        split <;> simp
      exact List.mem_of_mem_filter this

/-- C3 amended, exercised: on the demo camera the default element
(shutter-activation "on", period 10000) sets the shutter speed 10000 on the
control port, and the same element with shutter-activation "off" sets none. -/
theorem C3_shutter_speed_set_amended_witness :
    (∃ ret w' issued, gst_mmalsrc_start demo_start_env initial_world = some (ret, w') ∧
      w'.calls = initial_world.calls ++ issued ∧
      MMAL_CALL.mmal_port_parameter_set 2 (.MMAL_PARAMETER_SHUTTER_SPEED 10000) ∈ issued) ∧
    (∀ r, gst_mmalsrc_start demo_start_env
        { initial_world with
          mmalsrc := { gst_mmalsrc_init with shutter_activation := "off" } } = some r →
      ∀ port v, MMAL_CALL.mmal_port_parameter_set port (.MMAL_PARAMETER_SHUTTER_SPEED v)
        ∉ r.2.calls) := by
  constructor
  · obtain ⟨ret, w', issued, e, i1, i2⟩ :=
      (C3_shutter_speed_set_amended demo_start_env initial_world).2 4 rfl rfl rfl
        rfl rfl rfl rfl
    exact ⟨ret, w', issued, e, i1, i2.mpr rfl⟩
  · intro r h port v hmem
    obtain ⟨issued, i1, i2⟩ :=
      (C3_shutter_speed_set_amended demo_start_env
        { initial_world with
          mmalsrc := { gst_mmalsrc_init with shutter_activation := "off" } }).1 r h
    rw [i1] at hmem
    simp only [initial_world, List.nil_append] at hmem
    have := (i2 port v hmem).1
    simp [gst_mmalsrc_init] at this

/-! ### C4: the exposure mode -/

/-- C4. Every exposure-mode parameter a start sends carries auto-exposure when
the exposure property equals "on" and exposure-off for "off" and every other
string; and a start that reaches that step (event flags and component
created, video port present, capture-enable and camera index accepted) does
send it, on the control port. -/
theorem C4_exposure_mode_sent (env : StartEnv) (w : World) :
    (∀ r, gst_mmalsrc_start env w = some r →
      ∃ issued, r.2.calls = w.calls ++ issued ∧
        ∀ port v, MMAL_CALL.mmal_port_parameter_set port (.MMAL_PARAMETER_EXPOSURE_MODE v)
            ∈ issued →
          v = (if w.mmalsrc.exposure = "on" then .MMAL_PARAM_EXPOSUREMODE_AUTO
               else .MMAL_PARAM_EXPOSUREMODE_OFF)) ∧
    (∀ video_port,
      env.vcos_event_flags_create = .VCOS_SUCCESS →
      env.mmal_component_create = .MMAL_SUCCESS →
      env.camera.output.get? MMAL_CAMERA_VIDEO_PORT = some video_port →
      refused (env.mmal_port_parameter_set video_port (.MMAL_PARAMETER_CAPTURE 1)) = false →
      refused (env.mmal_port_parameter_set env.camera.control
        (.MMAL_PARAMETER_CAMERA_NUM 0)) = false →
      ∃ ret w' issued, gst_mmalsrc_start env w = some (ret, w') ∧
        w'.calls = w.calls ++ issued ∧
        MMAL_CALL.mmal_port_parameter_set env.camera.control
          (.MMAL_PARAMETER_EXPOSURE_MODE
            (if w.mmalsrc.exposure = "on" then .MMAL_PARAM_EXPOSUREMODE_AUTO
             else .MMAL_PARAM_EXPOSUREMODE_OFF)) ∈ issued) := by
  constructor
  · intro r h
    obtain ⟨issued, i1, i2⟩ := start_issued_general env w r h
    refine ⟨issued, i1, ?_⟩
    intro port v hmem
    have := issued_parameter_mem_plan issued _ i2 port _ hmem
    unfold parameter_plan exposure_mode_of at this
    by_cases hon : w.mmalsrc.shutter_activation = "on"
    · simp [hon] at this
      exact this.2
    · simp [hon] at this
      exact this.2
  · intro video_port hev hcomp hvp h1 h2
    obtain ⟨ret, w', issued, e, i1, i2, _⟩ := start_reached env w video_port hev hcomp hvp
    refine ⟨ret, w', issued, e, i1, ?_⟩
    have : MMAL_CALL.mmal_port_parameter_set env.camera.control
        (.MMAL_PARAMETER_EXPOSURE_MODE (exposure_mode_of w.mmalsrc.exposure))
        ∈ issued.filter MMAL_CALL.isParameterSet := by
      rw [i2]
      simp only [parameter_plan, List.cons_append, through_first_refusal, StartEnv.status,
        h1, h2, Bool.false_eq_true, if_false]
      split <;> simp
    exact List.mem_of_mem_filter this

/-- C4, exercised on the demo camera: with exposure "on" the start sends
auto-exposure, with the default "off" and with the string "auto" it sends
exposure-off. -/
theorem C4_exposure_mode_sent_witness :
    (∃ ret w' issued, gst_mmalsrc_start demo_start_env
        { initial_world with mmalsrc := { gst_mmalsrc_init with exposure := "on" } }
          = some (ret, w') ∧ w'.calls = issued ∧
      MMAL_CALL.mmal_port_parameter_set 2
        (.MMAL_PARAMETER_EXPOSURE_MODE .MMAL_PARAM_EXPOSUREMODE_AUTO) ∈ issued) ∧
    (∃ ret w' issued, gst_mmalsrc_start demo_start_env initial_world = some (ret, w') ∧
      w'.calls = issued ∧
      MMAL_CALL.mmal_port_parameter_set 2
        (.MMAL_PARAMETER_EXPOSURE_MODE .MMAL_PARAM_EXPOSUREMODE_OFF) ∈ issued) ∧
    (∃ ret w' issued, gst_mmalsrc_start demo_start_env
        { initial_world with mmalsrc := { gst_mmalsrc_init with exposure := "auto" } }
          = some (ret, w') ∧ w'.calls = issued ∧
      MMAL_CALL.mmal_port_parameter_set 2
        (.MMAL_PARAMETER_EXPOSURE_MODE .MMAL_PARAM_EXPOSUREMODE_OFF) ∈ issued) := by
  refine ⟨?_, ?_, ?_⟩
  · obtain ⟨ret, w', issued, e, i1, i2⟩ :=
      (C4_exposure_mode_sent demo_start_env
        { initial_world with mmalsrc := { gst_mmalsrc_init with exposure := "on" } }).2
        4 rfl rfl rfl rfl rfl
    exact ⟨ret, w', issued, e, by simpa [initial_world] using i1, i2⟩
  · obtain ⟨ret, w', issued, e, i1, i2⟩ :=
      (C4_exposure_mode_sent demo_start_env initial_world).2 4 rfl rfl rfl rfl rfl
    exact ⟨ret, w', issued, e, by simpa [initial_world] using i1, i2⟩
  · obtain ⟨ret, w', issued, e, i1, i2⟩ :=
      (C4_exposure_mode_sent demo_start_env
        { initial_world with mmalsrc := { gst_mmalsrc_init with exposure := "auto" } }).2
        4 rfl rfl rfl rfl rfl
    exact ⟨ret, w', issued, e, by simpa [initial_world] using i1, i2⟩

/-! ## The buffer-exchange protocol -/

/-- Effect of `generic_output_port_cb` on a port whose `userdata` is `queue`. -/
theorem output_port_cb_effect (w : World) (buffer : MMAL_BUFFER_HEADER_T) (queue : Handle)
    (huser : w.cam_port.userdata = some queue) :
    (buffer.cmd ≠ 0 →
      (generic_output_port_cb w buffer).pools buffer.pool = w.pools buffer.pool ++ [buffer] ∧
      (∀ p, p ≠ buffer.pool → (generic_output_port_cb w buffer).pools p = w.pools p) ∧
      (generic_output_port_cb w buffer).queues = w.queues) ∧
    (buffer.cmd = 0 →
      (generic_output_port_cb w buffer).queues queue = w.queues queue ++ [buffer] ∧
      (∀ q, q ≠ queue → (generic_output_port_cb w buffer).queues q = w.queues q) ∧
      (generic_output_port_cb w buffer).pools = w.pools ∧
      (generic_output_port_cb w buffer).events.testBit 0 = true) ∧
    (generic_output_port_cb w buffer).events = w.events ||| MMAL_CAM_BUFFER_READY := by
  unfold generic_output_port_cb
  refine ⟨?_, ?_, ?_⟩
  · intro hcmd
    simp [hcmd, vcos_event_flags_set, mmal_buffer_header_release, setAt]
    intro p hp
    simp [hp]
  · intro hcmd
    simp [hcmd, huser, vcos_event_flags_set, mmal_queue_put, setAt, MMAL_CAM_BUFFER_READY]
    intro q hq
    simp [hq]
  · split <;> simp [vcos_event_flags_set, mmal_buffer_header_release, mmal_queue_put]
    cases w.cam_port.userdata <;> simp

/-- A refill all of whose submissions are accepted moves the whole free-list
to the hardware. -/
theorem send_loop_accepted (env : CreateEnv) (port pool : Handle)
    (hacc : ∀ b, env.mmal_port_send_buffer b = .MMAL_SUCCESS)
    (l : List MMAL_BUFFER_HEADER_T) (w : World) (hl : w.pools pool = l) :
    (gst_mmalsrc_create_send_loop env port pool l w).hw = w.hw ++ l ∧
    (gst_mmalsrc_create_send_loop env port pool l w).pools pool = [] := by
  induction l generalizing w with
  | nil => simp [gst_mmalsrc_create_send_loop, hl]
  | cons b rest ih =>
    simp only [gst_mmalsrc_create_send_loop]
    obtain ⟨h1, h2⟩ := ih
      (mmal_port_send_buffer env port { w with pools := setAt w.pools pool rest } b).2
      (by simp [mmal_port_send_buffer, World.call, hacc, setAt])
    refine ⟨h1.trans ?_, h2⟩
    simp [mmal_port_send_buffer, World.call, hacc]

/-- A blocking dequeue on a queue that yields a buffer took the head of the
queue. -/
theorem mmal_queue_wait_some (w w1 : World) (q : Handle) (b : MMAL_BUFFER_HEADER_T)
    (h : mmal_queue_wait w (some q) = some (some b, w1)) :
    ∃ rest, w.queues q = b :: rest ∧
      w1 = { w.call (.mmal_queue_wait q) with queues := setAt w.queues q rest } := by
  unfold mmal_queue_wait at h
  simp only at h
  split at h
  · simp at h
  · rename_i b' rest hq
    simp only [Option.some.injEq, Prod.mk.injEq] at h
    obtain ⟨rfl, rfl⟩ := h
    exact ⟨rest, hq, rfl⟩

/-- Every operation of the protocol whose submissions are accepted keeps the
bookkeeping. -/
theorem inv_step (port pool queue : Handle) (n : Nat) (s s' : Pipeline) (op : PipelineOp)
    (hinv : s.Inv port pool queue n) (hacc : op.sends_accepted)
    (hstep : s.step op = some s') : s'.Inv port pool queue n := by
  cases op with
  | refill env =>
    simp only [Pipeline.step, hinv.port_eq, hinv.pool_eq, Option.some.injEq] at hstep
    subst hstep
    obtain ⟨f1, f2, _, f4, _⟩ := send_loop_facts env port pool (s.w.pools pool) s.w
    obtain ⟨a1, a2⟩ := send_loop_accepted env port pool hacc (s.w.pools pool) s.w rfl
    have ht := hinv.total
    exact
      { port_eq := by
          show (gst_mmalsrc_create_send_loop env port pool _ s.w).mmalsrc.cam_port = _
          rw [f2]; exact hinv.port_eq
        pool_eq := by
          show (gst_mmalsrc_create_send_loop env port pool _ s.w).mmalsrc.cam_pool = _
          rw [f2]; exact hinv.pool_eq
        queue_eq := by
          show (gst_mmalsrc_create_send_loop env port pool _ s.w).mmalsrc.queue_video_frames = _
          rw [f2]; exact hinv.queue_eq
        userdata_eq := by
          show (gst_mmalsrc_create_send_loop env port pool _ s.w).cam_port.userdata = _
          rw [f1]; exact hinv.userdata_eq
        num_eq := by
          show (gst_mmalsrc_create_send_loop env port pool _ s.w).cam_port.buffer_num = _
          rw [f1]; exact hinv.num_eq
        hw_owned := by
          show ∀ b ∈ (gst_mmalsrc_create_send_loop env port pool _ s.w).hw, _
          rw [a1]
          intro b hb
          rcases List.mem_append.mp hb with h | h
          · exact hinv.hw_owned b h
          · exact hinv.free_owned b h
        queue_owned := by
          show ∀ b ∈ (gst_mmalsrc_create_send_loop env port pool _ s.w).queues queue, _
          rw [f4]; exact hinv.queue_owned
        free_owned := by
          show ∀ b ∈ (gst_mmalsrc_create_send_loop env port pool _ s.w).pools pool, _
          rw [a2]; simp
        frames_owned := hinv.frames_owned
        total := by
          show (gst_mmalsrc_create_send_loop env port pool _ s.w).hw.length
            + ((gst_mmalsrc_create_send_loop env port pool _ s.w).queues queue).length
            + ((gst_mmalsrc_create_send_loop env port pool _ s.w).pools pool).length
            + s.frames.length = n
          rw [a1, a2, f4, List.length_append]
          simp only [List.length_nil]
          omega }
  | callback buffer =>
    simp only [Pipeline.step] at hstep
    split at hstep
    · rename_i hany
      simp only [Option.some.injEq] at hstep
      subst hstep
      obtain ⟨x, hx, hsame⟩ := List.any_eq_true.mp hany
      have hpool : buffer.pool = pool := by
        have := hinv.hw_owned x hx
        simp only [same_header, Bool.and_eq_true, beq_iff_eq] at hsame
        rw [hsame.1]; exact this
      have hlen : (s.w.hw.eraseP (same_header buffer)).length + 1 = s.w.hw.length := by
        rw [List.length_eraseP_of_mem hx hsame]
        have : 0 < s.w.hw.length := List.length_pos_of_mem hx
        omega
      obtain ⟨g1, g2, _, g4⟩ := generic_output_port_cb_facts
        { s.w with hw := s.w.hw.eraseP (same_header buffer) } buffer
      obtain ⟨c1, c2, _⟩ := output_port_cb_effect
        { s.w with hw := s.w.hw.eraseP (same_header buffer) } buffer queue hinv.userdata_eq
      have ht := hinv.total
      have hfo := hinv.free_owned
      have hqo := hinv.queue_owned
      refine
        { port_eq := by show (hw_deliver s.w buffer).mmalsrc.cam_port = _
                        unfold hw_deliver; rw [g2]; exact hinv.port_eq
          pool_eq := by show (hw_deliver s.w buffer).mmalsrc.cam_pool = _
                        unfold hw_deliver; rw [g2]; exact hinv.pool_eq
          queue_eq := by show (hw_deliver s.w buffer).mmalsrc.queue_video_frames = _
                         unfold hw_deliver; rw [g2]; exact hinv.queue_eq
          userdata_eq := by show (hw_deliver s.w buffer).cam_port.userdata = _
                            unfold hw_deliver; rw [g1]; exact hinv.userdata_eq
          num_eq := by show (hw_deliver s.w buffer).cam_port.buffer_num = _
                       unfold hw_deliver; rw [g1]; exact hinv.num_eq
          hw_owned := by
            show ∀ b ∈ (hw_deliver s.w buffer).hw, _
            unfold hw_deliver; rw [g4]
            intro b hb
            exact hinv.hw_owned b (List.mem_of_mem_eraseP hb)
          queue_owned := ?_
          free_owned := ?_
          frames_owned := hinv.frames_owned
          total := ?_ }
      · show ∀ b ∈ (hw_deliver s.w buffer).queues queue, _
        unfold hw_deliver
        by_cases hcmd : buffer.cmd = 0
        · rw [(c2 hcmd).1]
          intro b hb
          rcases List.mem_append.mp hb with h | h
          · exact hqo b h
          · simp only [List.mem_singleton] at h; rw [h]; exact hpool
        · rw [(c1 hcmd).2.2]; exact hqo
      · show ∀ b ∈ (hw_deliver s.w buffer).pools pool, _
        unfold hw_deliver
        by_cases hcmd : buffer.cmd = 0
        · rw [(c2 hcmd).2.2.1]; exact hfo
        · have := (c1 hcmd).1
          rw [hpool] at this
          rw [this]
          intro b hb
          rcases List.mem_append.mp hb with h | h
          · exact hfo b h
          · simp only [List.mem_singleton] at h; rw [h]; exact hpool
      · show (hw_deliver s.w buffer).hw.length + ((hw_deliver s.w buffer).queues queue).length
          + ((hw_deliver s.w buffer).pools pool).length + s.frames.length = n
        unfold hw_deliver
        rw [g4]
        by_cases hcmd : buffer.cmd = 0
        · rw [(c2 hcmd).1, (c2 hcmd).2.2.1, List.length_append]
          simp only [List.length_singleton]
          omega
        · have := (c1 hcmd).1
          rw [hpool] at this
          rw [this, (c1 hcmd).2.2, List.length_append]
          simp only [List.length_singleton]
          omega
    · simp at hstep
  | dequeue_wrap =>
    simp only [Pipeline.step, hinv.queue_eq] at hstep
    split at hstep
    · rename_i b w1 hq
      simp only [Option.some.injEq] at hstep
      subst hstep
      obtain ⟨rest, hrest, rfl⟩ := mmal_queue_wait_some _ _ _ _ hq
      have ht := hinv.total
      have hqo := hinv.queue_owned
      rw [hrest] at ht hqo
      exact
        { port_eq := hinv.port_eq
          pool_eq := hinv.pool_eq
          queue_eq := hinv.queue_eq
          userdata_eq := hinv.userdata_eq
          num_eq := hinv.num_eq
          hw_owned := hinv.hw_owned
          queue_owned := by
            intro b' hb'
            simp only [World.call, setAt, if_true] at hb'
            exact hqo b' (List.mem_cons_of_mem _ hb')
          free_owned := hinv.free_owned
          frames_owned := by
            intro f hf
            rcases List.mem_append.mp hf with h | h
            · exact hinv.frames_owned f h
            · simp only [List.mem_singleton] at h
              rw [h]
              exact hqo b (List.mem_cons_self _ _)
          total := by
            simp only [World.call, setAt, if_true, List.length_append, List.length_singleton]
            simp only [List.length_cons] at ht
            omega }
    · simp at hstep
  | release frame =>
    simp only [Pipeline.step] at hstep
    split at hstep
    · rename_i hmem
      simp only [Option.some.injEq] at hstep
      subst hstep
      have hp : frame.user_data.pool = pool := hinv.frames_owned frame hmem
      have ht := hinv.total
      have hlen : (s.frames.erase frame).length + 1 = s.frames.length := by
        rw [List.length_erase_of_mem hmem]
        have : 0 < s.frames.length := List.length_pos_of_mem hmem
        omega
      exact
        { port_eq := hinv.port_eq
          pool_eq := hinv.pool_eq
          queue_eq := hinv.queue_eq
          userdata_eq := hinv.userdata_eq
          num_eq := hinv.num_eq
          hw_owned := hinv.hw_owned
          queue_owned := hinv.queue_owned
          free_owned := by
            intro b hb
            simp only [gst_release_buffer_cb, mmal_buffer_header_release, setAt, hp,
              if_true] at hb
            rcases List.mem_append.mp hb with h | h
            · exact hinv.free_owned b h
            · simp only [List.mem_singleton] at h; rw [h]; exact hp
          frames_owned := fun f hf => hinv.frames_owned f (List.mem_of_mem_erase hf)
          total := by
            simp only [gst_release_buffer_cb, mmal_buffer_header_release, setAt, hp,
              if_true, List.length_append, List.length_singleton]
            omega }
    · simp at hstep

/-- The bookkeeping holds along every run whose submissions are accepted. -/
theorem inv_run (port pool queue : Handle) (n : Nat) (ops : List PipelineOp)
    (s s' : Pipeline) (hinv : s.Inv port pool queue n)
    (hacc : ∀ op ∈ ops, op.sends_accepted) (hrun : s.run ops = some s') :
    s'.Inv port pool queue n := by
  induction ops generalizing s with
  | nil =>
    simp only [Pipeline.run, Option.some.injEq] at hrun
    subst hrun
    exact hinv
  | cons op ops ih =>
    simp only [Pipeline.run] at hrun
    cases hst : s.step op with
    | none => simp [hst] at hrun
    | some s1 =>
      simp only [hst, Option.some_bind] at hrun
      exact ih s1 (inv_step port pool queue n s s1 op hinv
        (hacc op (List.mem_cons_self _ _)) hst)
        (fun o ho => hacc o (List.mem_cons_of_mem _ ho)) hrun

theorem new_pool_headers_facts (pool : Handle) (headers payload_size : Nat) :
    (new_pool_headers pool headers payload_size).length = headers ∧
    ∀ b ∈ new_pool_headers pool headers payload_size, b.pool = pool := by
  unfold new_pool_headers
  constructor
  · simp
  · intro b hb
    simp only [List.mem_map] at hb
    obtain ⟨i, _, rfl⟩ := hb
    rfl

/-- The bookkeeping holds right after the pool has been created, on an
element that had nothing in flight. -/
theorem inv_init (env : CreateEnv) (port : Handle) (w0 : World)
    (hport : w0.mmalsrc.cam_port = some port) (hfresh : w0.hw = [])
    (hcfg : (gst_mmalsrc_create_port_config env port w0).1 = true) :
    ∃ pool queue,
      Pipeline.Inv port pool queue (gst_mmalsrc_create_port_config env port w0).2.cam_port.buffer_num
        { w := (gst_mmalsrc_create_port_config env port w0).2, frames := [] } := by
  obtain ⟨c1, _, c3, c4, c5, c6, c7, c8⟩ := port_config_success env port w0 hcfg
  obtain ⟨g1, g2, _, g4⟩ := port_config_geometry env port w0 c1
  rw [c3] at c4 c5
  cases hp : env.mmal_port_pool_create with
  | none => simp [hp] at c4
  | some pool =>
    cases hq : env.mmal_queue_create with
    | none => simp [hq] at c5
    | some queue =>
      obtain ⟨n1, n2⟩ := new_pool_headers_facts pool
        (max MMALSRC_FRMBUF_COUNT (committed_port env w0).buffer_num_min)
        (max (committed_port env w0).buffer_size_recommended
          (committed_port env w0).buffer_size_min)
      refine ⟨pool, queue,
        { port_eq := by simp only [c3]; exact hport
          pool_eq := by simp only [c3]; exact hp
          queue_eq := by simp only [c3]; exact hq
          userdata_eq := by simp only [c6]; exact hq
          num_eq := rfl
          hw_owned := by simp only [c7, hfresh]; simp
          queue_owned := by simp only [c8 queue hq]; simp
          free_owned := by simp only [g4 pool hp]; exact n2
          frames_owned := by simp
          total := by
            simp only [c7, hfresh, c8 queue hq, g4 pool hp, n1, g2]
            simp }⟩

/-! ## C5: the output port callback -/

/-- C5. For every buffer delivered to `generic_output_port_cb` on the port
whose `userdata` is the queue of frames: with a non-zero `cmd` the buffer is
appended to the free-list of its own pool and no queue changes; with a zero
`cmd` it is appended at the tail of the queue of frames, no pool free-list
changes, and the buffer-ready bit of the event flags is set. (The bit is set
in the first case too.) -/
theorem C5_output_port_callback (w : World) (buffer : MMAL_BUFFER_HEADER_T) (queue : Handle)
    (huser : w.cam_port.userdata = some queue) :
    (buffer.cmd ≠ 0 →
      (generic_output_port_cb w buffer).pools buffer.pool = w.pools buffer.pool ++ [buffer] ∧
      (∀ p, p ≠ buffer.pool → (generic_output_port_cb w buffer).pools p = w.pools p) ∧
      (generic_output_port_cb w buffer).queues = w.queues) ∧
    (buffer.cmd = 0 →
      (generic_output_port_cb w buffer).queues queue = w.queues queue ++ [buffer] ∧
      (∀ q, q ≠ queue → (generic_output_port_cb w buffer).queues q = w.queues q) ∧
      (generic_output_port_cb w buffer).pools = w.pools ∧
      (generic_output_port_cb w buffer).events.testBit 0 = true) ∧
    (generic_output_port_cb w buffer).events = w.events ||| MMAL_CAM_BUFFER_READY :=
  output_port_cb_effect w buffer queue huser

/-- C5, exercised: on a port whose queue 20 holds one frame, a buffer with
`cmd = 0` joins the queue at its tail and one with `cmd = 5` goes to its pool
10 instead. -/
theorem C5_output_port_callback_witness :
    (generic_output_port_cb
      { initial_world with
        cam_port := { blank_port with userdata := some 20 }
        queues := fun q => if q = 20 then [demo_buffer 3 0 2000] else [] }
      (demo_buffer 0 0 2000)).queues 20 = [demo_buffer 3 0 2000, demo_buffer 0 0 2000] ∧
    (generic_output_port_cb
      { initial_world with
        cam_port := { blank_port with userdata := some 20 }
        queues := fun q => if q = 20 then [demo_buffer 3 0 2000] else [] }
      (demo_buffer 0 5 0)).pools 10 = [demo_buffer 0 5 0] := by
  constructor
  · exact ((C5_output_port_callback
      { initial_world with
        cam_port := { blank_port with userdata := some 20 }
        queues := fun q => if q = 20 then [demo_buffer 3 0 2000] else [] }
      (demo_buffer 0 0 2000) 20 rfl).2.1 rfl).1
  · exact ((C5_output_port_callback
      { initial_world with
        cam_port := { blank_port with userdata := some 20 }
        queues := fun q => if q = 20 then [demo_buffer 3 0 2000] else [] }
      (demo_buffer 0 5 0) 20 rfl).1 (by decide)).1

/-! ## C6: the control port callback -/

/-- C6. For every buffer passed to `control_bh_cb`, whatever its command and
whatever the parameter id, the handler returns (no branch stops it) and has
released the buffer exactly once: the buffer is appended once to the free-list
of its pool and nothing else changes. This holds for every buffer when
assertions are compiled out, and for every buffer satisfying the handler's own
assertions when they are compiled in. -/
theorem C6_control_callback_releases (asserts : Bool) (w : World)
    (buffer : MMAL_BUFFER_HEADER_T)
    (hassert : asserts = true → event_assertions_hold buffer) :
    ∃ w', control_bh_cb asserts w buffer = some w' ∧
      w' = mmal_buffer_header_release w buffer ∧
      w'.pools buffer.pool = w.pools buffer.pool ++ [buffer] ∧
      (w'.pools buffer.pool).count buffer = (w.pools buffer.pool).count buffer + 1 ∧
      (∀ p, p ≠ buffer.pool → w'.pools p = w.pools p) ∧
      w'.queues = w.queues ∧ w'.hw = w.hw ∧ w'.mmalsrc = w.mmalsrc := by
  have hrel : (mmal_buffer_header_release w buffer).pools buffer.pool
      = w.pools buffer.pool ++ [buffer] := by
    simp [mmal_buffer_header_release, setAt]
  refine ⟨mmal_buffer_header_release w buffer, ?_, rfl, hrel, ?_, ?_, rfl, rfl, rfl⟩
  · unfold control_bh_cb
    by_cases hcmd : buffer.cmd = MMAL_EVENT_PARAMETER_CHANGED
    · cases asserts with
      | false => simp [hcmd, vcos_assert]
      | true =>
        obtain ⟨a1, a2, a3⟩ := hassert rfl hcmd
        by_cases hid : buffer.event.hdr_id = MMAL_PARAMETER_CAMERA_NUM_ID
        · have hl : buffer.length = sizeof_MMAL_PARAMETER_UINT32_T := a2.trans (a3 hid)
          have hs : buffer.event.hdr_size = sizeof_MMAL_PARAMETER_UINT32_T := a3 hid
          simp [hcmd, vcos_assert, hid, hl, hs, sizeof_MMAL_PARAMETER_UINT32_T,
            sizeof_MMAL_EVENT_PARAMETER_CHANGED_T]
        · simp [hcmd, vcos_assert, a1, ← a2, hid]
    · simp [hcmd]
  · rw [hrel]; simp
  · intro p hp
    simp [mmal_buffer_header_release, setAt, hp]

/-- C6, exercised with assertions compiled in: a camera-number event (12
bytes) and a buffer that is not a parameter-changed event are each released
once to their pool 30. -/
theorem C6_control_callback_releases_witness :
    event_assertions_hold camera_num_event ∧
    (∃ w', control_bh_cb true initial_world camera_num_event = some w' ∧
      w'.pools 30 = [camera_num_event]) ∧
    event_assertions_hold unexpected_event ∧
    (∃ w', control_bh_cb true initial_world unexpected_event = some w' ∧
      w'.pools 30 = [unexpected_event]) := by
  have h1 : event_assertions_hold camera_num_event := by
    intro _
    exact ⟨by decide, rfl, fun _ => rfl⟩
  have h2 : event_assertions_hold unexpected_event := by
    intro h
    exact absurd h (by decide)
  obtain ⟨w1, e1, _, p1, _⟩ :=
    C6_control_callback_releases true initial_world camera_num_event (fun _ => h1)
  obtain ⟨w2, e2, _, p2, _⟩ :=
    C6_control_callback_releases true initial_world unexpected_event (fun _ => h2)
  exact ⟨h1, ⟨w1, e1, p1⟩, h2, ⟨w2, e2, p2⟩⟩

/-! ## C7: conservation of the buffers of the pool -/

/-- C7 as stated fails. From the pool of 6 buffers created by the first-call
block, a refill, the return of buffer 0 by the hardware and the dequeue and
wrap of that buffer lead to a state with 5 buffers in flight, none queued and
none free: `in_flight + queued + free = 5`, not `buffer_count = 6`; the sixth
buffer is held downstream through its wrapper. -/
theorem C7_counterexample_wrapped_buffer_uncounted :
    ∃ s, Pipeline.run
        { w := (gst_mmalsrc_create_port_config (demo_create_env []) 4 started_world).2,
          frames := [] }
        [.refill (demo_create_env []), .callback (demo_buffer 0 0 2000), .dequeue_wrap]
          = some s ∧
      s.in_flight = 5 ∧ s.queued = 0 ∧ s.free = 0 ∧ s.wrapped = 1 ∧ s.buffer_count = 6 ∧
      s.in_flight + s.queued + s.free ≠ s.buffer_count := by
  refine ⟨_, rfl, ?_, ?_, ?_, ?_, ?_, ?_⟩ <;> decide

/-- C7, amended. In every state reached from the creation of the pool (on an
element with nothing in flight) through refills whose submissions the port
accepts, returns of buffers by the hardware to `generic_output_port_cb`,
dequeue-and-wrap steps and releases of wrappers, the buffers in flight, queued,
free and held downstream through a wrapper add up to the buffer count:
`in_flight + queued + free + wrapped = buffer_count`. -/
theorem C7_buffer_conservation_amended (env : CreateEnv) (port : Handle) (w0 : World)
    (ops : List PipelineOp) (s : Pipeline)
    (hport : w0.mmalsrc.cam_port = some port) (hfresh : w0.hw = [])
    (hcfg : (gst_mmalsrc_create_port_config env port w0).1 = true)
    (hacc : ∀ op ∈ ops, op.sends_accepted)
    (hrun : Pipeline.run
      { w := (gst_mmalsrc_create_port_config env port w0).2, frames := [] } ops = some s) :
    s.in_flight + s.queued + s.free + s.wrapped = s.buffer_count := by
  obtain ⟨pool, queue, hinv⟩ := inv_init env port w0 hport hfresh hcfg
  have h := inv_run port pool queue _ ops _ s hinv hacc hrun
  unfold Pipeline.in_flight Pipeline.queued Pipeline.free Pipeline.wrapped
    Pipeline.buffer_count
  rw [h.queue_eq, h.pool_eq, h.num_eq]
  exact h.total

/-- C7 amended, exercised on the demo pool of 6 buffers: after a refill, the
return of buffers 0 (a frame) and 1 (an event, released at once), the wrap of
buffer 0 and the drop of its wrapper, 4 buffers are in flight, none is queued,
2 are free and none is wrapped. -/
theorem C7_buffer_conservation_amended_witness :
    (∃ s, Pipeline.run
        { w := (gst_mmalsrc_create_port_config (demo_create_env []) 4 started_world).2,
          frames := [] } demo_ops = some s ∧
      s.in_flight = 4 ∧ s.queued = 0 ∧ s.free = 2 ∧ s.wrapped = 0 ∧ s.buffer_count = 6) ∧
    (∀ s, Pipeline.run
        { w := (gst_mmalsrc_create_port_config (demo_create_env []) 4 started_world).2,
          frames := [] } demo_ops = some s →
      s.in_flight + s.queued + s.free + s.wrapped = s.buffer_count) := by
  constructor
  · exact ⟨_, rfl, by decide, by decide, by decide, by decide, by decide⟩
  · intro s hs
    refine C7_buffer_conservation_amended (demo_create_env []) 4 started_world demo_ops s
      rfl rfl rfl ?_ hs
    intro op hop
    simp only [demo_ops, List.mem_cons, List.mem_singleton, List.not_mem_nil, or_false] at hop
    rcases hop with rfl | rfl | rfl | rfl | rfl
    · intro b; rfl
    all_goals trivial

/-! ## C8: wrap, then release -/

/-- C8. For the buffer a pull dequeues (the head of the queue of frames),
wrapping it as a frame and then dropping the wrapper returns exactly that
buffer to the free-list of its pool, once: wrapping releases nothing, and
after the release hook the free-list of the pool is the one before the wrap
with the buffer appended (one more entry, one more occurrence of the buffer),
the other pools and the buffers owned by the hardware are unchanged, and as
many wrappers are alive as before. When the buffer was not already wrapped,
the wrappers are those of before and the wrapper cannot be released again. -/
theorem C8_wrap_release_round_trip (s : Pipeline) (queue : Handle)
    (b : MMAL_BUFFER_HEADER_T) (rest : List MMAL_BUFFER_HEADER_T)
    (hq : s.w.mmalsrc.queue_video_frames = some queue)
    (hhead : s.w.queues queue = b :: rest) :
    ∃ s1, s.step .dequeue_wrap = some s1 ∧
      s1.frames = s.frames ++ [gst_mmalsrc_create_wrap s.w b] ∧
      (gst_mmalsrc_create_wrap s.w b).user_data = b ∧
      s1.w.pools = s.w.pools ∧
      s1.w.queues queue = rest ∧
      ∃ s2, s1.step (.release (gst_mmalsrc_create_wrap s.w b)) = some s2 ∧
        s2.w.pools b.pool = s.w.pools b.pool ++ [b] ∧
        (s2.w.pools b.pool).length = (s.w.pools b.pool).length + 1 ∧
        (s2.w.pools b.pool).count b = (s.w.pools b.pool).count b + 1 ∧
        (∀ p, p ≠ b.pool → s2.w.pools p = s.w.pools p) ∧
        s2.w.hw = s.w.hw ∧
        s2.frames.length = s.frames.length ∧
        ((∀ f ∈ s.frames, f.user_data ≠ b) →
          s2.frames = s.frames ∧
          s2.step (.release (gst_mmalsrc_create_wrap s.w b)) = none) := by
  have hwait : mmal_queue_wait s.w (some queue)
      = some (some b, { s.w.call (.mmal_queue_wait queue) with
                        queues := setAt s.w.queues queue rest }) := by
    simp [mmal_queue_wait, hhead, World.call]
  have hwrap : gst_mmalsrc_create_wrap
      { s.w.call (.mmal_queue_wait queue) with queues := setAt s.w.queues queue rest } b
      = gst_mmalsrc_create_wrap s.w b := rfl
  have hmem : gst_mmalsrc_create_wrap s.w b ∈ s.frames ++ [gst_mmalsrc_create_wrap s.w b] :=
    List.mem_append_right _ (List.mem_singleton_self _)
  refine ⟨{ w := { s.w.call (.mmal_queue_wait queue) with
                   queues := setAt s.w.queues queue rest },
            frames := s.frames ++ [gst_mmalsrc_create_wrap s.w b] }, ?_, rfl, rfl, rfl, ?_, ?_⟩
  · simp only [Pipeline.step, hq, hwait, hwrap]
  · simp [setAt]
  · refine ⟨{ w := gst_release_buffer_cb
                { s.w.call (.mmal_queue_wait queue) with
                  queues := setAt s.w.queues queue rest }
                (gst_mmalsrc_create_wrap s.w b).user_data,
              frames := (s.frames ++ [gst_mmalsrc_create_wrap s.w b]).erase
                (gst_mmalsrc_create_wrap s.w b) }, ?_, ?_, ?_, ?_, ?_, rfl, ?_, ?_⟩
    · simp only [Pipeline.step, hmem, if_true]
    · simp [gst_release_buffer_cb, mmal_buffer_header_release, setAt, World.call,
        gst_mmalsrc_create_wrap, gst_buffer_new_wrapped_full]
    · simp [gst_release_buffer_cb, mmal_buffer_header_release, setAt, World.call,
        gst_mmalsrc_create_wrap, gst_buffer_new_wrapped_full]
    · simp [gst_release_buffer_cb, mmal_buffer_header_release, setAt, World.call,
        gst_mmalsrc_create_wrap, gst_buffer_new_wrapped_full]
    · intro p hp
      simp [gst_release_buffer_cb, mmal_buffer_header_release, setAt, World.call,
        gst_mmalsrc_create_wrap, gst_buffer_new_wrapped_full, hp]
    · show ((s.frames ++ [gst_mmalsrc_create_wrap s.w b]).erase
        (gst_mmalsrc_create_wrap s.w b)).length = s.frames.length
      rw [List.length_erase_of_mem hmem]
      simp
    · intro hnew
      have hnot : gst_mmalsrc_create_wrap s.w b ∉ s.frames := by
        intro hin
        exact hnew _ hin rfl
      have herase : (s.frames ++ [gst_mmalsrc_create_wrap s.w b]).erase
          (gst_mmalsrc_create_wrap s.w b) = s.frames := by
        rw [List.erase_append_right _ hnot]
        simp
      refine ⟨herase, ?_⟩
      simp only [Pipeline.step, herase, hnot, if_false]

/-- C8, exercised on the demo pool: with buffers 3 and 0 queued and buffer 5
free, the wrap of buffer 3 followed by the drop of its wrapper leaves buffers
5 and 3 on the free-list. -/
theorem C8_wrap_release_round_trip_witness :
    ∃ s1 s2,
      Pipeline.step
        { w := { started_world with
                 mmalsrc := { started_world.mmalsrc with
                              cam_pool := some 10, queue_video_frames := some 20 }
                 pools := fun p => if p = 10 then [demo_buffer 5 0 0] else []
                 queues := fun q =>
                   if q = 20 then [demo_buffer 3 0 2000, demo_buffer 0 0 2000] else [] },
          frames := [] } .dequeue_wrap = some s1 ∧
      s1.step (.release (gst_buffer_new_wrapped_full true 3 0 0 0 (demo_buffer 3 0 2000)))
        = some s2 ∧
      s2.w.pools 10 = [demo_buffer 5 0 0, demo_buffer 3 0 2000] ∧
      s2.frames = [] := by
  obtain ⟨s1, h1, _, _, _, _, s2, h2, h3, _, _, _, _, _, h4⟩ :=
    C8_wrap_release_round_trip
      { w := { started_world with
               mmalsrc := { started_world.mmalsrc with
                            cam_pool := some 10, queue_video_frames := some 20 }
               pools := fun p => if p = 10 then [demo_buffer 5 0 0] else []
               queues := fun q =>
                 if q = 20 then [demo_buffer 3 0 2000, demo_buffer 0 0 2000] else [] },
        frames := [] }
      20 (demo_buffer 3 0 2000) [demo_buffer 0 0 2000] rfl rfl
  exact ⟨s1, s2, h1, h2, h3, (h4 (by simp)).1⟩

/-! ## C9: the size of the frames of a streaming cycle -/

/-- A pull that is not the first one leaves the element and its port as they
are, makes only streaming calls, and delivers a frame of the size of the
port. -/
theorem create_later (env : CreateEnv) (w : World)
    (h : w.mmalsrc.first_port_config ≠ 0) (f : GstBuffer) (w2 : World)
    (hret : gst_mmalsrc_create env w = .returns .GST_FLOW_OK (some f) w2) :
    w2.cam_port = w.cam_port ∧ w2.mmalsrc = w.mmalsrc ∧
    (∃ tail, w2.calls = w.calls ++ tail ∧ ∀ c ∈ tail, c.isStreaming = true) ∧
    f.size = w.cam_port.buffer_size ∧ f.maxsize = w.cam_port.buffer_size := by
  unfold gst_mmalsrc_create at hret
  by_cases hb : w.mmalsrc.camera_component.isNone = true
  · simp [hb] at hret
  · simp only [hb, Bool.false_eq_true, if_false] at hret
    cases hp : w.mmalsrc.cam_port with
    | none => simp [hp] at hret
    | some port =>
      have hne : (w.mmalsrc.first_port_config == 0) = false := by simpa using h
      simp only [hp, hne, Bool.false_eq_true, if_false, Bool.not_true] at hret
      obtain ⟨f1, f2, _⟩ := stream_facts env port w
      obtain ⟨p1, p2, p3⟩ := f1 w2 (by rw [hret]; rfl)
      obtain ⟨q1, q2, _⟩ := f2 f (by rw [hret]; rfl)
      exact ⟨p1, p2, p3, q1, q2⟩

/-- A successful first pull has configured the port: `first_port_config` is
set, the port has the resolved geometry, and the frame has the resolved
size. -/
theorem create_first (env : CreateEnv) (w : World)
    (h0 : w.mmalsrc.first_port_config = 0) (f : GstBuffer) (w1 : World)
    (hret : gst_mmalsrc_create env w = .returns .GST_FLOW_OK (some f) w1) :
    w1.mmalsrc.first_port_config = 1 ∧
    w1.cam_port.buffer_size
      = max (committed_port env w).buffer_size_recommended
          (committed_port env w).buffer_size_min ∧
    w1.cam_port.buffer_num = max MMALSRC_FRMBUF_COUNT (committed_port env w).buffer_num_min ∧
    f.size = w1.cam_port.buffer_size ∧ f.maxsize = w1.cam_port.buffer_size := by
  unfold gst_mmalsrc_create at hret
  by_cases hb : w.mmalsrc.camera_component.isNone = true
  · simp [hb] at hret
  · simp only [hb, Bool.false_eq_true, if_false] at hret
    cases hp : w.mmalsrc.cam_port with
    | none => simp [hp] at hret
    | some port =>
      simp only [hp, h0, beq_self_eq_true, if_true] at hret
      by_cases hcfg : (gst_mmalsrc_create_port_config env port w).1 = true
      · simp only [hcfg, Bool.not_true, Bool.false_eq_true, if_false] at hret
        obtain ⟨c1, _, c3, _⟩ := port_config_success env port w hcfg
        obtain ⟨g1, g2, _, _⟩ := port_config_geometry env port w c1
        obtain ⟨f1, f2, _⟩ := stream_facts env port (gst_mmalsrc_create_port_config env port w).2
        obtain ⟨p1, p2, _⟩ := f1 w1 (by rw [hret]; rfl)
        obtain ⟨q1, q2, _⟩ := f2 f (by rw [hret]; rfl)
        refine ⟨?_, ?_, ?_, ?_, ?_⟩
        · rw [p2, c3]
        · rw [p1]; exact g1
        · rw [p1]; exact g2
        · rw [p1]; exact q1
        · rw [p1]; exact q2
      · simp [hcfg] at hret

/-- Successful pulls on a configured port all deliver frames of the size of
the port and leave the element, the port and the configuration calls as they
found them. -/
theorem pulls_later (envs : List CreateEnv) (w1 : World) (frames : List GstBuffer)
    (w' : World) (h1 : w1.mmalsrc.first_port_config ≠ 0)
    (hpulls : pulls w1 envs = some (frames, w')) :
    frames.length = envs.length ∧
    (∀ f ∈ frames, f.size = w1.cam_port.buffer_size ∧ f.maxsize = w1.cam_port.buffer_size) ∧
    w'.cam_port = w1.cam_port ∧ w'.mmalsrc = w1.mmalsrc ∧
    w'.calls.filter MMAL_CALL.isPortConfig = w1.calls.filter MMAL_CALL.isPortConfig := by
  induction envs generalizing w1 frames with
  | nil =>
    simp only [pulls, Option.some.injEq, Prod.mk.injEq] at hpulls
    obtain ⟨rfl, rfl⟩ := hpulls
    simp
  | cons env envs ih =>
    simp only [pulls] at hpulls
    split at hpulls
    · rename_i f w2 hc
      cases hrest : pulls w2 envs with
      | none => simp [hrest] at hpulls
      | some r =>
        obtain ⟨fs, w3⟩ := r
        simp only [hrest, Option.map_some', Option.some.injEq, Prod.mk.injEq] at hpulls
        obtain ⟨rfl, rfl⟩ := hpulls
        obtain ⟨p1, p2, ⟨tail, p3, p4⟩, p5, p6⟩ := create_later env w1 h1 f w2 hc
        obtain ⟨i1, i2, i3, i4, i5⟩ := ih w2 fs (by rw [p2]; exact h1) hrest
        refine ⟨by simp [i1], ?_, i3.trans p1, i4.trans p2, ?_⟩
        · intro g hg
          rcases List.mem_cons.mp hg with rfl | hg
          · exact ⟨p5, p6⟩
          · rw [← p1]; exact i2 g hg
        · rw [i5, p3]
          exact filter_append_streaming _ _ _
            (by intro c hc; cases c <;> simp_all [MMAL_CALL.isStreaming,
              MMAL_CALL.isPortConfig]) p4
    · simp at hpulls

/-- C9. For every sequence of `N ≥ 1` successful pulls that begins a cycle
(`first_port_config` is zero, as start leaves it): there are `N` frames, each
with a backing length (`size` and `maxsize`) equal to the `buffer_size`
computed at the first pull, `max(buffer_size_recommended, buffer_size_min)`;
and the pulls after the first leave the port (with `buffer_size` and
`buffer_num`), the element (with its pool and its queue) and the list of
configuration calls exactly as the first pull left them. -/
theorem C9_frames_have_first_pull_size (env : CreateEnv) (envs : List CreateEnv)
    (w : World) (frames : List GstBuffer) (w' : World)
    (hfirst : w.mmalsrc.first_port_config = 0)
    (hpulls : pulls w (env :: envs) = some (frames, w')) :
    frames.length = envs.length + 1 ∧
    (∀ f ∈ frames,
      f.size = max (committed_port env w).buffer_size_recommended
                (committed_port env w).buffer_size_min ∧
      f.maxsize = max (committed_port env w).buffer_size_recommended
                (committed_port env w).buffer_size_min) ∧
    ∃ f1 w1, gst_mmalsrc_create env w = .returns .GST_FLOW_OK (some f1) w1 ∧
      w1.cam_port.buffer_size
        = max (committed_port env w).buffer_size_recommended
            (committed_port env w).buffer_size_min ∧
      w1.cam_port.buffer_num
        = max MMALSRC_FRMBUF_COUNT (committed_port env w).buffer_num_min ∧
      w'.cam_port = w1.cam_port ∧
      w'.mmalsrc = w1.mmalsrc ∧
      w'.calls.filter MMAL_CALL.isPortConfig = w1.calls.filter MMAL_CALL.isPortConfig := by
  simp only [pulls] at hpulls
  split at hpulls
  · rename_i f w1 hc
    cases hrest : pulls w1 envs with
    | none => simp [hrest] at hpulls
    | some r =>
      obtain ⟨fs, w3⟩ := r
      simp only [hrest, Option.map_some', Option.some.injEq, Prod.mk.injEq] at hpulls
      obtain ⟨rfl, rfl⟩ := hpulls
      obtain ⟨c1, c2, c3, c4, c5⟩ := create_first env w hfirst f w1 hc
      obtain ⟨i1, i2, i3, i4, i5⟩ := pulls_later envs w1 fs w3 (by rw [c1]; decide) hrest
      refine ⟨by simp [i1], ?_, f, w1, hc, c2, c3, i3, i4, i5⟩
      intro g hg
      rcases List.mem_cons.mp hg with rfl | hg
      · exact ⟨c4.trans c2, c5.trans c2⟩
      · rw [← c2]; exact i2 g hg
  · simp at hpulls

/-- C9, exercised: three successful pulls on the demo hardware (which hands
back buffers 0, 1 and 2 in turn) deliver three frames of 2000 bytes. -/
theorem C9_frames_have_first_pull_size_witness :
    started_world.mmalsrc.first_port_config = 0 ∧
    ∃ frames w',
      pulls started_world
        [demo_create_env [demo_buffer 0 0 2000], demo_create_env [demo_buffer 1 0 2000],
         demo_create_env [demo_buffer 2 0 2000]] = some (frames, w') ∧
      frames.length = 3 ∧
      (∀ f ∈ frames, f.size = 2000 ∧ f.maxsize = 2000) ∧
      frames.map (fun f => f.user_data.id) = [0, 1, 2] := by
  refine ⟨rfl, _, _, rfl, ?_, ?_, by decide⟩
  · exact (C9_frames_have_first_pull_size
      (demo_create_env [demo_buffer 0 0 2000])
      [demo_create_env [demo_buffer 1 0 2000], demo_create_env [demo_buffer 2 0 2000]]
      started_world _ _ rfl rfl).1
  · exact (C9_frames_have_first_pull_size
      (demo_create_env [demo_buffer 0 0 2000])
      [demo_create_env [demo_buffer 1 0 2000], demo_create_env [demo_buffer 2 0 2000]]
      started_world _ _ rfl rfl).2.1

/-! ## C10: stopping twice -/

/-- C10 fails on the code. On the demo element after a start and a first pull
(component 1, queue 20, pool 10), a first stop deletes the event flags and
destroys the component, the queue and the pool; `camera_component` is reset to
`NULL` but `queue_video_frames` and `cam_pool` keep their values, so a second
stop deletes the event flags again and destroys the same queue and the same
pool a second time. The same happens when the element is started again and
stopped before any pull. -/
theorem C10_second_stop_destroys_again :
    ∃ w, after_first_pull = some w ∧
      (gst_mmalsrc_stop w).2.calls.filter MMAL_CALL.isTeardown
        = [ .vcos_event_flags_delete, .mmal_component_destroy (some 1),
            .mmal_queue_destroy (some 20), .mmal_pool_destroy (some 10) ] ∧
      (gst_mmalsrc_stop w).2.mmalsrc.camera_component = none ∧
      (gst_mmalsrc_stop w).2.mmalsrc.queue_video_frames = some 20 ∧
      (gst_mmalsrc_stop w).2.mmalsrc.cam_pool = some 10 ∧
      (gst_mmalsrc_stop (gst_mmalsrc_stop w).2).2.calls.filter MMAL_CALL.isTeardown
        = [ .vcos_event_flags_delete, .mmal_component_destroy (some 1),
            .mmal_queue_destroy (some 20), .mmal_pool_destroy (some 10),
            .vcos_event_flags_delete, .mmal_component_destroy none,
            .mmal_queue_destroy (some 20), .mmal_pool_destroy (some 10) ] ∧
      ∃ w2, gst_mmalsrc_start demo_start_env (gst_mmalsrc_stop w).2 = some (true, w2) ∧
        (gst_mmalsrc_stop w2).2.calls.filter MMAL_CALL.isTeardown
          = [ .vcos_event_flags_delete, .mmal_component_destroy (some 1),
              .mmal_queue_destroy (some 20), .mmal_pool_destroy (some 10),
              .vcos_event_flags_delete, .mmal_component_destroy (some 1),
              .mmal_queue_destroy (some 20), .mmal_pool_destroy (some 10) ] := by
  refine ⟨_, rfl, by decide, by decide, by decide, by decide, by decide, _, rfl, by decide⟩

/-! ## C11: the result of a pull -/

theorem hw_deliver_queues (w : World) (b : MMAL_BUFFER_HEADER_T) :
    (hw_deliver w b).queues
      = (if b.cmd != 0 then w.queues
         else match w.cam_port.userdata with
           | none => w.queues
           | some q => setAt w.queues q (w.queues q ++ [b])) := by
  unfold hw_deliver generic_output_port_cb
  by_cases hcmd : (b.cmd != 0) = true
  · simp [hcmd, vcos_event_flags_set, mmal_buffer_header_release]
  · simp only [hcmd, Bool.false_eq_true, if_false, vcos_event_flags_set, mmal_queue_put]
    cases w.cam_port.userdata <;> rfl

/-- The queues after the arrivals of a pull are those the specification
computes. -/
theorem arrivals_queues (l : List MMAL_BUFFER_HEADER_T) (w : World) :
    (l.foldl hw_deliver w).queues
      = queue_after_arrivals w.cam_port.userdata w.queues l := by
  induction l generalizing w with
  | nil => rfl
  | cons b rest ih =>
    simp only [List.foldl_cons, queue_after_arrivals]
    rw [ih (hw_deliver w b), (hw_deliver_facts w b).1, hw_deliver_queues]

/-- The result of the streaming part of a pull, on an element that has a
pool. -/
theorem stream_result (env : CreateEnv) (port pool : Handle) (w : World)
    (hpool : w.mmalsrc.cam_pool = some pool) :
    (gst_mmalsrc_create_stream env port w).result
      = (match dequeue_at_wait env w with
         | none => .returned .GST_FLOW_ERROR none
         | some [] => .blocked
         | some (b :: _) => .returned .GST_FLOW_OK (some (gst_mmalsrc_create_wrap w b))) := by
  obtain ⟨e1, e2, e3, e4, e5, e6⟩ := vcos_event_flags_get_facts w MMAL_CAM_ANY_EVENT
  obtain ⟨s1, s2, s3, s4, s5⟩ := send_loop_facts env port pool
    ((vcos_event_flags_get w MMAL_CAM_ANY_EVENT).2.2.pools pool)
    (vcos_event_flags_get w MMAL_CAM_ANY_EVENT).2.2
  obtain ⟨a1, a2, a3⟩ := arrivals_facts env.arrivals
    (gst_mmalsrc_create_refill env port pool (vcos_event_flags_get w MMAL_CAM_ANY_EVENT).2.2)
  have aq := arrivals_queues env.arrivals
    (gst_mmalsrc_create_refill env port pool (vcos_event_flags_get w MMAL_CAM_ANY_EVENT).2.2)
  unfold gst_mmalsrc_create_refill at a1 a2 a3 aq
  rw [s1, s4, e1, e4] at aq
  have hsrc := a2.trans (s2.trans e2)
  have hport := a1.trans (s1.trans e1)
  unfold gst_mmalsrc_create_stream dequeue_at_wait
  simp only [e2, hpool, gst_mmalsrc_create_refill, hsrc]
  cases hq : w.mmalsrc.queue_video_frames with
  | none => simp [mmal_queue_wait, CreateOutcome.result]
  | some q =>
    simp only [mmal_queue_wait, aq]
    cases hl : queue_after_arrivals w.cam_port.userdata w.queues env.arrivals q with
    | nil => simp [CreateOutcome.result]
    | cons b rest =>
      simp only [CreateOutcome.result, gst_mmalsrc_create_wrap, World.call, hport]

/-- The first-call block runs to its end exactly when its four steps
succeed. -/
theorem port_config_true_iff (env : CreateEnv) (port : Handle) (w : World) :
    (gst_mmalsrc_create_port_config env port w).1 = true ↔ first_call_steps_succeed env w := by
  constructor
  · intro h
    obtain ⟨c1, c2, c3, c4, c5, _⟩ := port_config_success env port w h
    rw [c3] at c4 c5
    exact ⟨c1, c4, c5, c2⟩
  · rintro ⟨h1, h2, h3, h4⟩
    unfold commit_status at h1
    unfold gst_mmalsrc_create_port_config
    simp only [World.call, h1, bne_self_eq_false, Bool.false_eq_true, if_false]
    cases hp : env.mmal_port_pool_create with
    | none => simp [hp] at h2
    | some pool =>
      simp only
      unfold gst_mmalsrc_create_queue_enable
      cases hq : env.mmal_queue_create with
      | none => simp [hq] at h3
      | some queue => simp [h4]

/-- Neither the event flags nor the statuses of the submissions enter the
first-call block. -/
theorem port_config_events_sends (env : CreateEnv) (port : Handle) (w : World) (e : Nat)
    (s : MMAL_BUFFER_HEADER_T → MMAL_STATUS_T) :
    gst_mmalsrc_create_port_config { env with mmal_port_send_buffer := s } port
        { w with events := e }
      = ((gst_mmalsrc_create_port_config env port w).1,
         { (gst_mmalsrc_create_port_config env port w).2 with events := e }) := by
  unfold gst_mmalsrc_create_port_config
  simp only [World.call, gst_mmalsrc_create_set_format]
  split
  · rfl
  · cases hp : env.mmal_port_pool_create with
    | none => rfl
    | some pool =>
      simp only
      unfold gst_mmalsrc_create_queue_enable
      cases hq : env.mmal_queue_create with
      | none => rfl
      | some queue =>
        simp only [World.call]
        split <;> rfl

/-- The result of a pull on a started element is the one the specification
words. -/
theorem create_result_eq (env : CreateEnv) (w : World) (port : Handle)
    (hcomp : w.mmalsrc.camera_component.isSome = true)
    (hport : w.mmalsrc.cam_port = some port)
    (hpool : w.mmalsrc.first_port_config ≠ 0 → w.mmalsrc.cam_pool.isSome = true) :
    (gst_mmalsrc_create env w).result = pull_result_spec env port w := by
  have hc : w.mmalsrc.camera_component.isNone = false := by
    cases h : w.mmalsrc.camera_component <;> simp [h] at hcomp ⊢
  have hstream : ∀ cfg : Bool × World, cfg.2.mmalsrc.cam_pool.isSome = true →
      (if (!cfg.1) = true then CreateOutcome.returns .GST_FLOW_ERROR none cfg.2
        else gst_mmalsrc_create_stream env port cfg.2).result
      = (if cfg.1 = false then PullResult.returned .GST_FLOW_ERROR none
         else match dequeue_at_wait env cfg.2 with
           | none => .returned .GST_FLOW_ERROR none
           | some [] => .blocked
           | some (b :: _) =>
             .returned .GST_FLOW_OK (some (gst_mmalsrc_create_wrap cfg.2 b))) := by
    intro cfg hp
    cases hcfg : cfg.1 with
    | false => simp [CreateOutcome.result]
    | true =>
      simp only [Bool.not_true, Bool.false_eq_true, if_false]
      cases hpl : cfg.2.mmalsrc.cam_pool with
      | none => simp [hpl] at hp
      | some pool => exact stream_result env port pool _ hpl
  have hfalse : ∀ cfg : Bool × World, cfg.1 = false →
      (if (!cfg.1) = true then CreateOutcome.returns .GST_FLOW_ERROR none cfg.2
        else gst_mmalsrc_create_stream env port cfg.2).result
      = (if cfg.1 = false then PullResult.returned .GST_FLOW_ERROR none
         else match dequeue_at_wait env cfg.2 with
           | none => .returned .GST_FLOW_ERROR none
           | some [] => .blocked
           | some (b :: _) =>
             .returned .GST_FLOW_OK (some (gst_mmalsrc_create_wrap cfg.2 b))) := by
    intro cfg hf
    simp [hf, CreateOutcome.result]
  unfold gst_mmalsrc_create pull_result_spec first_call_config
  simp only [hc, Bool.false_eq_true, if_false, hport]
  by_cases h0 : w.mmalsrc.first_port_config = 0
  · simp only [h0, beq_self_eq_true, if_true]
    by_cases hcfg : (gst_mmalsrc_create_port_config env port w).1 = true
    · exact hstream _ (port_config_success env port w hcfg).2.2.2.1
    · exact hfalse _ (by simpa using hcfg)
  · have hne : (w.mmalsrc.first_port_config == 0) = false := by simpa using h0
    simp only [hne, Bool.false_eq_true, if_false]
    exact hstream (true, w) (hpool h0)

/-- The result the specification words does not depend on the event flags
the pull finds, nor on the statuses of its submissions. -/
theorem pull_result_spec_events_sends (env : CreateEnv) (port : Handle) (w : World) (e : Nat)
    (s : MMAL_BUFFER_HEADER_T → MMAL_STATUS_T) :
    pull_result_spec { env with mmal_port_send_buffer := s } port { w with events := e }
      = pull_result_spec env port w := by
  have hcfg : first_call_config { env with mmal_port_send_buffer := s } port
      { w with events := e }
      = ((first_call_config env port w).1,
         { (first_call_config env port w).2 with events := e }) := by
    unfold first_call_config
    by_cases h0 : (w.mmalsrc.first_port_config == 0) = true
    · simp only [h0, if_true]
      exact port_config_events_sends env port w e s
    · simp only [h0, Bool.false_eq_true, if_false]
  unfold pull_result_spec
  simp only [hcfg]
  rfl

/-- C11 as stated fails. On the started demo element the first-call
configuration succeeds, but the hardware hands no buffer back: the queue of
frames stays empty and the pull never returns, so it returns neither
`GST_FLOW_OK` nor `GST_FLOW_ERROR`. -/
theorem C11_counterexample_pull_never_returns :
    started_world.mmalsrc.camera_component = some 1 ∧
    (first_call_config (demo_create_env []) 4 started_world).1 = true ∧
    dequeue_at_wait (demo_create_env [])
      (first_call_config (demo_create_env []) 4 started_world).2 = some [] ∧
    (gst_mmalsrc_create (demo_create_env []) started_world).result = .blocked ∧
    (gst_mmalsrc_create (demo_create_env []) started_world).result
      ≠ .returned .GST_FLOW_ERROR none := by
  refine ⟨rfl, by decide, by decide, by decide, by decide⟩

/-- C11, amended. For every pull on a started element, `gst_mmalsrc_create`
returns `GST_FLOW_OK` with a wrapped frame if and only if the first-call
configuration, when it runs, succeeds and the blocking dequeue yields a
buffer; it returns `GST_FLOW_ERROR` exactly when that configuration fails or
the dequeue has no queue to wait on; and it does not return while the queue
of frames stays empty. The first-call configuration succeeds exactly when
format commit, pool creation, queue creation and output-port enable all
succeed. Neither the event flags the bounded wait finds (set, or none and a
timeout) nor the statuses of the refill submissions change the result. -/
theorem C11_pull_result_amended (env : CreateEnv) (w : World) (port : Handle)
    (hcomp : w.mmalsrc.camera_component.isSome = true)
    (hport : w.mmalsrc.cam_port = some port)
    (hpool : w.mmalsrc.first_port_config ≠ 0 → w.mmalsrc.cam_pool.isSome = true) :
    (gst_mmalsrc_create env w).result = pull_result_spec env port w ∧
    ((∃ f, (gst_mmalsrc_create env w).result = .returned .GST_FLOW_OK (some f)) ↔
      (first_call_config env port w).1 = true ∧
      ∃ b rest, dequeue_at_wait env (first_call_config env port w).2 = some (b :: rest)) ∧
    ((gst_mmalsrc_create env w).result = .returned .GST_FLOW_ERROR none ↔
      (first_call_config env port w).1 = false ∨
      dequeue_at_wait env (first_call_config env port w).2 = none) ∧
    ((gst_mmalsrc_create env w).result = .blocked ↔
      (first_call_config env port w).1 = true ∧
      dequeue_at_wait env (first_call_config env port w).2 = some []) ∧
    (w.mmalsrc.first_port_config = 0 →
      ((first_call_config env port w).1 = true ↔ first_call_steps_succeed env w)) ∧
    (w.mmalsrc.first_port_config ≠ 0 → (first_call_config env port w).1 = true) ∧
    (∀ (e : Nat) (s : MMAL_BUFFER_HEADER_T → MMAL_STATUS_T),
      (gst_mmalsrc_create { env with mmal_port_send_buffer := s }
        { w with events := e }).result = (gst_mmalsrc_create env w).result) := by
  have heq := create_result_eq env w port hcomp hport hpool
  refine ⟨heq, ?_, ?_, ?_, ?_, ?_, ?_⟩
  · rw [heq]
    unfold pull_result_spec
    cases hcfg : (first_call_config env port w).1 with
    | false => simp [hcfg]
    | true =>
      cases hd : dequeue_at_wait env (first_call_config env port w).2 with
      | none => simp [hcfg, hd]
      | some l => cases l <;> simp [hcfg, hd]
  · rw [heq]
    unfold pull_result_spec
    cases hcfg : (first_call_config env port w).1 with
    | false => simp [hcfg]
    | true =>
      cases hd : dequeue_at_wait env (first_call_config env port w).2 with
      | none => simp [hcfg, hd]
      | some l => cases l <;> simp [hcfg, hd]
  · rw [heq]
    unfold pull_result_spec
    cases hcfg : (first_call_config env port w).1 with
    | false => simp [hcfg]
    | true =>
      cases hd : dequeue_at_wait env (first_call_config env port w).2 with
      | none => simp [hcfg, hd]
      | some l => cases l <;> simp [hcfg, hd]
  · intro h0
    unfold first_call_config
    simp only [h0, beq_self_eq_true, if_true]
    exact port_config_true_iff env port w
  · intro h0
    unfold first_call_config
    have hne : (w.mmalsrc.first_port_config == 0) = false := by simpa using h0
    simp [hne]
  · intro e s
    rw [heq, create_result_eq { env with mmal_port_send_buffer := s } { w with events := e }
      port hcomp hport hpool]
    exact pull_result_spec_events_sends env port w e s

/-- C11 amended, exercised on the started demo element: when the hardware
hands buffer 0 back the first pull returns `GST_FLOW_OK` with that buffer
wrapped in 2000 bytes; when pool creation fails it returns `GST_FLOW_ERROR`;
and a refused submission of every buffer with event flags already set leaves
the first result as it is. -/
theorem C11_pull_result_amended_witness :
    (gst_mmalsrc_create (demo_create_env [demo_buffer 0 0 2000]) started_world).result
      = .returned .GST_FLOW_OK
          (some (gst_buffer_new_wrapped_full true 0 2000 0 2000 (demo_buffer 0 0 2000))) ∧
    (gst_mmalsrc_create
      { demo_create_env [demo_buffer 0 0 2000] with mmal_port_pool_create := none }
      started_world).result = .returned .GST_FLOW_ERROR none ∧
    (gst_mmalsrc_create
      { demo_create_env [demo_buffer 0 0 2000] with
        mmal_port_send_buffer := fun _ => .MMAL_EINVAL }
      { started_world with events := 1 }).result
      = (gst_mmalsrc_create (demo_create_env [demo_buffer 0 0 2000]) started_world).result := by
  refine ⟨?_, ?_, ?_⟩
  · rw [(C11_pull_result_amended (demo_create_env [demo_buffer 0 0 2000]) started_world 4
      rfl rfl (fun h => absurd rfl h)).1]
    decide
  · rw [(C11_pull_result_amended
      { demo_create_env [demo_buffer 0 0 2000] with mmal_port_pool_create := none }
      started_world 4 rfl rfl (fun h => absurd rfl h)).1]
    decide
  · exact (C11_pull_result_amended (demo_create_env [demo_buffer 0 0 2000]) started_world 4
      rfl rfl (fun h => absurd rfl h)).2.2.2.2.2.2 1 (fun _ => .MMAL_EINVAL)

/-! ## C12: the check on the output ports -/

/-- C12 fails on the code. The only check is `!camera->output_num`: a
component without output port makes start fail with `FALSE` and destroys the
component without reading any port, but a component with exactly one output
port passes the check although index `MMAL_CAMERA_VIDEO_PORT = 1` is not
within `output_num = 1`, and start then reads `camera->output[1]` past the end
of the array (`none` in the model). This holds for every platform whose
component has one output port, the demo one included. -/
theorem C12_single_output_port_read_past_end :
    (∀ (env : StartEnv) (w : World),
      env.vcos_event_flags_create = .VCOS_SUCCESS →
      env.mmal_component_create = .MMAL_SUCCESS →
      env.camera.output_num = 1 →
      ¬ (MMAL_CAMERA_VIDEO_PORT < env.camera.output_num) ∧
      gst_mmalsrc_start env w = none) ∧
    (∀ (env : StartEnv) (w : World),
      env.vcos_event_flags_create = .VCOS_SUCCESS →
      env.mmal_component_create = .MMAL_SUCCESS →
      env.camera.output_num = 0 →
      ∃ w', gst_mmalsrc_start env w = some (false, w') ∧
        w'.calls = w.calls ++ [.bcm_host_init, .vcos_event_flags_create,
          .mmal_component_create, .mmal_component_destroy (some env.camera.handle)]) ∧
    one_port_env.camera.output_num = 1 ∧
    gst_mmalsrc_start one_port_env initial_world = none ∧
    (gst_mmalsrc_start no_port_env initial_world).map (fun r => (r.1, r.2.calls))
      = some (false, [.bcm_host_init, .vcos_event_flags_create, .mmal_component_create,
          .mmal_component_destroy (some 1)]) := by
  refine ⟨?_, ?_, rfl, rfl, rfl⟩
  · intro env w hev hcomp hnum
    refine ⟨by rw [hnum]; decide, ?_⟩
    have hget : env.camera.output.get? MMAL_CAMERA_VIDEO_PORT = none := by
      unfold MMAL_COMPONENT_T.output_num at hnum
      rw [List.get?_eq_none]
      rw [hnum]
      decide
    have hnz : (env.camera.output_num == 0) = false := by rw [hnum]; decide
    unfold gst_mmalsrc_start
    simp only [hev, hcomp, hnz, hget, bne_self_eq_false, Bool.false_eq_true, if_false]
  · intro env w hev hcomp hnum
    unfold gst_mmalsrc_start
    simp [hev, hcomp, hnum, gst_mmalsrc_start_error, World.call]

/-! ## C13: the encoding stored by `gst_mmalsrc_set_caps` -/

/-- Packing four bytes with `MMAL_FOURCC` gives their base-256 number. -/
theorem fourcc_eq_sum (a b c d : Nat) (ha : a < 256) (hb : b < 256) (hc : c < 256)
    (hd : d < 256) :
    MMAL_FOURCC a b c d = a + 2 ^ 8 * b + 2 ^ 16 * c + 2 ^ 24 * d := by
  unfold MMAL_FOURCC
  have h1 : 2 ^ 8 * b + a = 2 ^ 8 * b ||| a := Nat.mul_add_lt_is_or (by omega) b
  have h2 : 2 ^ 16 * c + (2 ^ 8 * b + a) = 2 ^ 16 * c ||| (2 ^ 8 * b + a) :=
    Nat.mul_add_lt_is_or (by omega) c
  have h3 : 2 ^ 24 * d + (2 ^ 16 * c + (2 ^ 8 * b + a))
      = 2 ^ 24 * d ||| (2 ^ 16 * c + (2 ^ 8 * b + a)) :=
    Nat.mul_add_lt_is_or (by omega) d
  have hor : a ||| b <<< 8 ||| c <<< 16 ||| d <<< 24
      = 2 ^ 24 * d ||| (2 ^ 16 * c ||| (2 ^ 8 * b ||| a)) := by
    simp only [Nat.shiftLeft_eq]
    rw [Nat.mul_comm b, Nat.mul_comm c, Nat.mul_comm d]
    rw [Nat.or_comm a, Nat.or_comm (2 ^ 8 * b ||| a), Nat.or_comm (2 ^ 16 * c ||| _)]
  rw [hor, ← h1, ← h2, ← h3]
  rw [Nat.mod_eq_of_lt (by omega)]
  omega

/-- C13. For raw video caps whose pixel-format name is made of ASCII
characters, `gst_mmalsrc_set_caps` returns `TRUE` and stores as encoding the
packed code `c0 + 2^8*c1 + 2^16*c2 + 2^24*c3` of the characters of the name,
where `c3` is the space character `0x20` when the name has exactly 3
characters and the fourth character of the name when it has 4. For the six
names of the pad template, I420, RGBA, BGRA, YV12, YVYU and UYVY, the stored
codes are the six listed ones, which are pairwise distinct. -/
theorem C13_set_caps_encoding (caps : GstCaps) (w : World) (info : GstVideoInfo)
    (hinfo : caps.video_info = some info)
    (hraw : caps.structure_name = "video/x-raw") :
    (∀ c0 c1 c2 : Char, info.finfo_name.data = [c0, c1, c2] →
      c0.toNat < 128 → c1.toNat < 128 → c2.toNat < 128 →
      ∃ w', gst_mmalsrc_set_caps caps w = some (true, w') ∧
        w'.mmalsrc.encoding
          = c0.toNat + 2 ^ 8 * c1.toNat + 2 ^ 16 * c2.toNat + 2 ^ 24 * 0x20) ∧
    (∀ c0 c1 c2 c3 : Char, info.finfo_name.data = [c0, c1, c2, c3] →
      c0.toNat < 128 → c1.toNat < 128 → c2.toNat < 128 → c3.toNat < 128 → c3.toNat ≠ 0 →
      ∃ w', gst_mmalsrc_set_caps caps w = some (true, w') ∧
        w'.mmalsrc.encoding
          = c0.toNat + 2 ^ 8 * c1.toNat + 2 ^ 16 * c2.toNat + 2 ^ 24 * c3.toNat) ∧
    MMAL_VIDEO_CAPS_formats.map stored_encoding
      = [some 0x30323449, some 0x41424752, some 0x41524742, some 0x32315659,
         some 0x55595659, some 0x59565955] ∧
    (MMAL_VIDEO_CAPS_formats.map stored_encoding).Nodup := by
  refine ⟨?_, ?_, by decide, by decide⟩
  · intro c0 c1 c2 hname h0 h1 h2
    have e0 : c_char_at info.finfo_name 0 = some c0.toNat := by simp [c_char_at, hname]
    have e1 : c_char_at info.finfo_name 1 = some c1.toNat := by simp [c_char_at, hname]
    have e2 : c_char_at info.finfo_name 2 = some c2.toNat := by simp [c_char_at, hname]
    have e3 : c_char_at info.finfo_name 3 = some 0 := by simp [c_char_at, hname]
    simp only [gst_mmalsrc_set_caps, hinfo, hraw, if_true, e0, e1, e2, e3, beq_self_eq_true]
    exact ⟨_, rfl, fourcc_eq_sum _ _ _ _ (by omega) (by omega) (by omega) (by decide)⟩
  · intro c0 c1 c2 c3 hname h0 h1 h2 h3 hnz
    have e0 : c_char_at info.finfo_name 0 = some c0.toNat := by simp [c_char_at, hname]
    have e1 : c_char_at info.finfo_name 1 = some c1.toNat := by simp [c_char_at, hname]
    have e2 : c_char_at info.finfo_name 2 = some c2.toNat := by simp [c_char_at, hname]
    have e3 : c_char_at info.finfo_name 3 = some c3.toNat := by simp [c_char_at, hname]
    have hb : (c3.toNat == 0) = false := by simpa using hnz
    simp only [gst_mmalsrc_set_caps, hinfo, hraw, if_true, e0, e1, e2, e3, hb,
      Bool.false_eq_true, if_false]
    exact ⟨_, rfl, fourcc_eq_sum _ _ _ _ (by omega) (by omega) (by omega) (by omega)⟩

/-- C13, exercised: raw caps of format RGBA store `0x41424752`, and raw caps
of the 3-character format RGB store `0x20424752`, with the space in the
highest byte. -/
theorem C13_set_caps_encoding_witness :
    (raw_caps "RGBA").structure_name = "video/x-raw" ∧
    (∃ w', gst_mmalsrc_set_caps (raw_caps "RGBA") initial_world = some (true, w') ∧
      w'.mmalsrc.encoding = 0x41424752) ∧
    (∃ w', gst_mmalsrc_set_caps (raw_caps "RGB") initial_world = some (true, w') ∧
      w'.mmalsrc.encoding = 0x20424752) := by
  refine ⟨rfl, ?_, ?_⟩
  · obtain ⟨w', h1, h2⟩ :=
      (C13_set_caps_encoding (raw_caps "RGBA") initial_world _ rfl rfl).2.1
        'R' 'G' 'B' 'A' rfl (by decide) (by decide) (by decide) (by decide) (by decide)
    exact ⟨w', h1, h2.trans (by decide)⟩
  · obtain ⟨w', h1, h2⟩ :=
      (C13_set_caps_encoding (raw_caps "RGB") initial_world _ rfl rfl).1
        'R' 'G' 'B' rfl (by decide) (by decide) (by decide)
    exact ⟨w', h1, h2.trans (by decide)⟩

/-! ## C14: the cancel flag -/

theorem port_config_with_unlock (env : CreateEnv) (port : Handle) (w : World) (b : Bool) :
    gst_mmalsrc_create_port_config env port (w.with_unlock b)
      = ((gst_mmalsrc_create_port_config env port w).1,
         (gst_mmalsrc_create_port_config env port w).2.with_unlock b) := by
  unfold gst_mmalsrc_create_port_config
  simp only [World.call, gst_mmalsrc_create_set_format, World.with_unlock]
  split
  · rfl
  · cases hp : env.mmal_port_pool_create with
    | none => rfl
    | some pool =>
      simp only
      unfold gst_mmalsrc_create_queue_enable
      cases hq : env.mmal_queue_create with
      | none => rfl
      | some queue =>
        simp only [World.call]
        split <;> rfl

theorem event_flags_get_with_unlock (w : World) (mask : Nat) (b : Bool) :
    (vcos_event_flags_get (w.with_unlock b) mask).2.2
      = (vcos_event_flags_get w mask).2.2.with_unlock b := by
  unfold vcos_event_flags_get
  simp only [World.call, World.with_unlock]
  split <;> rfl

theorem send_loop_with_unlock (env : CreateEnv) (port pool : Handle)
    (l : List MMAL_BUFFER_HEADER_T) (w : World) (b : Bool) :
    gst_mmalsrc_create_send_loop env port pool l (w.with_unlock b)
      = (gst_mmalsrc_create_send_loop env port pool l w).with_unlock b := by
  induction l generalizing w with
  | nil => rfl
  | cons x rest ih =>
    simp only [gst_mmalsrc_create_send_loop]
    rw [← ih]
    congr 1
    unfold mmal_port_send_buffer
    simp only [World.call, World.with_unlock]
    split <;> rfl

theorem hw_deliver_with_unlock (w : World) (x : MMAL_BUFFER_HEADER_T) (b : Bool) :
    hw_deliver (w.with_unlock b) x = (hw_deliver w x).with_unlock b := by
  unfold hw_deliver generic_output_port_cb
  simp only [World.with_unlock, vcos_event_flags_set, mmal_buffer_header_release,
    mmal_queue_put]
  split
  · rfl
  · cases w.cam_port.userdata <;> rfl

theorem arrivals_with_unlock (l : List MMAL_BUFFER_HEADER_T) (w : World) (b : Bool) :
    l.foldl hw_deliver (w.with_unlock b) = (l.foldl hw_deliver w).with_unlock b := by
  induction l generalizing w with
  | nil => rfl
  | cons x rest ih =>
    simp only [List.foldl_cons]
    rw [hw_deliver_with_unlock, ih]

theorem stream_with_unlock (env : CreateEnv) (port : Handle) (w : World) (b : Bool) :
    gst_mmalsrc_create_stream env port (w.with_unlock b)
      = (gst_mmalsrc_create_stream env port w).with_unlock b := by
  unfold gst_mmalsrc_create_stream
  simp only [event_flags_get_with_unlock]
  have hpool : ((vcos_event_flags_get w MMAL_CAM_ANY_EVENT).2.2.with_unlock b).mmalsrc.cam_pool
      = (vcos_event_flags_get w MMAL_CAM_ANY_EVENT).2.2.mmalsrc.cam_pool := rfl
  rw [hpool]
  cases (vcos_event_flags_get w MMAL_CAM_ANY_EVENT).2.2.mmalsrc.cam_pool with
  | none => rfl
  | some pool =>
    simp only [gst_mmalsrc_create_refill]
    have hp : ((vcos_event_flags_get w MMAL_CAM_ANY_EVENT).2.2.with_unlock b).pools
        = (vcos_event_flags_get w MMAL_CAM_ANY_EVENT).2.2.pools := rfl
    rw [hp, send_loop_with_unlock, arrivals_with_unlock]
    generalize List.foldl hw_deliver
      (gst_mmalsrc_create_send_loop env port pool
        ((vcos_event_flags_get w MMAL_CAM_ANY_EVENT).2.2.pools pool)
        (vcos_event_flags_get w MMAL_CAM_ANY_EVENT).2.2) env.arrivals = wq
    have hq : (wq.with_unlock b).mmalsrc.queue_video_frames = wq.mmalsrc.queue_video_frames :=
      rfl
    rw [hq]
    cases wq.mmalsrc.queue_video_frames with
    | none => rfl
    | some q =>
      simp only [mmal_queue_wait]
      have hqs : (wq.with_unlock b).queues = wq.queues := rfl
      rw [hqs]
      cases wq.queues q <;> rfl

/-- A pull started with another value of the `unlock` field does the same and
leaves the same state, up to that field. -/
theorem create_with_unlock (env : CreateEnv) (w : World) (b : Bool) :
    gst_mmalsrc_create env (w.with_unlock b)
      = (gst_mmalsrc_create env w).with_unlock b := by
  unfold gst_mmalsrc_create
  have h1 : (w.with_unlock b).mmalsrc.camera_component = w.mmalsrc.camera_component := rfl
  have h2 : (w.with_unlock b).mmalsrc.cam_port = w.mmalsrc.cam_port := rfl
  have h3 : (w.with_unlock b).mmalsrc.first_port_config = w.mmalsrc.first_port_config := rfl
  rw [h1, h2, h3]
  by_cases hb : w.mmalsrc.camera_component.isNone = true
  · simp only [hb, if_true]
    rfl
  · simp only [hb, Bool.false_eq_true, if_false]
    cases w.mmalsrc.cam_port with
    | none => rfl
    | some port =>
      simp only
      by_cases h0 : (w.mmalsrc.first_port_config == 0) = true
      · simp only [h0, if_true, port_config_with_unlock]
        by_cases hcfg : (gst_mmalsrc_create_port_config env port w).1 = true
        · simp only [hcfg, Bool.not_true, Bool.false_eq_true, if_false]
          exact stream_with_unlock env port _ b
        · simp only [hcfg, Bool.not_false, if_true]
          rfl
      · simp only [h0, Bool.false_eq_true, if_false, Bool.not_true]
        exact stream_with_unlock env port w b

/-- C14. `gst_mmalsrc_unlock` and `gst_mmalsrc_unlock_stop` return `TRUE` and
change nothing but the `unlock` field, which they set to true and to false;
and the pull never reads that field: from two states that differ only in
`unlock`, `gst_mmalsrc_create` returns the same flow result with the same
frame (or blocks in both), makes the same library calls, and leaves the same
pools, queues and hardware-owned buffers. -/
theorem C14_unlock_flag_not_observed (env : CreateEnv) (w : World) (b : Bool) :
    gst_mmalsrc_unlock w = (true, w.with_unlock true) ∧
    gst_mmalsrc_unlock_stop w = (true, w.with_unlock false) ∧
    ((w.with_unlock b).mmalsrc.unlock = b ∧
      (w.with_unlock b).mmalsrc = { w.mmalsrc with unlock := b } ∧
      (w.with_unlock b).cam_port = w.cam_port ∧ (w.with_unlock b).events = w.events ∧
      (w.with_unlock b).pools = w.pools ∧ (w.with_unlock b).queues = w.queues ∧
      (w.with_unlock b).hw = w.hw ∧ (w.with_unlock b).calls = w.calls) ∧
    gst_mmalsrc_create env (w.with_unlock b) = (gst_mmalsrc_create env w).with_unlock b ∧
    (gst_mmalsrc_create env (w.with_unlock b)).result = (gst_mmalsrc_create env w).result ∧
    (gst_mmalsrc_create env (w.with_unlock b)).world?.map World.calls
      = (gst_mmalsrc_create env w).world?.map World.calls ∧
    (gst_mmalsrc_create env (w.with_unlock b)).world?.map World.pools
      = (gst_mmalsrc_create env w).world?.map World.pools ∧
    (gst_mmalsrc_create env (w.with_unlock b)).world?.map World.queues
      = (gst_mmalsrc_create env w).world?.map World.queues ∧
    (gst_mmalsrc_create env (w.with_unlock b)).world?.map World.hw
      = (gst_mmalsrc_create env w).world?.map World.hw := by
  refine ⟨rfl, rfl, ⟨rfl, rfl, rfl, rfl, rfl, rfl, rfl, rfl⟩, create_with_unlock env w b,
    ?_, ?_, ?_, ?_, ?_⟩ <;>
  · rw [create_with_unlock]
    cases gst_mmalsrc_create env w <;> rfl

/-! ## C15: the refill loop -/

/-- The loop written with `mmal_queue_get` ends, after one evaluation of its
condition more than there are free buffers, in the state the refill step
gives. -/
theorem refill_rounds_eq (env : CreateEnv) (port pool : Handle)
    (l : List MMAL_BUFFER_HEADER_T) (w : World) (n : Nat)
    (hl : w.pools pool = l) (hn : l.length < n) :
    gst_mmalsrc_create_refill_rounds env port pool n w
      = some (gst_mmalsrc_create_send_loop env port pool l w) := by
  induction l generalizing w n with
  | nil =>
    cases n with
    | zero => simp at hn
    | succ m => simp [gst_mmalsrc_create_refill_rounds, mmal_queue_get, hl,
        gst_mmalsrc_create_send_loop]
  | cons b rest ih =>
    cases n with
    | zero => simp at hn
    | succ m =>
      simp only [gst_mmalsrc_create_refill_rounds, mmal_queue_get, hl,
        gst_mmalsrc_create_send_loop]
      apply ih
      · simp only [mmal_port_send_buffer, World.call]
        split <;> simp [setAt]
      · simp only [List.length_cons] at hn
        omega

/-- Whatever the statuses of the submissions, the refill empties the
free-list of the pool, leaves the other pools alone, and hands the accepted
buffers to the hardware in order. -/
theorem send_loop_drains (env : CreateEnv) (port pool : Handle)
    (l : List MMAL_BUFFER_HEADER_T) (w : World) (hl : w.pools pool = l) :
    (gst_mmalsrc_create_send_loop env port pool l w).pools pool = [] ∧
    (∀ p, p ≠ pool → (gst_mmalsrc_create_send_loop env port pool l w).pools p = w.pools p) ∧
    (gst_mmalsrc_create_send_loop env port pool l w).hw
      = w.hw ++ l.filter (fun b => decide (env.mmal_port_send_buffer b = .MMAL_SUCCESS)) := by
  induction l generalizing w with
  | nil => simp [gst_mmalsrc_create_send_loop, hl]
  | cons b rest ih =>
    simp only [gst_mmalsrc_create_send_loop]
    obtain ⟨h1, h2, h3⟩ := ih
      (mmal_port_send_buffer env port { w with pools := setAt w.pools pool rest } b).2
      (by simp only [mmal_port_send_buffer, World.call]; split <;> simp [setAt])
    refine ⟨h1, ?_, ?_⟩
    · intro p hp
      rw [h2 p hp]
      simp only [mmal_port_send_buffer, World.call]
      split <;> simp [setAt, hp]
    · rw [h3]
      simp only [mmal_port_send_buffer, World.call]
      by_cases hs : env.mmal_port_send_buffer b = .MMAL_SUCCESS
      · simp [hs]
      · simp [hs]

/-- The calls of the streaming part of a pull, in order: the wait on the
event flags, one submission for each free buffer, and then at most the
dequeue. -/
theorem stream_calls (env : CreateEnv) (port pool : Handle) (w : World)
    (hpool : w.mmalsrc.cam_pool = some pool) (w2 : World)
    (hw2 : (gst_mmalsrc_create_stream env port w).world? = some w2) :
    ∃ dq, w2.calls = w.calls ++ [.vcos_event_flags_get] ++
        (w.pools pool).map (MMAL_CALL.mmal_port_send_buffer port) ++ dq ∧
      (dq = [] ∨ ∃ q, dq = [.mmal_queue_wait q]) := by
  obtain ⟨e1, e2, e3, e4, e5, e6⟩ := vcos_event_flags_get_facts w MMAL_CAM_ANY_EVENT
  obtain ⟨s1, s2, s3, s4, s5⟩ := send_loop_facts env port pool
    ((vcos_event_flags_get w MMAL_CAM_ANY_EVENT).2.2.pools pool)
    (vcos_event_flags_get w MMAL_CAM_ANY_EVENT).2.2
  obtain ⟨a1, a2, a3⟩ := arrivals_facts env.arrivals
    (gst_mmalsrc_create_refill env port pool (vcos_event_flags_get w MMAL_CAM_ANY_EVENT).2.2)
  unfold gst_mmalsrc_create_refill at a1 a2 a3
  have hcalls : (List.foldl hw_deliver
      (gst_mmalsrc_create_send_loop env port pool
        ((vcos_event_flags_get w MMAL_CAM_ANY_EVENT).2.2.pools pool)
        (vcos_event_flags_get w MMAL_CAM_ANY_EVENT).2.2) env.arrivals).calls
      = w.calls ++ [.vcos_event_flags_get] ++
        (w.pools pool).map (MMAL_CALL.mmal_port_send_buffer port) := by
    rw [a3, s5, e6, e3]
  unfold gst_mmalsrc_create_stream at hw2
  simp only [e2, hpool, gst_mmalsrc_create_refill] at hw2
  generalize List.foldl hw_deliver
      (gst_mmalsrc_create_send_loop env port pool
        ((vcos_event_flags_get w MMAL_CAM_ANY_EVENT).2.2.pools pool)
        (vcos_event_flags_get w MMAL_CAM_ANY_EVENT).2.2) env.arrivals = wq at hw2 hcalls
  cases hqv : wq.mmalsrc.queue_video_frames with
  | none =>
    simp only [hqv, mmal_queue_wait, CreateOutcome.world?, Option.some.injEq] at hw2
    subst hw2
    exact ⟨[], by rw [hcalls]; simp, Or.inl rfl⟩
  | some q =>
    cases hl : wq.queues q with
    | nil =>
      simp only [hqv, mmal_queue_wait, hl, CreateOutcome.world?, Option.some.injEq] at hw2
      subst hw2
      exact ⟨[], by rw [hcalls]; simp, Or.inl rfl⟩
    | cons bh rest =>
      simp only [hqv, mmal_queue_wait, hl, CreateOutcome.world?, Option.some.injEq] at hw2
      subst hw2
      exact ⟨[.mmal_queue_wait q], by simp [World.call, hcalls], Or.inr ⟨q, rfl⟩⟩

/-- A pull on a configured element is its streaming part. -/
theorem create_configured (env : CreateEnv) (w : World) (port : Handle)
    (hcomp : w.mmalsrc.camera_component.isSome = true)
    (hport : w.mmalsrc.cam_port = some port)
    (hcfg : w.mmalsrc.first_port_config ≠ 0) :
    gst_mmalsrc_create env w = gst_mmalsrc_create_stream env port w := by
  have hc : w.mmalsrc.camera_component.isNone = false := by
    cases h : w.mmalsrc.camera_component <;> simp [h] at hcomp ⊢
  have hne : (w.mmalsrc.first_port_config == 0) = false := by simpa using hcfg
  unfold gst_mmalsrc_create
  simp [hc, hport, hne]

/-- C15. The refill loop of `gst_mmalsrc_create` ends for every free-list:
run as the source writes it, it stops at the evaluation of its condition that
follows the last free buffer, in the state of the refill step. Whatever the
statuses of the submissions, when the loop exits the free-list of the pool is
empty, the other pools and the queues are unchanged, the submissions made are
exactly one for each buffer that was free on entry, in free-list order (a
refused one does not stop the following ones), and the hardware owns the
accepted buffers. In a pull on a configured element all these submissions
come after the bounded wait on the event flags and before the blocking
dequeue, whether the dequeue returns or not. -/
theorem C15_refill_drains_free_list (env : CreateEnv) (port pool : Handle) (w : World) :
    gst_mmalsrc_create_refill_rounds env port pool ((w.pools pool).length + 1) w
      = some (gst_mmalsrc_create_refill env port pool w) ∧
    (∀ n, (w.pools pool).length < n →
      gst_mmalsrc_create_refill_rounds env port pool n w
        = some (gst_mmalsrc_create_refill env port pool w)) ∧
    (gst_mmalsrc_create_refill env port pool w).pools pool = [] ∧
    (∀ p, p ≠ pool → (gst_mmalsrc_create_refill env port pool w).pools p = w.pools p) ∧
    (gst_mmalsrc_create_refill env port pool w).queues = w.queues ∧
    (gst_mmalsrc_create_refill env port pool w).calls
      = w.calls ++ (w.pools pool).map (MMAL_CALL.mmal_port_send_buffer port) ∧
    (gst_mmalsrc_create_refill env port pool w).hw
      = w.hw ++ (w.pools pool).filter
          (fun b => decide (env.mmal_port_send_buffer b = .MMAL_SUCCESS)) ∧
    (w.mmalsrc.camera_component.isSome = true → w.mmalsrc.cam_port = some port →
      w.mmalsrc.first_port_config ≠ 0 → w.mmalsrc.cam_pool = some pool →
      ∃ w2 dq, (gst_mmalsrc_create env w).world? = some w2 ∧
        w2.calls = w.calls ++ [.vcos_event_flags_get] ++
          (w.pools pool).map (MMAL_CALL.mmal_port_send_buffer port) ++ dq ∧
        (dq = [] ∨ ∃ q, dq = [.mmal_queue_wait q])) := by
  obtain ⟨d1, d2, d3⟩ := send_loop_drains env port pool (w.pools pool) w rfl
  obtain ⟨_, _, _, f4, f5⟩ := send_loop_facts env port pool (w.pools pool) w
  refine ⟨refill_rounds_eq env port pool _ w _ rfl (Nat.lt_succ_self _),
    fun n hn => refill_rounds_eq env port pool _ w n rfl hn, d1, d2, f4, f5, d3, ?_⟩
  intro hcomp hport hcfg hpool
  rw [create_configured env w port hcomp hport hcfg]
  have hsome := (stream_facts env port w).2.2 (by rw [hpool]; rfl)
  cases hout : (gst_mmalsrc_create_stream env port w).world? with
  | none => simp [hout] at hsome
  | some w2 =>
    obtain ⟨dq, h1, h2⟩ := stream_calls env port pool w hpool w2 hout
    exact ⟨w2, dq, rfl, h1, h2⟩

/-- C15, exercised: with buffers 0, 1 and 2 free and a hardware that refuses
buffer 1, the loop ends at its fourth condition, the free-list is empty, the
three buffers have been submitted in order, and the hardware owns buffers 0
and 2. -/
theorem C15_refill_drains_free_list_witness :
    (gst_mmalsrc_create_refill_rounds refusing_one_env 4 10 3 three_free_world).isNone = true ∧
    (gst_mmalsrc_create_refill_rounds refusing_one_env 4 10 4 three_free_world).isSome = true ∧
    (gst_mmalsrc_create_refill refusing_one_env 4 10 three_free_world).pools 10 = [] ∧
    (gst_mmalsrc_create_refill refusing_one_env 4 10 three_free_world).calls
      = [.mmal_port_send_buffer 4 (demo_buffer 0 0 0),
         .mmal_port_send_buffer 4 (demo_buffer 1 0 0),
         .mmal_port_send_buffer 4 (demo_buffer 2 0 0)] ∧
    (gst_mmalsrc_create_refill refusing_one_env 4 10 three_free_world).hw
      = [demo_buffer 0 0 0, demo_buffer 2 0 0] := by
  obtain ⟨h1, _, h3, _, _, h6, h7, _⟩ :=
    C15_refill_drains_free_list refusing_one_env 4 10 three_free_world
  refine ⟨by decide, ?_, h3, h6.trans (by decide), h7.trans (by decide)⟩
  have : (three_free_world.pools 10).length + 1 = 4 := by decide
  rw [this] at h1
  rw [h1]
  rfl

end MMALSrc
